import Mathlib

/-! Passcode validation of rlm_otp (`otp_cardops.c`) and the attribute logging
of rlm_detail (`rlm_detail.c`).

A shallow embedding of `otp_pw_valid` and of the collaborators it calls
(namespace `Otp`), and of `detail_write` (namespace `Detail`).

* C strings are `List Char` (the characters before the terminating NUL).
* The durable per-user state lives in an abstract store `σ`.  Readers are
  functions of the store, the four writers return their status together with
  the store they leave behind.
* Every collaborator call, and every comparison of the candidate, is recorded,
  in program order, in a trace of `Call`s,
  so that "is invoked", "is not invoked" and "in this order" are statements
  about a list.
* `int` values are `Int`; the loop counter and `auth_pos` (an `unsigned`) are
  `Nat`.  `time_t` differences are computed in `Int` (no wrap-around: the
  values are wall-clock seconds).  The window end is assumed below `INT_MAX`,
  so that `++i` never overflows.
* The source is read as compiled for the FreeRADIUS server, with `FREERADIUS`
  defined, so the replay guard on `opt->chal_delay` (lines 232-241) is present.
* For `detail_write` the file `out` is an abstract state `φ`, the writes made to
  it are recorded in a trace, and the attribute list of the packet is a list of
  pairs that the function hands back as it leaves it.
-/

namespace Otp

/-- C string: the characters before the terminating NUL. -/
abbrev CStr := List Char

/-- Modelled from the spec: the `OTP_RC_*` return codes of `otp.h`, which is not
among the sources ("ValidationOutcome: one of OK, AUTH_ERROR, MAXTRIES,
USER_UNKNOWN, AUTHINFO_UNAVAILABLE, SERVICE_ERR"). -/
inductive RC
  | OTP_RC_OK
  | OTP_RC_USER_UNKNOWN
  | OTP_RC_AUTHINFO_UNAVAIL
  | OTP_RC_AUTH_ERR
  | OTP_RC_MAXTRIES
  | OTP_RC_SERVICE_ERR
  deriving DecidableEq, Repr

/-- Modelled from the spec: the `OTP_FC_*` classes returned by
`otp_check_failcount` (declared in `otp.h`, not among the sources): "ok,
soft-fail, hard-fail", plus the error value tested at line 158. -/
inductive FC
  | OTP_FC_FAIL_NONE
  | OTP_FC_FAIL_ERR
  | OTP_FC_FAIL_HARD
  | OTP_FC_FAIL_SOFT
  deriving DecidableEq, Repr

/-- The fields of `otp_option_t` that `otp_pw_valid` reads.  The flags are C
`int`s tested for being nonzero. -/
structure otp_option_t where
  pwdfile : CStr
  syncdir : CStr
  allow_async : Int
  allow_sync : Int
  prepend_pin : Int
  ewindow_size : Int
  ewindow2_size : Int
  ewindow2_delay : Int
  chal_delay : Int

/-- The data fields of `otp_user_info_t`.  The `cardops` pointer of the C
structure is carried next to the record instead of inside it. -/
structure otp_user_info_t where
  username : CStr
  card : CStr
  keystring : CStr
  pin : CStr
  featuremask : Nat
  keyblock : List Nat

/-- What `otp_get_user_info` fills in when it succeeds. -/
structure user_record where
  card : CStr
  keystring : CStr
  pin : CStr

/-- Modelled from the spec: `cardops_t` is declared in `otp_cardops.h`, which is
not among the sources.  The four operations are the spec's `classify`,
`decodeKey`, `computeSyncChallenge` and `computeResponse`; each returns its
result, or `none` where the C function returns nonzero.  A NULL `prefix`
pointer is `none`. -/
structure cardops_t (σ : Type) where
  prefix_str : Option CStr
  prefix_len : Nat
  name2fm : CStr → Option Nat
  keystring2keyblock : CStr → Option (List Nat)
  challenge : σ → CStr → otp_user_info_t → Nat → Nat → Option CStr
  response : otp_user_info_t → CStr → Option CStr

/-- The collaborators of `otp_pw_valid` (all defined outside the sources), the
two feature bits of `otp.h`, the global `otp_cardops` table and the clock. -/
structure Env (σ : Type) where
  OTP_CF_AM : Nat
  OTP_CF_SM : Nat
  otp_cardops : List (cardops_t σ)
  otp_get_user_info : CStr → CStr → Int × user_record
  otp_get_last_auth : σ → CStr → CStr → Option Int
  otp_check_failcount : σ → CStr → otp_option_t → FC
  otp_challenge_transform : CStr → CStr → Option CStr
  otp_get_last_auth_pos : σ → CStr → CStr → Int
  otp_set_sync_data : σ → CStr → CStr → CStr → List Nat → Int × σ
  otp_reset_failcount : σ → CStr → CStr → Int × σ
  otp_incr_failcount : σ → CStr → CStr → Int × σ
  otp_set_last_auth_pos : σ → CStr → CStr → Nat → Int × σ
  time : Int

/-- One collaborator call, or one `strcmp` of the candidate, with the arguments
that vary inside one call of `otp_pw_valid`. -/
inductive Call
  | get_user_info
  | name2fm
  | keystring2keyblock
  | get_last_auth
  | check_failcount
  | challenge_transform (challenge : CStr)
  | response (challenge : CStr)
  | strcmp (passcode e_response : CStr)
  | cmpfunc (data : Nat) (e_response : CStr)
  | get_last_auth_pos
  | challenge (ewin twin : Nat)
  | set_sync_data (challenge : CStr) (keyblock : List Nat)
  | reset_failcount
  | incr_failcount
  | set_last_auth_pos (pos : Nat)
  deriving DecidableEq, Repr

/-- The four operations that write durable state. -/
def Call.isWrite : Call → Bool
  | .set_sync_data _ _ => true
  | .reset_failcount => true
  | .incr_failcount => true
  | .set_last_auth_pos _ => true
  | _ => false

/-- Where the decision part of `otp_pw_valid` leaves to: the label `auth_done`
with the local variables the commit reads, or `auth_done_service_err`. -/
inductive Jump
  | auth_done (rc : RC) (resync : Int) (auth_pos : Nat)
  | auth_done_service_err (rc : RC)
  deriving DecidableEq, Repr

/-- Result of lines 76-392: the jump taken, the calls made, and (once resolved)
the user record and provider that the commit uses. -/
structure Pre (σ : Type) where
  jump : Jump
  trace : List Call
  user : Option (otp_user_info_t × cardops_t σ)

/-- Result of a whole call: return code, store left behind, calls made. -/
structure Outcome (σ : Type) where
  rc : RC
  store : σ
  trace : List Call

/-- Put the calls already made in front of a later part's trace. -/
def Pre.after {σ : Type} (tr : List Call) (p : Pre σ) : Pre σ :=
  { p with trace := tr ++ p.trace }

/-- The libc `strcmp`, of which the source only tests the result against zero. -/
def strcmp (a b : CStr) : Int := if a = b then 0 else 1

/-- The libc `tolower` on ASCII letters. -/
def tolower (c : Char) : Char := c.toLower

/-- The libc `strncasecmp(a, b, n)`: zero exactly when the first `n` characters
agree up to letter case (a string that ends earlier must end where the other
does). -/
def strncasecmp (a b : CStr) (n : Nat) : Int :=
  if (a.take n).map tolower = (b.take n).map tolower then 0 else 1

/-- Lines 105-112: the scan of `otp_cardops`, which stops at the first entry with
a NULL prefix and binds the first entry whose prefix matches the card name. -/
def find_cardops {σ : Type} : List (cardops_t σ) → CStr → Option (cardops_t σ)
  | [], _ => none
  | co :: rest, card =>
    match co.prefix_str with
    | none => none
    | some p => if strncasecmp p card co.prefix_len = 0 then some co else find_cardops rest card

/-- Lines 204-208 and 316-320: "Test user-supplied passcode".  Returns `nmatch`
and the comparison made: `strcmp` when a literal passcode is supplied, else the
comparison function.  The last case is excluded by the sanity check of line
81. -/
def test_passcode (passcode : Option CStr) (cmpfunc : Option (Nat → CStr → Int)) (data : Nat)
    (e_response : CStr) : Int × List Call :=
  match passcode, cmpfunc with
  | some p, _ => (strcmp p e_response, [Call.strcmp p e_response])
  | none, some f => (f data e_response, [Call.cmpfunc data e_response])
  | none, none => (1, [])

/-- The provider writes its response at `&e_response[pin_adjust]`: whatever the
buffer held from that offset on is replaced. -/
def write_response (e_response : CStr) (pin_adjust : Nat) (r : CStr) : CStr :=
  e_response.take pin_adjust ++ r

/-- Lines 201 and 313, "Add PIN if needed": `strcat(e_response, user_info.pin)`
unless the PIN was prepended. -/
def add_pin (opt : otp_option_t) (pin e_response : CStr) : CStr :=
  if opt.prepend_pin = 0 then e_response ++ pin else e_response

/-- Lines 321-385: what the window scan does once the passcode is valid at
offset `i` ("if (!nmatch)"). -/
def sync_matched {σ : Type} (env : Env σ) (resync : Int) (opt : otp_option_t)
    (last_auth_time : Int) (fc : FC) (last_auth_pos : Int) (i : Nat) : Jump :=
  if fc = .OTP_FC_FAIL_HARD then
    .auth_done .OTP_RC_MAXTRIES resync 0
  else if fc = .OTP_FC_FAIL_SOFT then
    if opt.ewindow2_size = 0 then
      -- ewindow2 mode not configured
      .auth_done .OTP_RC_MAXTRIES resync 0
    else if last_auth_pos ≠ 0 ∧ (i : Int) = last_auth_pos + 1 ∧
        env.time - last_auth_time < opt.ewindow2_delay then
      -- This is the 2nd of two consecutive responses: authenticated in sync mode.
      .auth_done .OTP_RC_OK 1 0
    else
      -- correct, but not consecutive or not soon enough
      .auth_done .OTP_RC_AUTH_ERR resync i
  else
    -- Authenticated in sync mode.
    .auth_done .OTP_RC_OK 1 0

/-- Lines 209-249: what the async attempt does once the passcode is valid
("if (!nmatch)"). -/
def async_matched {σ : Type} (env : Env σ) (resync : Int) (opt : otp_option_t)
    (last_auth_time : Int) (fc : FC) : Jump :=
  if opt.allow_async = 0 then
    .auth_done .OTP_RC_AUTH_ERR resync 0
  else if fc = .OTP_FC_FAIL_HARD then
    .auth_done .OTP_RC_MAXTRIES resync 0
  else if fc = .OTP_FC_FAIL_SOFT then
    .auth_done .OTP_RC_MAXTRIES resync 0
  else if env.time - last_auth_time < opt.chal_delay then
    .auth_done .OTP_RC_MAXTRIES resync 0
  else
    -- Authenticated in async mode.
    .auth_done .OTP_RC_OK resync 0

/-- Lines 276-388: the window scan `for (i = start; i <= end; ++i)`.  `n` is the
number of iterations left, that is `end + 1 - i`; the loop is left when it is
zero, with `rc = OTP_RC_AUTH_ERR` of line 392 ("Both async and sync mode
failed"). -/
def sync_window {σ : Type} (env : Env σ) (passcode : Option CStr) (resync : Int)
    (opt : otp_option_t) (cmpfunc : Option (Nat → CStr → Int)) (data : Nat) (s : σ)
    (user_info : otp_user_info_t) (co : cardops_t σ) (pin_adjust : Nat)
    (last_auth_time : Int) (fc : FC) (last_auth_pos : Int) :
    Nat → Nat → CStr → Pre σ
  | 0, _, _ => ⟨.auth_done .OTP_RC_AUTH_ERR resync 0, [], some (user_info, co)⟩
  | n + 1, i, e_response =>
    -- Get sync challenge and key.
    match co.challenge s opt.syncdir user_info i 0 with
    | none => ⟨.auth_done_service_err .OTP_RC_SERVICE_ERR, [.challenge i 0], some (user_info, co)⟩
    | some challenge =>
      -- Calculate sync response.
      match co.response user_info challenge with
      | none =>
        ⟨.auth_done_service_err .OTP_RC_SERVICE_ERR, [.challenge i 0, .response challenge],
          some (user_info, co)⟩
      | some r =>
        -- Add PIN if needed.
        let e_response := add_pin opt user_info.pin (write_response e_response pin_adjust r)
        -- Test user-supplied passcode.
        let t := test_passcode passcode cmpfunc data e_response
        let tr := [Call.challenge i 0, Call.response challenge] ++ t.2
        if t.1 = 0 then
          ⟨sync_matched env resync opt last_auth_time fc last_auth_pos i, tr, some (user_info, co)⟩
        else
          (sync_window env passcode resync opt cmpfunc data s user_info co pin_adjust
            last_auth_time fc last_auth_pos n (i + 1) e_response).after tr

/-- Lines 253-392, label `sync_response`. -/
def sync_response {σ : Type} (env : Env σ) (username : CStr) (passcode : Option CStr)
    (resync : Int) (opt : otp_option_t) (cmpfunc : Option (Nat → CStr → Int)) (data : Nat)
    (s : σ) (user_info : otp_user_info_t) (co : cardops_t σ) (pin_adjust : Nat)
    (last_auth_time : Int) (fc : FC) (e_response : CStr) : Pre σ :=
  if user_info.featuremask &&& env.OTP_CF_SM ≠ 0 ∧ opt.allow_sync ≠ 0 then
    -- Increase window for ewindow2.
    if opt.ewindow2_size ≠ 0 ∧ fc = .OTP_FC_FAIL_SOFT then
      let last_auth_pos := env.otp_get_last_auth_pos s opt.syncdir username
      if last_auth_pos < 0 then
        ⟨.auth_done_service_err .OTP_RC_SERVICE_ERR, [.get_last_auth_pos], some (user_info, co)⟩
      else
        (sync_window env passcode resync opt cmpfunc data s user_info co pin_adjust
          last_auth_time fc last_auth_pos (opt.ewindow2_size + 1).toNat 0 e_response).after
          [.get_last_auth_pos]
    else
      sync_window env passcode resync opt cmpfunc data s user_info co pin_adjust
        last_auth_time fc 0 (opt.ewindow_size + 1).toNat 0 e_response
  else
    -- Both async and sync mode failed.
    ⟨.auth_done .OTP_RC_AUTH_ERR resync 0, [], some (user_info, co)⟩

/-- Lines 164-251, label `async_response`, falling through to `sync_response`. -/
def async_response {σ : Type} (env : Env σ) (username : CStr) (challenge : CStr)
    (passcode : Option CStr) (resync : Int) (opt : otp_option_t)
    (cmpfunc : Option (Nat → CStr → Int)) (data : Nat) (s : σ)
    (user_info : otp_user_info_t) (co : cardops_t σ) (pin_adjust : Nat)
    (last_auth_time : Int) (fc : FC) (e_response : CStr) : Pre σ :=
  if challenge ≠ [] ∧ user_info.featuremask &&& env.OTP_CF_AM ≠ 0 ∧ opt.allow_async ≠ 0 then
    -- Perform any site-specific transforms of the challenge.
    match env.otp_challenge_transform username challenge with
    | none =>
      ⟨.auth_done_service_err .OTP_RC_SERVICE_ERR, [.challenge_transform challenge],
        some (user_info, co)⟩
    | some challenge1 =>
      -- Calculate the async response.
      match co.response user_info challenge1 with
      | none =>
        ⟨.auth_done_service_err .OTP_RC_SERVICE_ERR,
          [.challenge_transform challenge, .response challenge1], some (user_info, co)⟩
      | some r =>
        -- Add PIN if needed.
        let e_response := add_pin opt user_info.pin (write_response e_response pin_adjust r)
        -- Test user-supplied passcode.
        let t := test_passcode passcode cmpfunc data e_response
        let tr := [Call.challenge_transform challenge, Call.response challenge1] ++ t.2
        if t.1 = 0 then
          ⟨async_matched env resync opt last_auth_time fc, tr, some (user_info, co)⟩
        else
          (sync_response env username passcode resync opt cmpfunc data s user_info co
            pin_adjust last_auth_time fc e_response).after tr
  else
    sync_response env username passcode resync opt cmpfunc data s user_info co pin_adjust
      last_auth_time fc e_response

/-- Lines 76-392 of `otp_pw_valid`: everything before the label `auth_done`.
`e_response` is uninitialised on entry; it is read only from offset
`pin_adjust` on, after a response was written there, so its initial contents
are taken to be empty. -/
def otp_pw_valid_pre {σ : Type} (env : Env σ) (username : CStr) (challenge : Option CStr)
    (passcode : Option CStr) (resync : Int) (opt : otp_option_t)
    (cmpfunc : Option (Nat → CStr → Int)) (data : Nat) (s : σ) : Pre σ :=
  -- sanity
  match challenge with
  | none => ⟨.auth_done_service_err .OTP_RC_SERVICE_ERR, [], none⟩
  | some challenge =>
    if passcode = none ∧ cmpfunc.isNone then
      ⟨.auth_done_service_err .OTP_RC_SERVICE_ERR, [], none⟩
    else
      -- Look up user info.
      let u := env.otp_get_user_info opt.pwdfile username
      if u.1 = -1 then
        ⟨.auth_done_service_err .OTP_RC_USER_UNKNOWN, [.get_user_info], none⟩
      else if u.1 = -2 then
        ⟨.auth_done_service_err .OTP_RC_AUTHINFO_UNAVAIL, [.get_user_info], none⟩
      else
        -- Find the correct cardops module.
        match find_cardops env.otp_cardops u.2.card with
        | none => ⟨.auth_done_service_err .OTP_RC_SERVICE_ERR, [.get_user_info], none⟩
        | some co =>
          -- Convert name to a feature mask once, for fast operations later.
          match co.name2fm u.2.card with
          | none =>
            ⟨.auth_done_service_err .OTP_RC_SERVICE_ERR, [.get_user_info, .name2fm], none⟩
          | some featuremask =>
            -- Convert keystring to a keyblock.
            match co.keystring2keyblock u.2.keystring with
            | none =>
              ⟨.auth_done_service_err .OTP_RC_SERVICE_ERR,
                [.get_user_info, .name2fm, .keystring2keyblock], none⟩
            | some keyblock =>
              let user_info : otp_user_info_t :=
                { username := username, card := u.2.card, keystring := u.2.keystring,
                  pin := u.2.pin, featuremask := featuremask, keyblock := keyblock }
              -- Adjust e_response for PIN prepend.
              let e_response : CStr := if opt.prepend_pin ≠ 0 then user_info.pin else []
              let pin_adjust : Nat := if opt.prepend_pin ≠ 0 then e_response.length else 0
              -- Get the time of the last authentication.
              match env.otp_get_last_auth s opt.syncdir username with
              | none =>
                ⟨.auth_done_service_err .OTP_RC_SERVICE_ERR,
                  [.get_user_info, .name2fm, .keystring2keyblock, .get_last_auth],
                  some (user_info, co)⟩
              | some last_auth_time =>
                -- Get failure count for later evaluation.
                let fc := env.otp_check_failcount s username opt
                if fc = .OTP_FC_FAIL_ERR then
                  ⟨.auth_done_service_err .OTP_RC_SERVICE_ERR,
                    [.get_user_info, .name2fm, .keystring2keyblock, .get_last_auth,
                      .check_failcount], some (user_info, co)⟩
                else
                  (async_response env username challenge passcode resync opt cmpfunc data s
                    user_info co pin_adjust last_auth_time fc e_response).after
                    [.get_user_info, .name2fm, .keystring2keyblock, .get_last_auth,
                      .check_failcount]

/-- Lines 394-453, label `auth_done`: the commit. -/
def auth_done {σ : Type} (env : Env σ) (username : CStr) (opt : otp_option_t) (s : σ)
    (user_info : otp_user_info_t) (co : cardops_t σ) (rc : RC) (resync : Int)
    (auth_pos : Nat) : Outcome σ :=
  if rc = .OTP_RC_OK then
    if resync ≠ 0 then
      -- Resync the card.
      match co.challenge s opt.syncdir user_info 1 0 with
      | none => ⟨.OTP_RC_SERVICE_ERR, s, [.challenge 1 0]⟩
      | some challenge =>
        let w := env.otp_set_sync_data s opt.syncdir username challenge user_info.keyblock
        ⟨if w.1 ≠ 0 then .OTP_RC_SERVICE_ERR else rc, w.2,
          [.challenge 1 0, .set_sync_data challenge user_info.keyblock]⟩
    else
      -- Just update failcount, last_auth_time, auth_pos.
      let w := env.otp_reset_failcount s opt.syncdir username
      ⟨if w.1 ≠ 0 then .OTP_RC_SERVICE_ERR else rc, w.2, [.reset_failcount]⟩
  else
    let w1 := env.otp_incr_failcount s opt.syncdir username
    let rc1 := if w1.1 ≠ 0 then RC.OTP_RC_SERVICE_ERR else rc
    let w2 := env.otp_set_last_auth_pos w1.2 opt.syncdir username auth_pos
    let rc2 := if w2.1 ≠ 0 then RC.OTP_RC_SERVICE_ERR else rc1
    ⟨rc2, w2.2, [.incr_failcount, .set_last_auth_pos auth_pos]⟩

/-- The C function `otp_pw_valid` (the `log_prefix` argument only feeds the
log and is left out): lines 76-392, then the commit at `auth_done`, or the
plain `return rc` at `auth_done_service_err`. -/
def otp_pw_valid {σ : Type} (env : Env σ) (username : CStr) (challenge : Option CStr)
    (passcode : Option CStr) (resync : Int) (opt : otp_option_t)
    (cmpfunc : Option (Nat → CStr → Int)) (data : Nat) (s : σ) : Outcome σ :=
  let p := otp_pw_valid_pre env username challenge passcode resync opt cmpfunc data s
  match p.jump, p.user with
  | .auth_done rc resync1 auth_pos, some (user_info, co) =>
    let o := auth_done env username opt s user_info co rc resync1 auth_pos
    ⟨o.rc, o.store, p.trace ++ o.trace⟩
  | .auth_done rc _ _, none => ⟨rc, s, p.trace⟩
  | .auth_done_service_err rc, _ => ⟨rc, s, p.trace⟩

/-! ## The vocabulary of the specification -/

/-- The expected string in the spec's words: "PIN-prepended-or-appended (per
configuration) concatenation of PIN and `computeResponse`". -/
def expected (opt : otp_option_t) (pin r : CStr) : CStr :=
  if opt.prepend_pin ≠ 0 then pin ++ r else r ++ pin

/-- Contents of `e_response` after lines 140-144. -/
def e_response_init (opt : otp_option_t) (pin : CStr) : CStr :=
  if opt.prepend_pin ≠ 0 then pin else []

/-- Value of `pin_adjust` after lines 140-144. -/
def pin_adjust_init (opt : otp_option_t) (pin : CStr) : Nat :=
  if opt.prepend_pin ≠ 0 then (e_response_init opt pin).length else 0

/-- The buffer still starts with what line 142 put there. -/
def GoodBuf (opt : otp_option_t) (pin e_response : CStr) : Prop :=
  e_response.take (pin_adjust_init opt pin) = e_response_init opt pin

/-- Outcome of comparing the candidate with the expected sync response at window
offset `i`: `none` if the provider fails there, else the value of `nmatch`. -/
def sync_nmatch {σ : Type} (passcode : Option CStr) (opt : otp_option_t)
    (cmpfunc : Option (Nat → CStr → Int)) (data : Nat) (s : σ)
    (user_info : otp_user_info_t) (co : cardops_t σ) (i : Nat) : Option Int :=
  match co.challenge s opt.syncdir user_info i 0 with
  | none => none
  | some challenge =>
    match co.response user_info challenge with
    | none => none
    | some r => some (test_passcode passcode cmpfunc data (expected opt user_info.pin r)).1

/-- Outcome of comparing the candidate with the expected async response:
`none` if the transform or the provider fails, else the value of `nmatch`. -/
def async_nmatch {σ : Type} (env : Env σ) (username challenge : CStr)
    (passcode : Option CStr) (opt : otp_option_t) (cmpfunc : Option (Nat → CStr → Int))
    (data : Nat) (user_info : otp_user_info_t) (co : cardops_t σ) : Option Int :=
  match env.otp_challenge_transform username challenge with
  | none => none
  | some challenge1 =>
    match co.response user_info challenge1 with
    | none => none
    | some r => some (test_passcode passcode cmpfunc data (expected opt user_info.pin r)).1

/-- The condition of line 168 under which the async attempt is entered. -/
def async_entered {σ : Type} (env : Env σ) (challenge : CStr) (opt : otp_option_t)
    (user_info : otp_user_info_t) : Prop :=
  challenge ≠ [] ∧ user_info.featuremask &&& env.OTP_CF_AM ≠ 0 ∧ opt.allow_async ≠ 0

/-- The condition of line 259 under which the sync attempt is entered. -/
def sync_entered {σ : Type} (env : Env σ) (opt : otp_option_t)
    (user_info : otp_user_info_t) : Prop :=
  user_info.featuremask &&& env.OTP_CF_SM ≠ 0 ∧ opt.allow_sync ≠ 0

instance {σ : Type} (env : Env σ) (challenge : CStr) (opt : otp_option_t)
    (user_info : otp_user_info_t) : Decidable (async_entered env challenge opt user_info) := by
  unfold async_entered
  infer_instance

instance {σ : Type} (env : Env σ) (opt : otp_option_t) (user_info : otp_user_info_t) :
    Decidable (sync_entered env opt user_info) := by
  unfold sync_entered
  infer_instance

/-- There is no async match: the async attempt is not entered, or it is
carried out and the candidate differs from the expected async response. -/
def no_async_match {σ : Type} (env : Env σ) (username challenge : CStr)
    (passcode : Option CStr) (opt : otp_option_t) (cmpfunc : Option (Nat → CStr → Int))
    (data : Nat) (user_info : otp_user_info_t) (co : cardops_t σ) : Prop :=
  ¬ async_entered env challenge opt user_info ∨
    ∃ n, async_nmatch env username challenge passcode opt cmpfunc data user_info co = some n ∧
      n ≠ 0

/-- The call passes the sanity checks and every lookup of lines 76-162: the
user record is found, its provider is `co`, the resolved record is
`user_info`, the last authentication time is `last_auth_time` and the
failcount policy is `fc`. -/
structure Resolved {σ : Type} (env : Env σ) (username : CStr) (passcode : Option CStr)
    (opt : otp_option_t) (cmpfunc : Option (Nat → CStr → Int)) (s : σ)
    (user_info : otp_user_info_t) (co : cardops_t σ) (last_auth_time : Int) (fc : FC) :
    Prop where
  testable : ¬ (passcode = none ∧ cmpfunc.isNone)
  found : (env.otp_get_user_info opt.pwdfile username).1 ≠ -1
  readable : (env.otp_get_user_info opt.pwdfile username).1 ≠ -2
  provider : find_cardops env.otp_cardops (env.otp_get_user_info opt.pwdfile username).2.card =
    some co
  mask : co.name2fm (env.otp_get_user_info opt.pwdfile username).2.card =
    some user_info.featuremask
  key : co.keystring2keyblock (env.otp_get_user_info opt.pwdfile username).2.keystring =
    some user_info.keyblock
  name : user_info.username = username
  card : user_info.card = (env.otp_get_user_info opt.pwdfile username).2.card
  keystring : user_info.keystring = (env.otp_get_user_info opt.pwdfile username).2.keystring
  pin : user_info.pin = (env.otp_get_user_info opt.pwdfile username).2.pin
  last_auth : env.otp_get_last_auth s opt.syncdir username = some last_auth_time
  policy : env.otp_check_failcount s username opt = fc
  policy_ok : fc ≠ .OTP_FC_FAIL_ERR

/-- The calls of lines 88-157, made by every call that gets as far as the label
`async_response`. -/
def lookup_calls : List Call :=
  [.get_user_info, .name2fm, .keystring2keyblock, .get_last_auth, .check_failcount]

/-- The window offsets for which the provider's challenge operation is queried,
in the order of the queries. -/
def challenge_offsets : List Call → List Nat
  | [] => []
  | .challenge ewin _ :: tr => ewin :: challenge_offsets tr
  | _ :: tr => challenge_offsets tr

/-- The write operations invoked, in order. -/
def writes (tr : List Call) : List Call := tr.filter Call.isWrite

/-- The calls made by the commit at `auth_done`: those after the decision
part's. -/
def commit_calls {σ : Type} (p : Pre σ) (o : Outcome σ) : List Call :=
  o.trace.drop p.trace.length

/-- End of the search window (lines 260-274): the extended window in soft-fail
when one is configured, else the base window. -/
def window_end (opt : otp_option_t) (fc : FC) : Int :=
  if opt.ewindow2_size ≠ 0 ∧ fc = .OTP_FC_FAIL_SOFT then opt.ewindow2_size else opt.ewindow_size

/-- Value of `last_auth_pos` during the scan (lines 260-274): read from the
store exactly when the window is extended, else 0. -/
def last_pos {σ : Type} (env : Env σ) (username : CStr) (opt : otp_option_t) (s : σ)
    (fc : FC) : Int :=
  if opt.ewindow2_size ≠ 0 ∧ fc = .OTP_FC_FAIL_SOFT then
    env.otp_get_last_auth_pos s opt.syncdir username
  else 0

/-- The candidate matches the expected sync response first at window offset `i`:
it matches there, and at every earlier offset the provider succeeds and the
candidate differs. -/
def first_sync_match {σ : Type} (passcode : Option CStr) (opt : otp_option_t)
    (cmpfunc : Option (Nat → CStr → Int)) (data : Nat) (s : σ)
    (user_info : otp_user_info_t) (co : cardops_t σ) (i : Nat) : Prop :=
  sync_nmatch passcode opt cmpfunc data s user_info co i = some 0 ∧
    ∀ j, j < i → ∃ m, sync_nmatch passcode opt cmpfunc data s user_info co j = some m ∧ m ≠ 0

/-- The call is accepted through the sync path: the decision is `OTP_RC_OK` and it
was taken inside the window scan, after a sync challenge was queried (line
383). -/
def accepted_sync {σ : Type} (p : Pre σ) : Prop :=
  (∃ r a, p.jump = .auth_done .OTP_RC_OK r a) ∧ challenge_offsets p.trace ≠ []

/-- The call is accepted through the async path: the decision is `OTP_RC_OK` and
it was taken before any sync challenge was queried (line 244). -/
def accepted_async {σ : Type} (p : Pre σ) : Prop :=
  (∃ r a, p.jump = .auth_done .OTP_RC_OK r a) ∧ challenge_offsets p.trace = []

/-- The calls of a resync (lines 414-421): the sync challenge at window offset 1,
token offset 0, is computed and, when that succeeds, handed to
`otp_set_sync_data` together with the key block. -/
def resync_calls {σ : Type} (opt : otp_option_t) (s : σ) (user_info : otp_user_info_t)
    (co : cardops_t σ) : List Call :=
  .challenge 1 0 ::
    match co.challenge s opt.syncdir user_info 1 0 with
    | none => []
    | some ch => [.set_sync_data ch user_info.keyblock]

/-- The strings the candidate was compared with, in the order of the
comparisons. -/
def compared : List Call → List CStr
  | [] => []
  | .strcmp _ e :: tr => e :: compared tr
  | .cmpfunc _ e :: tr => e :: compared tr
  | _ :: tr => compared tr

/-- The responses the provider computed, in the order of the computations; a
computation that failed contributes nothing. -/
def responded {σ : Type} (user_info : otp_user_info_t) (co : cardops_t σ) : List Call → List CStr
  | [] => []
  | .response ch :: tr =>
    match co.response user_info ch with
    | some r => r :: responded user_info co tr
    | none => responded user_info co tr
  | _ :: tr => responded user_info co tr

/-- The calls of `otp_challenge_transform`. -/
def Call.isTransform : Call → Bool
  | .challenge_transform _ => true
  | _ => false

/-- The calls of the comparison function. -/
def Call.isCmpfunc : Call → Bool
  | .cmpfunc _ _ => true
  | _ => false

/-- The calls the sync attempt (lines 253-392) can make. -/
def Call.inSync : Call → Bool
  | .get_last_auth_pos => true
  | .challenge _ _ => true
  | .response _ => true
  | .strcmp _ _ => true
  | .cmpfunc _ _ => true
  | _ => false

/-- The provider operations invoked: `name2fm`, `keystring2keyblock`, `challenge`
and `response`. -/
def Call.isProvider : Call → Bool
  | .name2fm => true
  | .keystring2keyblock => true
  | .challenge _ _ => true
  | .response _ => true
  | _ => false

/-- The test of line 107 on one table entry: the entry has a prefix and
`strncasecmp(prefix, card, prefix_len)` is zero. -/
def entry_matches {σ : Type} (co : cardops_t σ) (card : CStr) : Prop :=
  ∃ p, co.prefix_str = some p ∧ strncasecmp p card co.prefix_len = 0

/-- The match of an entry in the spec's words: the prefix equals the first
`prefix_len` characters of the card-type string, ignoring letter case. -/
def prefix_matches {σ : Type} (co : cardops_t σ) (card : CStr) : Prop :=
  ∃ p, co.prefix_str = some p ∧ p.map tolower = (card.take co.prefix_len).map tolower

/-- The test of lines 358-360 that makes a match at offset `i` the second of two
consecutive passcodes. -/
def override_ok {σ : Type} (env : Env σ) (opt : otp_option_t) (last_auth_time : Int)
    (last_auth_pos : Int) (i : Nat) : Prop :=
  last_auth_pos ≠ 0 ∧ (i : Int) = last_auth_pos + 1 ∧
    env.time - last_auth_time < opt.ewindow2_delay

/-! ## A concrete store and provider, on which the model is evaluated -/

/-- Modelled from the spec: the per-user record of the Sync State Store, whose
code is not among the sources ("last-auth timestamp, last-accepted window
position, failure count, key-material snapshot used for resync"; here the
snapshot is the event counter `sync` the sync challenges are derived from). -/
structure SyncState where
  last_auth : Int
  last_auth_pos : Nat
  failcount : Nat
  sync : Nat
  deriving DecidableEq, Repr

/-- Knobs of the concrete environment: the clock, the soft and hard failcount
thresholds, the status returned by the four writers, the first window offset at
which the provider's challenge operation fails, and the feature mask. -/
structure Scenario where
  time : Int := 1000
  soft : Nat := 3
  hard : Nat := 6
  write_rc : Int := 0
  fail_from : Nat := 100
  fm : Nat := 3

/-- A counter-based provider: the sync challenge at window offset `e` is the
counter `sync + e` in unary, the response to a challenge is the challenge with
an `r` in front. -/
def card0 (k : Scenario) : cardops_t SyncState :=
  { prefix_str := some ['c', 'c']
    prefix_len := 2
    name2fm := fun _ => some k.fm
    keystring2keyblock := fun _ => some [7]
    challenge := fun s _ _ ewin _ =>
      if ewin < k.fail_from then some (List.replicate (s.sync + ewin) 'c') else none
    response := fun _ ch => some ('r' :: ch) }

/-- A writer of the concrete store: it fails, leaving the store alone, when the
scenario says so, else it stores `s1`. -/
def write0 (k : Scenario) (s s1 : SyncState) : Int × SyncState :=
  if k.write_rc ≠ 0 then (k.write_rc, s) else (0, s1)

/-- The concrete environment: one user `bob` with card `CC1` and PIN `9`; async
bit 2, sync bit 1; a failing write leaves the store alone; a failed attempt and
a success both stamp the time. -/
def env0 (k : Scenario) : Env SyncState :=
  { OTP_CF_AM := 2
    OTP_CF_SM := 1
    otp_cardops := [card0 k]
    otp_get_user_info := fun _ u =>
      if u = ['b', 'o', 'b'] then (0, ⟨['C', 'C', '1'], ['k'], ['9']⟩) else (-1, ⟨[], [], []⟩)
    otp_get_last_auth := fun s _ _ => some s.last_auth
    otp_check_failcount := fun s _ _ =>
      if k.hard ≤ s.failcount then .OTP_FC_FAIL_HARD
      else if k.soft ≤ s.failcount then .OTP_FC_FAIL_SOFT else .OTP_FC_FAIL_NONE
    otp_challenge_transform := fun _ c => some c
    otp_get_last_auth_pos := fun s _ _ => s.last_auth_pos
    otp_set_sync_data := fun s _ _ ch _ =>
      write0 k s { last_auth := k.time, last_auth_pos := 0, failcount := 0, sync := ch.length }
    otp_reset_failcount := fun s _ _ =>
      write0 k s { s with last_auth := k.time, last_auth_pos := 0, failcount := 0 }
    otp_incr_failcount := fun s _ _ =>
      write0 k s { s with last_auth := k.time, failcount := s.failcount + 1 }
    otp_set_last_auth_pos := fun s _ _ pos => write0 k s { s with last_auth_pos := pos }
    time := k.time }

/-- Options of the concrete runs: both modes allowed, PIN appended, base window
`[0, 2]`, extended window `[0, 5]`, both delays 60 seconds. -/
def opt0 : otp_option_t :=
  { pwdfile := ['p'], syncdir := ['d'], allow_async := 1, allow_sync := 1, prepend_pin := 0,
    ewindow_size := 2, ewindow2_size := 5, ewindow2_delay := 60, chal_delay := 60 }

/-- The user `bob`. -/
def bob : CStr := ['b', 'o', 'b']

/-- The resolved record of `bob` under scenario `k`. -/
def bob_info (k : Scenario) : otp_user_info_t :=
  { username := bob, card := ['C', 'C', '1'], keystring := ['k'], pin := ['9'],
    featuremask := k.fm, keyblock := [7] }

/-- The passcode that is correct at window position `p` when the counter is
`sync`: the response to the challenge there, followed by the PIN. -/
def code0 (sync p : Nat) : CStr := 'r' :: List.replicate (sync + p) 'c' ++ ['9']

/-- A store: last authentication at time 0, `fails` failures recorded. -/
def store0 (fails pos : Nat) : SyncState :=
  { last_auth := 0, last_auth_pos := pos, failcount := fails, sync := 4 }

end Otp

/-! ## Attribute logging of rlm_detail (`rlm_detail.c`) -/

namespace Detail

/-- C string: the characters before the terminating NUL. -/
abbrev CStr := List Char

/-- A pointer to a dictionary attribute (`fr_dict_attr_t const *`): the address,
by which `detail_cmp` tells attributes apart, and the two fields of the entry
that `detail_write` reads.  The NULL pointer has address 0. -/
structure fr_dict_attr_t where
  addr : Nat
  vendor : Nat
  attr : Nat
  deriving DecidableEq, Repr

/-- The fields of `VALUE_PAIR` that `detail_write` touches: the dictionary
attribute, the operator (an `FR_TOKEN`), and the value, which is only handed on
to the printer (`data` stands for the member of the value union that the
attribute's type selects). -/
structure VALUE_PAIR where
  da : fr_dict_attr_t
  op : Nat
  data : Nat
  deriving DecidableEq, Repr

/-- The fields of `fr_ipaddr_t` read at lines 265-281: the address family and
the two members of the address union. -/
structure fr_ipaddr_t where
  af : Nat
  ip4addr : Nat
  ip6addr : Nat
  deriving DecidableEq, Repr

/-- The fields of `RADIUS_PACKET` that `detail_write` reads; `vps` is the linked
list of attributes, in list order, empty for a NULL head. -/
structure RADIUS_PACKET where
  code : Nat
  src_ipaddr : fr_ipaddr_t
  dst_ipaddr : fr_ipaddr_t
  src_port : Nat
  dst_port : Nat
  vps : List VALUE_PAIR
  deriving DecidableEq, Repr

/-- The fields of `REQUEST` that `detail_write` reads: the packet sent to the home
server (`request->proxy->packet`, `none` for a NULL `request->proxy`) and
`request->packet->timestamp.tv_sec`. -/
structure REQUEST where
  proxy : Option RADIUS_PACKET
  timestamp_sec : Nat
  deriving DecidableEq, Repr

/-- The fields of `rlm_detail_t` that `detail_write` reads; `ht` is `none` for a
NULL table pointer. -/
structure rlm_detail_t (η : Type) where
  header : CStr
  log_srcdst : Bool
  ht : Option η

/-- One line written through the macro `WRITE`, by its format string. -/
inductive Line
  | header (timestamp : CStr)
  | packet_type_name (name : CStr)
  | packet_type_code (code : Nat)
  | proxied_to (addr : CStr)
  | timestamp (sec : Nat)
  | blank
  deriving DecidableEq, Repr

/-- One call that writes to the file `out`: an `fprintf` of the macro `WRITE`, or
`fr_pair_fprint` with the pair as it is when printed. -/
inductive Call
  | fprintf (l : Line)
  | fr_pair_fprint (vp : VALUE_PAIR)
  deriving DecidableEq, Repr

/-- The collaborators of `detail_write` (all defined outside the sources) and the
constants of the headers it uses.  `η` is the type of hash tables, `φ` the state
of the file `out`; `talloc k` tells whether the `k`-th allocation of the call
succeeds; `fprintf` returns its result and the file it leaves. -/
structure Env (η φ : Type) where
  T_OP_EQ : Nat
  PW_USER_PASSWORD : Nat
  PW_PACKET_SRC_IP_ADDRESS : Nat
  PW_PACKET_DST_IP_ADDRESS : Nat
  PW_PACKET_SRC_IPV6_ADDRESS : Nat
  PW_PACKET_DST_IPV6_ADDRESS : Nat
  PW_PACKET_SRC_PORT : Nat
  PW_PACKET_DST_PORT : Nat
  AF_INET : Nat
  AF_INET6 : Nat
  xlat_eval : REQUEST → CStr → Int × CStr
  is_radius_code : Nat → Bool
  fr_packet_codes : Nat → CStr
  fr_dict_attr_by_num : Nat → Nat → fr_dict_attr_t
  fr_hash_table_finddata : η → fr_dict_attr_t → Bool
  talloc : Nat → Bool
  fprintf : φ → Line → Int × φ
  fr_pair_fprint : φ → VALUE_PAIR → φ
  inet_ntop : fr_ipaddr_t → CStr

/-- Result of `detail_write`: the value returned, the file left behind, the
writes made, in order, and the attribute list of the packet as the call leaves
it. -/
structure Result (φ : Type) where
  rc : Int
  out : φ
  trace : List Call
  vps : List VALUE_PAIR

/-- Lines 107-113: the comparison of the suppression table, a pointer
difference. -/
def detail_cmp (one two : fr_dict_attr_t) : Int := (one.addr : Int) - (two.addr : Int)

/-- Lines 199-210, "Wrapper for VPs allocated on the stack": a copy of the pair is
printed with the operator set to `T_OP_EQ`, unless the allocation of the copy
fails. -/
def detail_fr_pair_fprint {η φ : Type} (env : Env η φ) (k : Nat) (out : φ)
    (stacked : VALUE_PAIR) : φ × List Call :=
  if env.talloc k then
    let vp := { stacked with op := env.T_OP_EQ }
    (env.fr_pair_fprint out vp, [Call.fr_pair_fprint vp])
  else
    (out, [])

/-- Lines 247-257: the `Packet-Type` line, written unless in compatibility mode,
by name if the code is a RADIUS code, else by number. -/
def write_packet_type {η φ : Type} (env : Env η φ) (out : φ) (packet : RADIUS_PACKET)
    (compat : Bool) : Int × φ × List Call :=
  if !compat then
    if env.is_radius_code packet.code then
      let w := env.fprintf out (.packet_type_name (env.fr_packet_codes packet.code))
      (w.1, w.2, [Call.fprintf (.packet_type_name (env.fr_packet_codes packet.code))])
    else
      let w := env.fprintf out (.packet_type_code packet.code)
      (w.1, w.2, [Call.fprintf (.packet_type_code packet.code)])
  else
    (0, out, [])

/-- Lines 259-297: with `log_srcdst`, the source and destination addresses and
ports are printed from pairs built on the stack, zeroed by `memset`. -/
def write_srcdst {η φ : Type} (env : Env η φ) (out : φ) (packet : RADIUS_PACKET) :
    φ × List Call :=
  let zero : VALUE_PAIR := ⟨⟨0, 0, 0⟩, 0, 0⟩
  let src_vp : VALUE_PAIR :=
    if packet.src_ipaddr.af = env.AF_INET then
      { zero with da := env.fr_dict_attr_by_num 0 env.PW_PACKET_SRC_IP_ADDRESS,
                  data := packet.src_ipaddr.ip4addr }
    else if packet.src_ipaddr.af = env.AF_INET6 then
      { zero with da := env.fr_dict_attr_by_num 0 env.PW_PACKET_SRC_IPV6_ADDRESS,
                  data := packet.src_ipaddr.ip6addr }
    else zero
  let dst_vp : VALUE_PAIR :=
    if packet.src_ipaddr.af = env.AF_INET then
      { zero with da := env.fr_dict_attr_by_num 0 env.PW_PACKET_DST_IP_ADDRESS,
                  data := packet.dst_ipaddr.ip4addr }
    else if packet.src_ipaddr.af = env.AF_INET6 then
      { zero with da := env.fr_dict_attr_by_num 0 env.PW_PACKET_DST_IPV6_ADDRESS,
                  data := packet.dst_ipaddr.ip6addr }
    else zero
  let p1 := detail_fr_pair_fprint env 0 out src_vp
  let p2 := detail_fr_pair_fprint env 1 p1.1 dst_vp
  let src_vp1 : VALUE_PAIR :=
    { src_vp with da := env.fr_dict_attr_by_num 0 env.PW_PACKET_SRC_PORT,
                  data := packet.src_port }
  let dst_vp1 : VALUE_PAIR :=
    { dst_vp with da := env.fr_dict_attr_by_num 0 env.PW_PACKET_DST_PORT,
                  data := packet.dst_port }
  let p3 := detail_fr_pair_fprint env 2 p2.1 src_vp1
  let p4 := detail_fr_pair_fprint env 3 p3.1 dst_vp1
  (p4.1, p1.2 ++ p2.2 ++ p3.2 ++ p4.2)

/-- Lines 299-322, "Write each attribute/value to the log file": the cursor walks
the list in order; a pair in the suppression table, or the password in
compatibility mode, is skipped; any other pair is printed with its operator set
to `T_OP_EQ` for the time of the print and put back afterwards.  Returns the
file, the prints, and the list as the loop leaves it. -/
def write_vps {η φ : Type} (env : Env η φ) (inst : rlm_detail_t η) (compat : Bool) :
    List VALUE_PAIR → φ → φ × List Call × List VALUE_PAIR
  | [], out => (out, [], [])
  | vp :: rest, out =>
    if (match inst.ht with
        | some ht => env.fr_hash_table_finddata ht vp.da
        | none => false) then
      let r := write_vps env inst compat rest out
      (r.1, r.2.1, vp :: r.2.2)
    -- Don't print passwords in old format...
    else if compat ∧ vp.da.vendor = 0 ∧ vp.da.attr = env.PW_USER_PASSWORD then
      let r := write_vps env inst compat rest out
      (r.1, r.2.1, vp :: r.2.2)
    else
      -- Print all of the attributes, operator should always be '='.
      let op := vp.op
      let vp1 := { vp with op := env.T_OP_EQ }
      let out1 := env.fr_pair_fprint out vp1
      let vp2 := { vp1 with op := op }
      let r := write_vps env inst compat rest out1
      (r.1, Call.fr_pair_fprint vp1 :: r.2.1, vp2 :: r.2.2)

/-- Lines 324-342: the non-protocol attributes: in compatibility mode the home
server the request was proxied to, then the timestamp and an empty line.  The
source is read as compiled with `WITH_PROXY`. -/
def write_tail {η φ : Type} (env : Env η φ) (out : φ) (request : REQUEST) (compat : Bool) :
    Int × φ × List Call :=
  let p : Int × φ × List Call :=
    match compat, request.proxy with
    | true, some proxy =>
      let w := env.fprintf out (.proxied_to (env.inet_ntop proxy.dst_ipaddr))
      (w.1, w.2, [Call.fprintf (.proxied_to (env.inet_ntop proxy.dst_ipaddr))])
    | _, _ => (0, out, [])
  if p.1 < 0 then (-1, p.2.1, p.2.2)
  else
    let w1 := env.fprintf p.2.1 (.timestamp request.timestamp_sec)
    if w1.1 < 0 then (-1, w1.2, p.2.2 ++ [Call.fprintf (.timestamp request.timestamp_sec)])
    else
      let w2 := env.fprintf w1.2 .blank
      (if w2.1 < 0 then -1 else 0, w2.2,
        p.2.2 ++ [Call.fprintf (.timestamp request.timestamp_sec), Call.fprintf .blank])

/-- The C function `detail_write`, "Write a single detail entry to file
pointer" (lines 221-343).  Each `WRITE` returns -1 from the function when its
`fprintf` fails. -/
def detail_write {η φ : Type} (env : Env η φ) (out : φ) (inst : rlm_detail_t η)
    (request : REQUEST) (packet : RADIUS_PACKET) (compat : Bool) : Result φ :=
  let x := env.xlat_eval request inst.header
  if x.1 < 0 then
    ⟨-1, out, [], packet.vps⟩
  else if packet.vps = [] then
    -- Skipping empty packet
    ⟨0, out, [], packet.vps⟩
  else
    let w := env.fprintf out (.header x.2)
    if w.1 < 0 then
      ⟨-1, w.2, [Call.fprintf (.header x.2)], packet.vps⟩
    else
      -- Write the information to the file.
      let t := write_packet_type env w.2 packet compat
      if t.1 < 0 then
        ⟨-1, t.2.1, [Call.fprintf (.header x.2)] ++ t.2.2, packet.vps⟩
      else
        let sd := if inst.log_srcdst then write_srcdst env t.2.1 packet else (t.2.1, [])
        -- Write each attribute/value to the log file
        let v := write_vps env inst compat packet.vps sd.1
        -- Add non-protocol attributes.
        let e := write_tail env v.1 request compat
        ⟨e.1, e.2.1, [Call.fprintf (.header x.2)] ++ t.2.2 ++ sd.2 ++ v.2.1 ++ e.2.2, v.2.2⟩

/-! ## The vocabulary of the claim about `detail_write` -/

/-- The attribute is in the instance's suppression table (line 307). -/
def suppressed {η φ : Type} (env : Env η φ) (inst : rlm_detail_t η) (vp : VALUE_PAIR) : Bool :=
  match inst.ht with
  | some ht => env.fr_hash_table_finddata ht vp.da
  | none => false

/-- The attribute is the password, which is not printed in compatibility mode
(line 312). -/
def is_password {η φ : Type} (env : Env η φ) (vp : VALUE_PAIR) : Bool :=
  vp.da.vendor = 0 ∧ vp.da.attr = env.PW_USER_PASSWORD

/-- The attribute is to be printed: it is not suppressed, and it is not the
password in compatibility mode. -/
def printed {η φ : Type} (env : Env η φ) (inst : rlm_detail_t η) (compat : Bool)
    (vp : VALUE_PAIR) : Bool :=
  !suppressed env inst vp && !(compat && is_password env vp)

/-- The pair as it is printed: with the operator `=`. -/
def with_eq {η φ : Type} (env : Env η φ) (vp : VALUE_PAIR) : VALUE_PAIR :=
  { vp with op := env.T_OP_EQ }

/-- The attribute prints in the words of the claim: the attributes to be
printed, in list order, each with the operator `=`. -/
def attribute_prints {η φ : Type} (env : Env η φ) (inst : rlm_detail_t η) (compat : Bool)
    (vps : List VALUE_PAIR) : List VALUE_PAIR :=
  (vps.filter (printed env inst compat)).map (with_eq env)

/-- The pairs handed to `fr_pair_fprint`, in the order of the calls. -/
def pair_prints : List Call → List VALUE_PAIR
  | [] => []
  | .fr_pair_fprint vp :: tr => vp :: pair_prints tr
  | .fprintf _ :: tr => pair_prints tr

/-- The header expansion succeeded and the lines before the attributes were
written: the loop over the attributes is reached. -/
def loop_reached {η φ : Type} (env : Env η φ) (out : φ) (inst : rlm_detail_t η)
    (request : REQUEST) (packet : RADIUS_PACKET) (compat : Bool) : Prop :=
  0 ≤ (env.xlat_eval request inst.header).1 ∧ packet.vps ≠ [] ∧
    0 ≤ (env.fprintf out (.header (env.xlat_eval request inst.header).2)).1 ∧
    0 ≤ (write_packet_type env
      (env.fprintf out (.header (env.xlat_eval request inst.header).2)).2 packet compat).1

/-! ## A concrete dictionary, table and file -/

/-- `User-Name`, attribute 1 of the RADIUS dictionary. -/
def user_name : fr_dict_attr_t := ⟨100, 0, 1⟩

/-- `User-Password`, attribute 2. -/
def user_password : fr_dict_attr_t := ⟨200, 0, 2⟩

/-- `NAS-Port`, attribute 5. -/
def nas_port : fr_dict_attr_t := ⟨300, 0, 5⟩

/-- Knobs of the concrete environment: the result of the header expansion and
of every `fprintf`. -/
structure Knobs where
  xlat_rc : Int := 1
  fprintf_rc : Int := 1

/-- The concrete environment: the constants have distinct values; the table is
the list of its entries, searched with `detail_cmp`; the file is the list of the
writes made to it; a failing `fprintf` leaves the file alone. -/
def denv (k : Knobs) : Env (List fr_dict_attr_t) (List Call) :=
  { T_OP_EQ := 12
    PW_USER_PASSWORD := 2
    PW_PACKET_SRC_IP_ADDRESS := 1084
    PW_PACKET_DST_IP_ADDRESS := 1085
    PW_PACKET_SRC_IPV6_ADDRESS := 1088
    PW_PACKET_DST_IPV6_ADDRESS := 1089
    PW_PACKET_SRC_PORT := 1086
    PW_PACKET_DST_PORT := 1087
    AF_INET := 2
    AF_INET6 := 10
    xlat_eval := fun _ h => (k.xlat_rc, h)
    is_radius_code := fun c => decide (0 < c ∧ c < 52)
    fr_packet_codes := fun _ => ['A']
    fr_dict_attr_by_num := fun v a => ⟨1000 + a, v, a⟩
    fr_hash_table_finddata := fun ht da => ht.any fun x => decide (detail_cmp x da = 0)
    talloc := fun _ => true
    fprintf := fun f l =>
      if k.fprintf_rc < 0 then (k.fprintf_rc, f) else (k.fprintf_rc, f ++ [.fprintf l])
    fr_pair_fprint := fun f vp => f ++ [.fr_pair_fprint vp]
    inet_ntop := fun a => List.replicate a.ip4addr '1' }

/-- An instance that suppresses `NAS-Port`. -/
def inst0 : rlm_detail_t (List fr_dict_attr_t) :=
  { header := ['%', 't'], log_srcdst := false, ht := some [nas_port] }

/-- A request that was not proxied. -/
def request0 : REQUEST := { proxy := none, timestamp_sec := 1000 }

/-- An Access-Request with the given attributes. -/
def packet0 (vps : List VALUE_PAIR) : RADIUS_PACKET :=
  { code := 1, src_ipaddr := ⟨2, 1, 0⟩, dst_ipaddr := ⟨2, 2, 0⟩, src_port := 1812,
    dst_port := 1812, vps := vps }

end Detail

namespace Otp

/-! ## Basic facts about the embedding -/

section Basic

variable {σ : Type}

@[simp] theorem Pre.after_jump (tr : List Call) (p : Pre σ) : (p.after tr).jump = p.jump := rfl

@[simp] theorem Pre.after_trace (tr : List Call) (p : Pre σ) :
    (p.after tr).trace = tr ++ p.trace := rfl

@[simp] theorem Pre.after_user (tr : List Call) (p : Pre σ) : (p.after tr).user = p.user := rfl

theorem writes_append (a b : List Call) : writes (a ++ b) = writes a ++ writes b := by
  simp [writes]

theorem writes_test_passcode (passcode : Option CStr) (cmpfunc : Option (Nat → CStr → Int))
    (data : Nat) (e : CStr) : writes (test_passcode passcode cmpfunc data e).2 = [] := by
  unfold test_passcode
  split <;> simp [writes, Call.isWrite]

theorem challenge_offsets_append (a b : List Call) :
    challenge_offsets (a ++ b) = challenge_offsets a ++ challenge_offsets b := by
  induction a with
  | nil => rfl
  | cons c a ih => cases c <;> simp [challenge_offsets, ih]

theorem challenge_offsets_test_passcode (passcode : Option CStr)
    (cmpfunc : Option (Nat → CStr → Int)) (data : Nat) (e : CStr) :
    challenge_offsets (test_passcode passcode cmpfunc data e).2 = [] := by
  unfold test_passcode
  split <;> simp [challenge_offsets]

/-- The buffer discipline of lines 140-144, 180, 202, 290 and 314: whatever the
last attempt left in `e_response`, the string compared next is the PIN-adjusted
response, and the buffer keeps its shape. -/
theorem step_buf (opt : otp_option_t) (pin e r : CStr) (h : GoodBuf opt pin e) :
    add_pin opt pin (write_response e (pin_adjust_init opt pin) r) = expected opt pin r ∧
      GoodBuf opt pin (expected opt pin r) := by
  unfold GoodBuf at *
  unfold add_pin write_response expected
  rw [h]
  by_cases hp : opt.prepend_pin = 0
  · simp [hp, pin_adjust_init, e_response_init]
  · simp [hp, pin_adjust_init, e_response_init]

theorem goodBuf_init (opt : otp_option_t) (pin : CStr) :
    GoodBuf opt pin (e_response_init opt pin) := by
  unfold GoodBuf pin_adjust_init e_response_init
  by_cases hp : opt.prepend_pin = 0 <;> simp [hp]

theorem mem_writes (c : Call) (tr : List Call) (hc : c.isWrite = true) (h : c ∈ tr) :
    c ∈ writes tr := by
  simp [writes, h, hc]

end Basic

/-! ## The window scan -/

section Scan

variable {σ : Type} (env : Env σ) (passcode : Option CStr) (resync : Int)
  (opt : otp_option_t) (cmpfunc : Option (Nat → CStr → Int)) (data : Nat) (s : σ)
  (ui : otp_user_info_t) (co : cardops_t σ) (t : Int) (fc : FC) (lap : Int)

theorem sync_window_writes (pa : Nat) : ∀ (n i : Nat) (e : CStr),
    writes (sync_window env passcode resync opt cmpfunc data s ui co pa t fc lap n i e).trace
      = [] := by
  intro n
  induction n with
  | zero => intro i e; simp [sync_window, writes]
  | succ n ih =>
    intro i e
    unfold sync_window
    split
    · simp [writes, Call.isWrite]
    · split
      · simp [writes, Call.isWrite]
      · dsimp only
        split
        · simp only [writes_append, writes_test_passcode]
          simp [writes, Call.isWrite]
        · simp only [Pre.after_trace, writes_append, writes_test_passcode, ih]
          simp [writes, Call.isWrite]

theorem sync_window_user (pa : Nat) : ∀ (n i : Nat) (e : CStr),
    (sync_window env passcode resync opt cmpfunc data s ui co pa t fc lap n i e).user
      = some (ui, co) := by
  intro n
  induction n with
  | zero => intro i e; simp [sync_window]
  | succ n ih =>
    intro i e
    unfold sync_window
    split
    · rfl
    · split
      · rfl
      · dsimp only
        split
        · rfl
        · simp only [Pre.after_user, ih]

/-- One iteration of the scan, at an offset where the provider succeeds: the
candidate is compared with the PIN-adjusted response for that offset, whatever
the buffer held before. -/
theorem sync_window_step (n i : Nat) (e : CStr) (hg : GoodBuf opt ui.pin e) (m : Int)
    (hm : sync_nmatch passcode opt cmpfunc data s ui co i = some m) :
    ∃ ch r, co.challenge s opt.syncdir ui i 0 = some ch ∧ co.response ui ch = some r ∧
      (test_passcode passcode cmpfunc data (expected opt ui.pin r)).1 = m ∧
      sync_window env passcode resync opt cmpfunc data s ui co (pin_adjust_init opt ui.pin)
          t fc lap (n + 1) i e =
        if m = 0 then
          ⟨sync_matched env resync opt t fc lap i,
            [Call.challenge i 0, Call.response ch] ++
              (test_passcode passcode cmpfunc data (expected opt ui.pin r)).2, some (ui, co)⟩
        else
          (sync_window env passcode resync opt cmpfunc data s ui co
            (pin_adjust_init opt ui.pin) t fc lap n (i + 1) (expected opt ui.pin r)).after
            ([Call.challenge i 0, Call.response ch] ++
              (test_passcode passcode cmpfunc data (expected opt ui.pin r)).2) := by
  unfold sync_nmatch at hm
  cases hc : co.challenge s opt.syncdir ui i 0 with
  | none => simp [hc] at hm
  | some ch =>
    cases hr : co.response ui ch with
    | none => simp [hc, hr] at hm
    | some r =>
      simp only [hc, hr, Option.some.injEq] at hm
      refine ⟨ch, r, rfl, hr, hm, ?_⟩
      rw [sync_window]
      simp only [hc, hr, (step_buf opt ui.pin e r hg).1, hm]

/-- A scan over offsets that all mismatch runs to the end of the window:
`rc = OTP_RC_AUTH_ERR`, no window position, every offset queried once, in
ascending order. -/
theorem sync_window_no_match : ∀ (n i : Nat) (e : CStr), GoodBuf opt ui.pin e →
    (∀ j, j < n → ∃ m, sync_nmatch passcode opt cmpfunc data s ui co (i + j) = some m ∧ m ≠ 0) →
    (sync_window env passcode resync opt cmpfunc data s ui co (pin_adjust_init opt ui.pin)
        t fc lap n i e).jump = .auth_done .OTP_RC_AUTH_ERR resync 0 ∧
    challenge_offsets (sync_window env passcode resync opt cmpfunc data s ui co
        (pin_adjust_init opt ui.pin) t fc lap n i e).trace = List.range' i n := by
  intro n
  induction n with
  | zero => intro i e _ _; simp [sync_window, challenge_offsets]
  | succ n ih =>
    intro i e hg h
    obtain ⟨m, hm, hne⟩ := h 0 (Nat.succ_pos n)
    obtain ⟨ch, r, _, _, _, heq⟩ :=
      sync_window_step env passcode resync opt cmpfunc data s ui co t fc lap n i e hg m hm
    rw [heq, if_neg hne]
    have hrec := ih (i + 1) (expected opt ui.pin r) (step_buf opt ui.pin e r hg).2
      (fun j hj => by
        have := h (j + 1) (Nat.succ_lt_succ hj)
        rwa [show i + 1 + j = i + (j + 1) by omega])
    refine ⟨by simpa using hrec.1, ?_⟩
    simp only [Pre.after_trace, challenge_offsets_append, challenge_offsets_test_passcode,
      hrec.2]
    simp [challenge_offsets, List.range'_succ]

/-- A scan whose first match is `k` offsets ahead stops there: the decision is
the one of lines 321-385 at that offset, and exactly the offsets up to it were
queried, in ascending order. -/
theorem sync_window_first_match : ∀ (k n i : Nat) (e : CStr), GoodBuf opt ui.pin e → k < n →
    (∀ j, j < k → ∃ m, sync_nmatch passcode opt cmpfunc data s ui co (i + j) = some m ∧ m ≠ 0) →
    sync_nmatch passcode opt cmpfunc data s ui co (i + k) = some 0 →
    (sync_window env passcode resync opt cmpfunc data s ui co (pin_adjust_init opt ui.pin)
        t fc lap n i e).jump = sync_matched env resync opt t fc lap (i + k) ∧
    challenge_offsets (sync_window env passcode resync opt cmpfunc data s ui co
        (pin_adjust_init opt ui.pin) t fc lap n i e).trace = List.range' i (k + 1) := by
  intro k
  induction k with
  | zero =>
    intro n i e hg hk _ h0
    obtain ⟨n, rfl⟩ : ∃ n1, n = n1 + 1 := ⟨n - 1, by omega⟩
    obtain ⟨ch, r, _, _, _, heq⟩ :=
      sync_window_step env passcode resync opt cmpfunc data s ui co t fc lap n i e hg 0 h0
    rw [heq, if_pos rfl]
    simp [challenge_offsets_append, challenge_offsets_test_passcode, challenge_offsets]
  | succ k ih =>
    intro n i e hg hk h hmatch
    obtain ⟨n, rfl⟩ : ∃ n1, n = n1 + 1 := ⟨n - 1, by omega⟩
    obtain ⟨m, hm, hne⟩ := h 0 (Nat.succ_pos k)
    obtain ⟨ch, r, _, _, _, heq⟩ :=
      sync_window_step env passcode resync opt cmpfunc data s ui co t fc lap n i e hg m hm
    rw [heq, if_neg hne]
    have hrec := ih n (i + 1) (expected opt ui.pin r) (step_buf opt ui.pin e r hg).2
      (by omega)
      (fun j hj => by
        have := h (j + 1) (Nat.succ_lt_succ hj)
        rwa [show i + 1 + j = i + (j + 1) by omega])
      (by rwa [show i + 1 + k = i + (k + 1) by omega])
    refine ⟨by simpa [show i + 1 + k = i + (k + 1) by omega] using hrec.1, ?_⟩
    simp only [Pre.after_trace, challenge_offsets_append, challenge_offsets_test_passcode,
      hrec.2]
    simp [challenge_offsets, List.range'_succ]

end Scan

/-! ## The sync and async attempts -/

section Attempts

variable {σ : Type} (env : Env σ) (username : CStr) (passcode : Option CStr) (resync : Int)
  (opt : otp_option_t) (cmpfunc : Option (Nat → CStr → Int)) (data : Nat) (s : σ)
  (ui : otp_user_info_t) (co : cardops_t σ) (t : Int) (fc : FC)

theorem sync_response_writes (pa : Nat) (e : CStr) :
    writes (sync_response env username passcode resync opt cmpfunc data s ui co pa t fc e).trace
      = [] := by
  unfold sync_response
  split
  · split
    · dsimp only
      split
      · simp [writes, Call.isWrite]
      · simp only [Pre.after_trace, writes_append, sync_window_writes]
        simp [writes, Call.isWrite]
    · exact sync_window_writes _ _ _ _ _ _ _ _ _ _ _ _ _ _ _ _
  · simp [writes]

theorem sync_response_user (pa : Nat) (e : CStr) :
    (sync_response env username passcode resync opt cmpfunc data s ui co pa t fc e).user
      = some (ui, co) := by
  unfold sync_response
  split
  · split
    · dsimp only
      split
      · rfl
      · simp only [Pre.after_user, sync_window_user]
    · exact sync_window_user _ _ _ _ _ _ _ _ _ _ _ _ _ _ _ _
  · rfl

theorem async_response_writes (challenge : CStr) (pa : Nat) (e : CStr) :
    writes (async_response env username challenge passcode resync opt cmpfunc data s ui co pa
      t fc e).trace = [] := by
  unfold async_response
  split
  · split
    · simp [writes, Call.isWrite]
    · split
      · simp [writes, Call.isWrite]
      · dsimp only
        split
        · simp only [writes_append, writes_test_passcode]
          simp [writes, Call.isWrite]
        · simp only [Pre.after_trace, writes_append, writes_test_passcode,
            sync_response_writes]
          simp [writes, Call.isWrite]
  · exact sync_response_writes _ _ _ _ _ _ _ _ _ _ _ _ _ _

theorem async_response_user (challenge : CStr) (pa : Nat) (e : CStr) :
    (async_response env username challenge passcode resync opt cmpfunc data s ui co pa
      t fc e).user = some (ui, co) := by
  unfold async_response
  split
  · split
    · rfl
    · split
      · rfl
      · dsimp only
        split
        · rfl
        · simp only [Pre.after_user, sync_response_user]
  · exact sync_response_user _ _ _ _ _ _ _ _ _ _ _ _ _ _

/-- The sync attempt, once entered, is the scan of the window `[0, window_end]`
with the recorded position `last_pos`, after the read of that position when
the window is extended. -/
theorem sync_response_entered (e : CStr) (hs : sync_entered env opt ui)
    (hpos : 0 ≤ last_pos env username opt s fc) :
    ∃ tr, challenge_offsets tr = [] ∧
      sync_response env username passcode resync opt cmpfunc data s ui co
          (pin_adjust_init opt ui.pin) t fc e =
        (sync_window env passcode resync opt cmpfunc data s ui co (pin_adjust_init opt ui.pin)
          t fc (last_pos env username opt s fc) (window_end opt fc + 1).toNat 0 e).after tr := by
  unfold sync_entered at hs
  unfold sync_response
  rw [if_pos hs]
  by_cases hw : opt.ewindow2_size ≠ 0 ∧ fc = .OTP_FC_FAIL_SOFT
  · have hl : last_pos env username opt s fc = env.otp_get_last_auth_pos s opt.syncdir username := by
      simp only [last_pos, if_pos hw]
    have he : window_end opt fc = opt.ewindow2_size := by simp only [window_end, if_pos hw]
    rw [hl] at hpos
    refine ⟨[.get_last_auth_pos], rfl, ?_⟩
    rw [if_pos hw, hl, he]
    simp only [not_lt.mpr hpos, if_false]
  · have hl : last_pos env username opt s fc = 0 := by simp only [last_pos, if_neg hw]
    have he : window_end opt fc = opt.ewindow_size := by simp only [window_end, if_neg hw]
    refine ⟨[], rfl, ?_⟩
    rw [if_neg hw, hl, he]
    rfl

theorem sync_response_first_match (e : CStr) (hg : GoodBuf opt ui.pin e)
    (hs : sync_entered env opt ui) (hpos : 0 ≤ last_pos env username opt s fc) (i : Nat)
    (hi : (i : Int) ≤ window_end opt fc)
    (hm : first_sync_match passcode opt cmpfunc data s ui co i) :
    (sync_response env username passcode resync opt cmpfunc data s ui co
        (pin_adjust_init opt ui.pin) t fc e).jump =
      sync_matched env resync opt t fc (last_pos env username opt s fc) i ∧
    challenge_offsets (sync_response env username passcode resync opt cmpfunc data s ui co
        (pin_adjust_init opt ui.pin) t fc e).trace = List.range (i + 1) := by
  obtain ⟨tr, htr, heq⟩ :=
    sync_response_entered env username passcode resync opt cmpfunc data s ui co t fc e hs hpos
  have h := sync_window_first_match env passcode resync opt cmpfunc data s ui co t fc
    (last_pos env username opt s fc) i (window_end opt fc + 1).toNat 0 e hg (by omega)
    (fun j hj => by simpa using hm.2 j hj) (by simpa using hm.1)
  rw [heq]
  refine ⟨by simpa using h.1, ?_⟩
  simp only [Pre.after_trace, challenge_offsets_append, htr, h.2, List.nil_append,
    List.range_eq_range']

theorem sync_response_no_match (e : CStr) (hg : GoodBuf opt ui.pin e)
    (hs : sync_entered env opt ui) (hpos : 0 ≤ last_pos env username opt s fc)
    (hm : ∀ j : Nat, (j : Int) ≤ window_end opt fc →
      ∃ m, sync_nmatch passcode opt cmpfunc data s ui co j = some m ∧ m ≠ 0) :
    (sync_response env username passcode resync opt cmpfunc data s ui co
        (pin_adjust_init opt ui.pin) t fc e).jump = .auth_done .OTP_RC_AUTH_ERR resync 0 ∧
    challenge_offsets (sync_response env username passcode resync opt cmpfunc data s ui co
        (pin_adjust_init opt ui.pin) t fc e).trace =
      List.range (window_end opt fc + 1).toNat := by
  obtain ⟨tr, htr, heq⟩ :=
    sync_response_entered env username passcode resync opt cmpfunc data s ui co t fc e hs hpos
  have h := sync_window_no_match env passcode resync opt cmpfunc data s ui co t fc
    (last_pos env username opt s fc) (window_end opt fc + 1).toNat 0 e hg
    (fun j hj => by simpa using hm j (by omega))
  rw [heq]
  refine ⟨by simpa using h.1, ?_⟩
  simp only [Pre.after_trace, challenge_offsets_append, htr, h.2, List.nil_append,
    List.range_eq_range']

/-- The async attempt, once entered with the transform and the provider
succeeding: the candidate is compared with the PIN-adjusted async response. -/
theorem async_response_step (challenge : CStr) (e : CStr) (hg : GoodBuf opt ui.pin e)
    (hent : async_entered env challenge opt ui) (m : Int)
    (hm : async_nmatch env username challenge passcode opt cmpfunc data ui co = some m) :
    ∃ c1 r, env.otp_challenge_transform username challenge = some c1 ∧
      co.response ui c1 = some r ∧
      (test_passcode passcode cmpfunc data (expected opt ui.pin r)).1 = m ∧
      async_response env username challenge passcode resync opt cmpfunc data s ui co
          (pin_adjust_init opt ui.pin) t fc e =
        if m = 0 then
          ⟨async_matched env resync opt t fc,
            [Call.challenge_transform challenge, Call.response c1] ++
              (test_passcode passcode cmpfunc data (expected opt ui.pin r)).2, some (ui, co)⟩
        else
          (sync_response env username passcode resync opt cmpfunc data s ui co
            (pin_adjust_init opt ui.pin) t fc (expected opt ui.pin r)).after
            ([Call.challenge_transform challenge, Call.response c1] ++
              (test_passcode passcode cmpfunc data (expected opt ui.pin r)).2) := by
  unfold async_entered at hent
  unfold async_nmatch at hm
  cases hc : env.otp_challenge_transform username challenge with
  | none => simp [hc] at hm
  | some c1 =>
    cases hr : co.response ui c1 with
    | none => simp [hc, hr] at hm
    | some r =>
      simp only [hc, hr, Option.some.injEq] at hm
      refine ⟨c1, r, rfl, hr, hm, ?_⟩
      rw [async_response]
      simp only [if_pos hent, hc, hr, (step_buf opt ui.pin e r hg).1, hm]

/-- Without an async match the decision is the sync attempt's, on a buffer that
has kept its shape; the async attempt queried no sync challenge. -/
theorem async_response_no_match (challenge : CStr) (e : CStr) (hg : GoodBuf opt ui.pin e)
    (h : no_async_match env username challenge passcode opt cmpfunc data ui co) :
    ∃ tr e1, GoodBuf opt ui.pin e1 ∧ challenge_offsets tr = [] ∧
      async_response env username challenge passcode resync opt cmpfunc data s ui co
          (pin_adjust_init opt ui.pin) t fc e =
        (sync_response env username passcode resync opt cmpfunc data s ui co
          (pin_adjust_init opt ui.pin) t fc e1).after tr := by
  by_cases hent : async_entered env challenge opt ui
  · rcases h with h | ⟨n, hn, hne⟩
    · exact absurd hent h
    · obtain ⟨c1, r, _, _, _, heq⟩ := async_response_step env username passcode resync opt
        cmpfunc data s ui co t fc challenge e hg hent n hn
      refine ⟨[Call.challenge_transform challenge, Call.response c1] ++
          (test_passcode passcode cmpfunc data (expected opt ui.pin r)).2,
        expected opt ui.pin r, (step_buf opt ui.pin e r hg).2, ?_, ?_⟩
      · simp [challenge_offsets_append, challenge_offsets_test_passcode, challenge_offsets]
      · rw [heq, if_neg hne]
  · refine ⟨[], e, hg, rfl, ?_⟩
    unfold async_entered at hent
    unfold async_response
    rw [if_neg hent]
    rfl

/-- With an async match the decision is the one of lines 209-249 and the sync
attempt is not made: neither the recorded position nor a sync challenge is
read. -/
theorem async_response_match (challenge : CStr) (e : CStr) (hg : GoodBuf opt ui.pin e)
    (hent : async_entered env challenge opt ui)
    (h : async_nmatch env username challenge passcode opt cmpfunc data ui co = some 0) :
    (async_response env username challenge passcode resync opt cmpfunc data s ui co
        (pin_adjust_init opt ui.pin) t fc e).jump = async_matched env resync opt t fc ∧
    challenge_offsets (async_response env username challenge passcode resync opt cmpfunc data
        s ui co (pin_adjust_init opt ui.pin) t fc e).trace = [] ∧
    Call.get_last_auth_pos ∉ (async_response env username challenge passcode resync opt
        cmpfunc data s ui co (pin_adjust_init opt ui.pin) t fc e).trace := by
  obtain ⟨c1, r, _, _, _, heq⟩ := async_response_step env username passcode resync opt
    cmpfunc data s ui co t fc challenge e hg hent 0 h
  rw [heq, if_pos rfl]
  refine ⟨rfl, ?_, ?_⟩
  · simp [challenge_offsets_append, challenge_offsets_test_passcode, challenge_offsets]
  · unfold test_passcode
    split <;> simp

end Attempts

/-! ## Where `OTP_RC_OK` can come from -/

section Accept

variable {σ : Type} (env : Env σ) (username : CStr) (passcode : Option CStr) (resync : Int)
  (opt : otp_option_t) (cmpfunc : Option (Nat → CStr → Int)) (data : Nat) (s : σ)
  (ui : otp_user_info_t) (co : cardops_t σ) (t : Int) (fc : FC)

theorem sync_matched_ok (lap : Int) (i : Nat) (r : Int) (a : Nat)
    (h : sync_matched env resync opt t fc lap i = .auth_done .OTP_RC_OK r a) :
    r = 1 ∧ a = 0 := by
  unfold sync_matched at h
  split at h
  · cases h
  · split at h
    · split at h
      · cases h
      · split at h
        · cases h; exact ⟨rfl, rfl⟩
        · cases h
    · cases h; exact ⟨rfl, rfl⟩

theorem async_matched_ok (r : Int) (a : Nat)
    (h : async_matched env resync opt t fc = .auth_done .OTP_RC_OK r a) :
    r = resync ∧ a = 0 := by
  unfold async_matched at h
  split at h
  · cases h
  · split at h
    · cases h
    · split at h
      · cases h
      · split at h
        · cases h
        · cases h; exact ⟨rfl, rfl⟩

/-- An acceptance inside the scan asks for a resync, records no position, and
comes after at least one sync challenge query. -/
theorem sync_window_ok (pa : Nat) (lap : Int) : ∀ (n i : Nat) (e : CStr) (r : Int) (a : Nat),
    (sync_window env passcode resync opt cmpfunc data s ui co pa t fc lap n i e).jump =
      .auth_done .OTP_RC_OK r a →
    r = 1 ∧ a = 0 ∧
      challenge_offsets (sync_window env passcode resync opt cmpfunc data s ui co pa t fc lap
        n i e).trace ≠ [] := by
  intro n
  induction n with
  | zero => intro i e r a h; simp [sync_window] at h
  | succ n ih =>
    intro i e r a
    unfold sync_window
    split
    · intro h; cases h
    · split
      · intro h; cases h
      · dsimp only
        split
        · intro h
          obtain ⟨h1, h2⟩ := sync_matched_ok env resync opt t fc lap i r a h
          exact ⟨h1, h2, by simp [challenge_offsets]⟩
        · intro h
          obtain ⟨h1, h2, _⟩ := ih _ _ r a (by simpa using h)
          exact ⟨h1, h2, by simp [challenge_offsets]⟩

theorem sync_response_ok (pa : Nat) (e : CStr) (r : Int) (a : Nat)
    (h : (sync_response env username passcode resync opt cmpfunc data s ui co pa t fc e).jump =
      .auth_done .OTP_RC_OK r a) :
    r = 1 ∧ a = 0 ∧
      challenge_offsets (sync_response env username passcode resync opt cmpfunc data s ui co pa
        t fc e).trace ≠ [] := by
  revert h
  unfold sync_response
  split
  · split
    · dsimp only
      split
      · intro h; cases h
      · intro h
        obtain ⟨h1, h2, h3⟩ := sync_window_ok env passcode resync opt cmpfunc data s ui co t fc
          pa _ _ _ _ r a (by simpa using h)
        refine ⟨h1, h2, ?_⟩
        simpa [challenge_offsets_append, challenge_offsets] using h3
    · intro h
      exact sync_window_ok env passcode resync opt cmpfunc data s ui co t fc pa _ _ _ _ r a h
  · intro h; cases h

/-- An accepted call either was accepted in the async attempt, with no sync
challenge queried, the caller's `resync` and no position, or in the scan, with
`resync = 1`. -/
theorem async_response_ok (challenge : CStr) (pa : Nat) (e : CStr) (r : Int) (a : Nat)
    (h : (async_response env username challenge passcode resync opt cmpfunc data s ui co pa
      t fc e).jump = .auth_done .OTP_RC_OK r a) :
    a = 0 ∧
    (challenge_offsets (async_response env username challenge passcode resync opt cmpfunc data
        s ui co pa t fc e).trace = [] → r = resync) ∧
    (challenge_offsets (async_response env username challenge passcode resync opt cmpfunc data
        s ui co pa t fc e).trace ≠ [] → r = 1) := by
  revert h
  unfold async_response
  split
  · split
    · intro h; cases h
    · split
      · intro h; cases h
      · dsimp only
        split
        · intro h
          obtain ⟨h1, h2⟩ := async_matched_ok env resync opt t fc r a h
          refine ⟨h2, fun _ => h1, fun hne => absurd ?_ hne⟩
          simp [challenge_offsets_append, challenge_offsets_test_passcode, challenge_offsets]
        · intro h
          obtain ⟨h1, h2, h3⟩ := sync_response_ok env username passcode resync opt cmpfunc data
            s ui co t fc pa _ r a (by simpa using h)
          refine ⟨h2, fun hnil => absurd ?_ h3, fun _ => h1⟩
          simpa [challenge_offsets_append, challenge_offsets_test_passcode, challenge_offsets]
            using hnil
  · intro h
    obtain ⟨h1, h2, h3⟩ := sync_response_ok env username passcode resync opt cmpfunc data
      s ui co t fc pa _ r a h
    exact ⟨h2, fun hnil => absurd hnil h3, fun _ => h1⟩

end Accept

/-! ## The whole call -/

section Whole

variable {σ : Type} (env : Env σ) (username : CStr) (challenge : Option CStr)
  (passcode : Option CStr) (resync : Int) (opt : otp_option_t)
  (cmpfunc : Option (Nat → CStr → Int)) (data : Nat) (s : σ)

/-- Lines 76-392 invoke none of the four write operations. -/
theorem pre_writes :
    writes (otp_pw_valid_pre env username challenge passcode resync opt cmpfunc data s).trace
      = [] := by
  unfold otp_pw_valid_pre
  split
  · rfl
  · split
    · rfl
    · dsimp only
      split
      · rfl
      · split
        · rfl
        · split
          · rfl
          · split
            · rfl
            · split
              · rfl
              · split
                · rfl
                · split
                  · rfl
                  · simp only [Pre.after_trace, writes_append, async_response_writes]
                    rfl

/-- A call that reaches `auth_done` has resolved the user record and provider. -/
theorem pre_user_of_auth_done (rc : RC) (r : Int) (a : Nat)
    (h : (otp_pw_valid_pre env username challenge passcode resync opt cmpfunc data s).jump =
      .auth_done rc r a) :
    ∃ ui co, (otp_pw_valid_pre env username challenge passcode resync opt cmpfunc data s).user =
      some (ui, co) := by
  revert h
  unfold otp_pw_valid_pre
  split
  · intro h; cases h
  · split
    · intro h; cases h
    · dsimp only
      split
      · intro h; cases h
      · split
        · intro h; cases h
        · split
          · intro h; cases h
          · split
            · intro h; cases h
            · split
              · intro h; cases h
              · split
                · intro h; cases h
                · split
                  · intro h; cases h
                  · intro _
                    simp only [Pre.after_user, async_response_user]
                    exact ⟨_, _, rfl⟩

/-- Leaving through `auth_done_service_err` returns `rc` as it stands. -/
theorem otp_pw_valid_exit (rc : RC)
    (h : (otp_pw_valid_pre env username challenge passcode resync opt cmpfunc data s).jump =
      .auth_done_service_err rc) :
    otp_pw_valid env username challenge passcode resync opt cmpfunc data s =
      ⟨rc, s, (otp_pw_valid_pre env username challenge passcode resync opt cmpfunc data s).trace⟩
    := by
  unfold otp_pw_valid
  simp only [h]

/-- Reaching `auth_done` runs the commit on the untouched store. -/
theorem otp_pw_valid_commit (rc : RC) (r : Int) (a : Nat) (ui : otp_user_info_t)
    (co : cardops_t σ)
    (h : (otp_pw_valid_pre env username challenge passcode resync opt cmpfunc data s).jump =
      .auth_done rc r a)
    (hu : (otp_pw_valid_pre env username challenge passcode resync opt cmpfunc data s).user =
      some (ui, co)) :
    otp_pw_valid env username challenge passcode resync opt cmpfunc data s =
      ⟨(auth_done env username opt s ui co rc r a).rc,
        (auth_done env username opt s ui co rc r a).store,
        (otp_pw_valid_pre env username challenge passcode resync opt cmpfunc data s).trace ++
          (auth_done env username opt s ui co rc r a).trace⟩ := by
  unfold otp_pw_valid
  simp only [h, hu]

/-- A resolved call with a challenge goes through the five lookups and then
decides in the async and sync attempts. -/
theorem pre_of_resolved (chal : CStr) (ui : otp_user_info_t) (co : cardops_t σ) (t : Int)
    (fc : FC) (h : Resolved env username passcode opt cmpfunc s ui co t fc) :
    otp_pw_valid_pre env username (some chal) passcode resync opt cmpfunc data s =
      (async_response env username chal passcode resync opt cmpfunc data s ui co
        (pin_adjust_init opt ui.pin) t fc (e_response_init opt ui.pin)).after lookup_calls := by
  have h1 := h.name
  have h2 := h.card
  have h3 := h.keystring
  have h4 := h.pin
  have h5 := h.mask
  have h6 := h.key
  obtain ⟨un, cd, ks, pn, fm, kb⟩ := ui
  simp only at h1 h2 h3 h4 h5 h6
  subst h1 h2 h3 h4
  unfold otp_pw_valid_pre
  simp only [if_neg h.testable, if_neg h.found, if_neg h.readable, h.provider, h5, h6,
    h.last_auth, h.policy, if_neg h.policy_ok]
  rfl

/-- The variables handed to the commit by an accepted call: no window position;
the caller's `resync` after an async acceptance, `resync = 1` after a sync
acceptance. -/
theorem pre_ok (r : Int) (a : Nat)
    (h : (otp_pw_valid_pre env username challenge passcode resync opt cmpfunc data s).jump =
      .auth_done .OTP_RC_OK r a) :
    a = 0 ∧
    (challenge_offsets (otp_pw_valid_pre env username challenge passcode resync opt cmpfunc
        data s).trace = [] → r = resync) ∧
    (challenge_offsets (otp_pw_valid_pre env username challenge passcode resync opt cmpfunc
        data s).trace ≠ [] → r = 1) := by
  revert h
  unfold otp_pw_valid_pre
  split
  · intro h; cases h
  · split
    · intro h; cases h
    · dsimp only
      split
      · intro h; cases h
      · split
        · intro h; cases h
        · split
          · intro h; cases h
          · split
            · intro h; cases h
            · split
              · intro h; cases h
              · split
                · intro h; cases h
                · split
                  · intro h; cases h
                  · intro h
                    have h1 := async_response_ok _ _ _ _ _ _ _ _ _ _ _ _ _ _ _ r a
                      (by simpa using h)
                    simpa [challenge_offsets_append, challenge_offsets] using h1

/-- The record and provider a call carries to the commit: the provider is the
one found for the card name, and the key block is the one it decoded from the
user's key string. -/
theorem pre_user_key (ui : otp_user_info_t) (co : cardops_t σ)
    (h : (otp_pw_valid_pre env username challenge passcode resync opt cmpfunc data s).user =
      some (ui, co)) :
    find_cardops env.otp_cardops (env.otp_get_user_info opt.pwdfile username).2.card = some co ∧
    co.keystring2keyblock (env.otp_get_user_info opt.pwdfile username).2.keystring =
      some ui.keyblock := by
  revert h
  unfold otp_pw_valid_pre
  split
  · intro h; cases h
  · split
    · intro h; cases h
    · dsimp only
      split
      · intro h; cases h
      · split
        · intro h; cases h
        · split
          · intro h; cases h
          · rename_i co1 hco
            split
            · intro h; cases h
            · split
              · intro h; cases h
              · rename_i kb hkb
                split
                · intro h
                  simp only [Option.some.injEq, Prod.mk.injEq] at h
                  obtain ⟨rfl, rfl⟩ := h
                  exact ⟨hco, hkb⟩
                · split
                  · intro h
                    simp only [Option.some.injEq, Prod.mk.injEq] at h
                    obtain ⟨rfl, rfl⟩ := h
                    exact ⟨hco, hkb⟩
                  · intro h
                    simp only [Pre.after_user, async_response_user, Option.some.injEq,
                      Prod.mk.injEq] at h
                    obtain ⟨rfl, rfl⟩ := h
                    exact ⟨hco, hkb⟩

end Whole

/-! ## Resolved calls -/

section ResolvedCalls

variable {σ : Type} (env : Env σ) (username : CStr) (chal : CStr)
  (passcode : Option CStr) (resync : Int) (opt : otp_option_t)
  (cmpfunc : Option (Nat → CStr → Int)) (data : Nat) (s : σ)
  (ui : otp_user_info_t) (co : cardops_t σ) (t : Int) (fc : FC)

theorem pre_user_of_resolved (h : Resolved env username passcode opt cmpfunc s ui co t fc) :
    (otp_pw_valid_pre env username (some chal) passcode resync opt cmpfunc data s).user =
      some (ui, co) := by
  rw [pre_of_resolved env username passcode resync opt cmpfunc data s chal ui co t fc h]
  simp only [Pre.after_user, async_response_user]

/-- A resolved call whose candidate matches the async expected response decides
by lines 209-249 and makes no sync attempt. -/
theorem pre_async_match (h : Resolved env username passcode opt cmpfunc s ui co t fc)
    (hent : async_entered env chal opt ui)
    (hm : async_nmatch env username chal passcode opt cmpfunc data ui co = some 0) :
    (otp_pw_valid_pre env username (some chal) passcode resync opt cmpfunc data s).jump =
      async_matched env resync opt t fc ∧
    challenge_offsets (otp_pw_valid_pre env username (some chal) passcode resync opt cmpfunc
      data s).trace = [] ∧
    Call.get_last_auth_pos ∉ (otp_pw_valid_pre env username (some chal) passcode resync opt
      cmpfunc data s).trace := by
  rw [pre_of_resolved env username passcode resync opt cmpfunc data s chal ui co t fc h]
  obtain ⟨h1, h2, h3⟩ := async_response_match env username passcode resync opt cmpfunc data s
    ui co t fc chal _ (goodBuf_init opt ui.pin) hent hm
  refine ⟨by simpa using h1, ?_, ?_⟩
  · simp only [Pre.after_trace, challenge_offsets_append, h2]
    rfl
  · simp only [Pre.after_trace, List.mem_append, not_or]
    exact ⟨by simp [lookup_calls], h3⟩

/-- A resolved call without an async match whose candidate first matches the
expected sync response at offset `i` of the window decides by lines 321-385 at
`i`, having queried the offsets `0..i` in ascending order. -/
theorem pre_sync_first_match (h : Resolved env username passcode opt cmpfunc s ui co t fc)
    (ha : no_async_match env username chal passcode opt cmpfunc data ui co)
    (hs : sync_entered env opt ui) (hpos : 0 ≤ last_pos env username opt s fc) (i : Nat)
    (hi : (i : Int) ≤ window_end opt fc)
    (hm : first_sync_match passcode opt cmpfunc data s ui co i) :
    (otp_pw_valid_pre env username (some chal) passcode resync opt cmpfunc data s).jump =
      sync_matched env resync opt t fc (last_pos env username opt s fc) i ∧
    challenge_offsets (otp_pw_valid_pre env username (some chal) passcode resync opt cmpfunc
      data s).trace = List.range (i + 1) := by
  rw [pre_of_resolved env username passcode resync opt cmpfunc data s chal ui co t fc h]
  obtain ⟨tr, e1, hg, htr, heq⟩ := async_response_no_match env username passcode resync opt
    cmpfunc data s ui co t fc chal _ (goodBuf_init opt ui.pin) ha
  obtain ⟨h1, h2⟩ := sync_response_first_match env username passcode resync opt cmpfunc data s
    ui co t fc e1 hg hs hpos i hi hm
  rw [heq]
  refine ⟨by simpa using h1, ?_⟩
  simp only [Pre.after_trace, challenge_offsets_append, htr, h2]
  rfl

/-- A resolved call without an async match whose candidate matches at no offset
of the window ends the scan with `OTP_RC_AUTH_ERR`, having queried every offset
of the window in ascending order. -/
theorem pre_sync_no_match (h : Resolved env username passcode opt cmpfunc s ui co t fc)
    (ha : no_async_match env username chal passcode opt cmpfunc data ui co)
    (hs : sync_entered env opt ui) (hpos : 0 ≤ last_pos env username opt s fc)
    (hm : ∀ j : Nat, (j : Int) ≤ window_end opt fc →
      ∃ m, sync_nmatch passcode opt cmpfunc data s ui co j = some m ∧ m ≠ 0) :
    (otp_pw_valid_pre env username (some chal) passcode resync opt cmpfunc data s).jump =
      .auth_done .OTP_RC_AUTH_ERR resync 0 ∧
    challenge_offsets (otp_pw_valid_pre env username (some chal) passcode resync opt cmpfunc
      data s).trace = List.range (window_end opt fc + 1).toNat := by
  rw [pre_of_resolved env username passcode resync opt cmpfunc data s chal ui co t fc h]
  obtain ⟨tr, e1, hg, htr, heq⟩ := async_response_no_match env username passcode resync opt
    cmpfunc data s ui co t fc chal _ (goodBuf_init opt ui.pin) ha
  obtain ⟨h1, h2⟩ := sync_response_no_match env username passcode resync opt cmpfunc data s
    ui co t fc e1 hg hs hpos hm
  rw [heq]
  refine ⟨by simpa using h1, ?_⟩
  simp only [Pre.after_trace, challenge_offsets_append, htr, h2]
  rfl

/-- The failure commit: both writes are attempted, in this order, and either
failing turns the result into `OTP_RC_SERVICE_ERR`. -/
theorem auth_done_failure (rc : RC) (r : Int) (a : Nat) (hrc : rc ≠ .OTP_RC_OK) :
    auth_done env username opt s ui co rc r a =
      ⟨if (env.otp_incr_failcount s opt.syncdir username).1 = 0 ∧
          (env.otp_set_last_auth_pos (env.otp_incr_failcount s opt.syncdir username).2
            opt.syncdir username a).1 = 0 then rc else .OTP_RC_SERVICE_ERR,
        (env.otp_set_last_auth_pos (env.otp_incr_failcount s opt.syncdir username).2
          opt.syncdir username a).2,
        [.incr_failcount, .set_last_auth_pos a]⟩ := by
  unfold auth_done
  rw [if_neg hrc]
  by_cases h1 : (env.otp_incr_failcount s opt.syncdir username).1 = 0 <;>
    by_cases h2 : (env.otp_set_last_auth_pos (env.otp_incr_failcount s opt.syncdir username).2
      opt.syncdir username a).1 = 0 <;> simp [h1, h2]

/-- The success commit with a resync. -/
theorem auth_done_resync (r : Int) (a : Nat) (hr : r ≠ 0) :
    auth_done env username opt s ui co .OTP_RC_OK r a =
      match co.challenge s opt.syncdir ui 1 0 with
      | none => ⟨.OTP_RC_SERVICE_ERR, s, [.challenge 1 0]⟩
      | some ch =>
        ⟨if (env.otp_set_sync_data s opt.syncdir username ch ui.keyblock).1 = 0 then .OTP_RC_OK
          else .OTP_RC_SERVICE_ERR,
          (env.otp_set_sync_data s opt.syncdir username ch ui.keyblock).2,
          [.challenge 1 0, .set_sync_data ch ui.keyblock]⟩ := by
  unfold auth_done
  rw [if_pos rfl, if_pos hr]
  split
  · rfl
  · rename_i ch _
    by_cases h1 : (env.otp_set_sync_data s opt.syncdir username ch ui.keyblock).1 = 0 <;>
      simp [h1]

/-- The success commit without a resync. -/
theorem auth_done_reset (a : Nat) :
    auth_done env username opt s ui co .OTP_RC_OK 0 a =
      ⟨if (env.otp_reset_failcount s opt.syncdir username).1 = 0 then .OTP_RC_OK
        else .OTP_RC_SERVICE_ERR,
        (env.otp_reset_failcount s opt.syncdir username).2, [.reset_failcount]⟩ := by
  unfold auth_done
  by_cases h1 : (env.otp_reset_failcount s opt.syncdir username).1 = 0 <;> simp [h1]

end ResolvedCalls

/-! ## The commit, seen from the whole call -/

section Commit

variable {σ : Type} (env : Env σ) (username : CStr) (challenge : Option CStr)
  (passcode : Option CStr) (resync : Int) (opt : otp_option_t)
  (cmpfunc : Option (Nat → CStr → Int)) (data : Nat) (s : σ)
  (ui : otp_user_info_t) (co : cardops_t σ)

/-- A call that reaches `auth_done` with a result other than `OTP_RC_OK` runs the
failure commit: `otp_incr_failcount`, then `otp_set_last_auth_pos` with the
window position of the decision, and nothing else is written. -/
theorem otp_pw_valid_failure (rc : RC) (r : Int) (a : Nat) (hrc : rc ≠ .OTP_RC_OK)
    (h : (otp_pw_valid_pre env username challenge passcode resync opt cmpfunc data s).jump =
      .auth_done rc r a)
    (hu : (otp_pw_valid_pre env username challenge passcode resync opt cmpfunc data s).user =
      some (ui, co)) :
    (otp_pw_valid env username challenge passcode resync opt cmpfunc data s).rc =
      (if (env.otp_incr_failcount s opt.syncdir username).1 = 0 ∧
          (env.otp_set_last_auth_pos (env.otp_incr_failcount s opt.syncdir username).2
            opt.syncdir username a).1 = 0 then rc else .OTP_RC_SERVICE_ERR) ∧
    (otp_pw_valid env username challenge passcode resync opt cmpfunc data s).store =
      (env.otp_set_last_auth_pos (env.otp_incr_failcount s opt.syncdir username).2
        opt.syncdir username a).2 ∧
    writes (otp_pw_valid env username challenge passcode resync opt cmpfunc data s).trace =
      [.incr_failcount, .set_last_auth_pos a] ∧
    commit_calls (otp_pw_valid_pre env username challenge passcode resync opt cmpfunc data s)
      (otp_pw_valid env username challenge passcode resync opt cmpfunc data s) =
      [.incr_failcount, .set_last_auth_pos a] := by
  rw [otp_pw_valid_commit env username challenge passcode resync opt cmpfunc data s rc r a
    ui co h hu, auth_done_failure env username opt s ui co rc r a hrc]
  refine ⟨rfl, rfl, ?_, ?_⟩
  · simp only [writes_append, pre_writes]
    rfl
  · simp [commit_calls]

/-- A call that reaches `auth_done` with `OTP_RC_OK` and a nonzero `resync` runs
the resync: the sync challenge at offset 1 is computed and, if that succeeds,
handed to `otp_set_sync_data` with the key block. -/
theorem otp_pw_valid_resync (r : Int) (a : Nat) (hr : r ≠ 0)
    (h : (otp_pw_valid_pre env username challenge passcode resync opt cmpfunc data s).jump =
      .auth_done .OTP_RC_OK r a)
    (hu : (otp_pw_valid_pre env username challenge passcode resync opt cmpfunc data s).user =
      some (ui, co)) :
    match co.challenge s opt.syncdir ui 1 0 with
    | none =>
      (otp_pw_valid env username challenge passcode resync opt cmpfunc data s).rc =
        .OTP_RC_SERVICE_ERR ∧
      (otp_pw_valid env username challenge passcode resync opt cmpfunc data s).store = s ∧
      writes (otp_pw_valid env username challenge passcode resync opt cmpfunc data s).trace
        = [] ∧
      commit_calls (otp_pw_valid_pre env username challenge passcode resync opt cmpfunc data s)
        (otp_pw_valid env username challenge passcode resync opt cmpfunc data s) =
        [.challenge 1 0]
    | some ch =>
      (otp_pw_valid env username challenge passcode resync opt cmpfunc data s).rc =
        (if (env.otp_set_sync_data s opt.syncdir username ch ui.keyblock).1 = 0 then .OTP_RC_OK
          else .OTP_RC_SERVICE_ERR) ∧
      (otp_pw_valid env username challenge passcode resync opt cmpfunc data s).store =
        (env.otp_set_sync_data s opt.syncdir username ch ui.keyblock).2 ∧
      writes (otp_pw_valid env username challenge passcode resync opt cmpfunc data s).trace =
        [.set_sync_data ch ui.keyblock] ∧
      commit_calls (otp_pw_valid_pre env username challenge passcode resync opt cmpfunc data s)
        (otp_pw_valid env username challenge passcode resync opt cmpfunc data s) =
        [.challenge 1 0, .set_sync_data ch ui.keyblock] := by
  rw [otp_pw_valid_commit env username challenge passcode resync opt cmpfunc data s .OTP_RC_OK
    r a ui co h hu, auth_done_resync env username opt s ui co r a hr]
  cases hc : co.challenge s opt.syncdir ui 1 0 with
  | none =>
    refine ⟨rfl, rfl, ?_, ?_⟩
    · simp only [writes_append, pre_writes]
      rfl
    · simp [commit_calls]
  | some ch =>
    refine ⟨rfl, rfl, ?_, ?_⟩
    · simp only [writes_append, pre_writes]
      rfl
    · simp [commit_calls]

/-- A call that reaches `auth_done` with `OTP_RC_OK` and `resync = 0` only resets
the failure count. -/
theorem otp_pw_valid_reset (a : Nat)
    (h : (otp_pw_valid_pre env username challenge passcode resync opt cmpfunc data s).jump =
      .auth_done .OTP_RC_OK 0 a)
    (hu : (otp_pw_valid_pre env username challenge passcode resync opt cmpfunc data s).user =
      some (ui, co)) :
    (otp_pw_valid env username challenge passcode resync opt cmpfunc data s).rc =
      (if (env.otp_reset_failcount s opt.syncdir username).1 = 0 then .OTP_RC_OK
        else .OTP_RC_SERVICE_ERR) ∧
    (otp_pw_valid env username challenge passcode resync opt cmpfunc data s).store =
      (env.otp_reset_failcount s opt.syncdir username).2 ∧
    writes (otp_pw_valid env username challenge passcode resync opt cmpfunc data s).trace =
      [.reset_failcount] ∧
    commit_calls (otp_pw_valid_pre env username challenge passcode resync opt cmpfunc data s)
      (otp_pw_valid env username challenge passcode resync opt cmpfunc data s) =
      [.reset_failcount] := by
  rw [otp_pw_valid_commit env username challenge passcode resync opt cmpfunc data s .OTP_RC_OK
    0 a ui co h hu, auth_done_reset env username opt s ui co a]
  refine ⟨rfl, rfl, ?_, ?_⟩
  · simp only [writes_append, pre_writes]
    rfl
  · simp [commit_calls]

/-- The service-error exit is never taken with `OTP_RC_OK`. -/
theorem exit_ne_ok (rc : RC)
    (h : (otp_pw_valid_pre env username challenge passcode resync opt cmpfunc data s).jump =
      .auth_done_service_err rc) : rc ≠ .OTP_RC_OK := by
  have hwin : ∀ (fc : FC) (lap : Int) (pa : Nat) (ui : otp_user_info_t) (co : cardops_t σ)
      (t : Int) (n i : Nat) (e : CStr),
      (sync_window env passcode resync opt cmpfunc data s ui co pa t fc lap n i e).jump ≠
        .auth_done_service_err .OTP_RC_OK := by
    intro fc lap pa ui co t n
    induction n with
    | zero => intro i e h; simp [sync_window] at h
    | succ n ih =>
      intro i e
      unfold sync_window
      split
      · intro h; cases h
      · split
        · intro h; cases h
        · dsimp only
          split
          · unfold sync_matched
            intro h
            split at h
            · cases h
            · split at h
              · split at h
                · cases h
                · split at h <;> cases h
              · cases h
          · intro h
            exact ih _ _ (by simpa using h)
  have hsync : ∀ (fc : FC) (pa : Nat) (ui : otp_user_info_t) (co : cardops_t σ) (t : Int)
      (e : CStr),
      (sync_response env username passcode resync opt cmpfunc data s ui co pa t fc e).jump ≠
        .auth_done_service_err .OTP_RC_OK := by
    intro fc pa ui co t e
    unfold sync_response
    split
    · split
      · dsimp only
        split
        · intro h; cases h
        · intro h
          exact hwin _ _ _ _ _ _ _ _ _ (by simpa using h)
      · exact hwin _ _ _ _ _ _ _ _ _
    · intro h; cases h
  have hasync : ∀ (chal : CStr) (fc : FC) (pa : Nat) (ui : otp_user_info_t) (co : cardops_t σ)
      (t : Int) (e : CStr),
      (async_response env username chal passcode resync opt cmpfunc data s ui co pa t fc
        e).jump ≠ .auth_done_service_err .OTP_RC_OK := by
    intro chal fc pa ui co t e
    unfold async_response
    split
    · split
      · intro h; cases h
      · split
        · intro h; cases h
        · dsimp only
          split
          · unfold async_matched
            intro h
            split at h
            · cases h
            · split at h
              · cases h
              · split at h
                · cases h
                · split at h <;> cases h
          · intro h
            exact hsync _ _ _ _ _ _ (by simpa using h)
    · exact hsync _ _ _ _ _ _
  intro hrc
  subst hrc
  revert h
  unfold otp_pw_valid_pre
  split
  · intro h; cases h
  · split
    · intro h; cases h
    · dsimp only
      split
      · intro h; cases h
      · split
        · intro h; cases h
        · split
          · intro h; cases h
          · split
            · intro h; cases h
            · split
              · intro h; cases h
              · split
                · intro h; cases h
                · split
                  · intro h; cases h
                  · intro h
                    exact hasync _ _ _ _ _ _ _ (by simpa using h)

/-- A call that returns `OTP_RC_OK` reached the commit with `OTP_RC_OK`. -/
theorem ok_inv
    (h : (otp_pw_valid env username challenge passcode resync opt cmpfunc data s).rc =
      .OTP_RC_OK) :
    ∃ r a, (otp_pw_valid_pre env username challenge passcode resync opt cmpfunc data s).jump =
      .auth_done .OTP_RC_OK r a := by
  cases hj : (otp_pw_valid_pre env username challenge passcode resync opt cmpfunc data
      s).jump with
  | auth_done_service_err rc =>
    rw [otp_pw_valid_exit env username challenge passcode resync opt cmpfunc data s rc hj] at h
    exact absurd h (exit_ne_ok env username challenge passcode resync opt cmpfunc data s rc hj)
  | auth_done rc r a =>
    by_cases hrc : rc = .OTP_RC_OK
    · subst hrc
      exact ⟨r, a, rfl⟩
    · obtain ⟨ui, co, hu⟩ := pre_user_of_auth_done env username challenge passcode resync
        opt cmpfunc data s rc r a hj
      rw [(otp_pw_valid_failure env username challenge passcode resync opt cmpfunc data s ui
        co rc r a hrc hj hu).1] at h
      split at h
      · exact absurd h hrc
      · cases h

end Commit

/-! ## The possible decisions -/

section Decisions

variable {σ : Type} (env : Env σ) (username : CStr) (passcode : Option CStr) (resync : Int)
  (opt : otp_option_t) (cmpfunc : Option (Nat → CStr → Int)) (data : Nat) (s : σ)
  (ui : otp_user_info_t) (co : cardops_t σ) (t : Int) (fc : FC)

/-- What a match in the scan can decide: a window position other than 0 is
handed to the commit only by the branch of lines 365-379, in soft-fail with an
extended window, when the test of lines 358-360 fails. -/
theorem sync_matched_inv (lap : Int) (i : Nat) (rc : RC) (r : Int) (a : Nat)
    (h : sync_matched env resync opt t fc lap i = .auth_done rc r a) :
    (rc = .OTP_RC_OK ∨ rc = .OTP_RC_AUTH_ERR ∨ rc = .OTP_RC_MAXTRIES) ∧
    (a ≠ 0 → rc = .OTP_RC_AUTH_ERR ∧ fc = .OTP_FC_FAIL_SOFT ∧ opt.ewindow2_size ≠ 0 ∧
      ¬ override_ok env opt t lap a ∧ a = i) := by
  unfold sync_matched at h
  split at h
  · cases h; exact ⟨Or.inr (Or.inr rfl), fun h => absurd rfl h⟩
  · split at h
    · rename_i hsoft
      split at h
      · cases h; exact ⟨Or.inr (Or.inr rfl), fun h => absurd rfl h⟩
      · rename_i hw2
        split at h
        · cases h; exact ⟨Or.inl rfl, fun h => absurd rfl h⟩
        · rename_i hov
          cases h
          exact ⟨Or.inr (Or.inl rfl), fun _ => ⟨rfl, hsoft, hw2, hov, rfl⟩⟩
    · cases h; exact ⟨Or.inl rfl, fun h => absurd rfl h⟩

theorem sync_matched_ne_exit (lap : Int) (i : Nat) (rc : RC) :
    sync_matched env resync opt t fc lap i ≠ .auth_done_service_err rc := by
  unfold sync_matched
  intro h
  split at h
  · cases h
  · split at h
    · split at h
      · cases h
      · split at h <;> cases h
    · cases h

theorem async_matched_inv (rc : RC) (r : Int) (a : Nat)
    (h : async_matched env resync opt t fc = .auth_done rc r a) :
    (rc = .OTP_RC_OK ∨ rc = .OTP_RC_AUTH_ERR ∨ rc = .OTP_RC_MAXTRIES) ∧ a = 0 := by
  unfold async_matched at h
  split at h
  · cases h; exact ⟨Or.inr (Or.inl rfl), rfl⟩
  · split at h
    · cases h; exact ⟨Or.inr (Or.inr rfl), rfl⟩
    · split at h
      · cases h; exact ⟨Or.inr (Or.inr rfl), rfl⟩
      · split at h
        · cases h; exact ⟨Or.inr (Or.inr rfl), rfl⟩
        · cases h; exact ⟨Or.inl rfl, rfl⟩

theorem async_matched_ne_exit (rc : RC) :
    async_matched env resync opt t fc ≠ .auth_done_service_err rc := by
  unfold async_matched
  intro h
  split at h
  · cases h
  · split at h
    · cases h
    · split at h
      · cases h
      · split at h <;> cases h

/-- The scan started at offset `i`: the results it can hand to the commit, and
what a nonzero window position tells. -/
theorem sync_window_inv (pa : Nat) (lap : Int) : ∀ (n i : Nat) (e : CStr) (rc : RC) (r : Int)
    (a : Nat),
    (sync_window env passcode resync opt cmpfunc data s ui co pa t fc lap n i e).jump =
      .auth_done rc r a →
    (rc = .OTP_RC_OK ∨ rc = .OTP_RC_AUTH_ERR ∨ rc = .OTP_RC_MAXTRIES) ∧
    (a ≠ 0 → rc = .OTP_RC_AUTH_ERR ∧ fc = .OTP_FC_FAIL_SOFT ∧ opt.ewindow2_size ≠ 0 ∧
      ¬ override_ok env opt t lap a ∧ i ≤ a ∧
      challenge_offsets (sync_window env passcode resync opt cmpfunc data s ui co pa t fc lap
        n i e).trace = List.range' i (a + 1 - i)) := by
  intro n
  induction n with
  | zero =>
    intro i e rc r a h
    simp only [sync_window, Jump.auth_done.injEq] at h
    obtain ⟨rfl, _, rfl⟩ := h
    exact ⟨Or.inr (Or.inl rfl), fun h => absurd rfl h⟩
  | succ n ih =>
    intro i e rc r a
    unfold sync_window
    split
    · intro h; cases h
    · split
      · intro h; cases h
      · dsimp only
        split
        · intro h
          obtain ⟨h1, h2⟩ := sync_matched_inv env resync opt t fc lap i rc r a h
          refine ⟨h1, fun ha => ?_⟩
          obtain ⟨h3, h4, h5, h6, h7⟩ := h2 ha
          subst h7
          refine ⟨h3, h4, h5, h6, le_refl _, ?_⟩
          simp [challenge_offsets_append, challenge_offsets_test_passcode, challenge_offsets]
        · intro h
          obtain ⟨h1, h2⟩ := ih (i + 1) _ rc r a (by simpa using h)
          refine ⟨h1, fun ha => ?_⟩
          obtain ⟨h3, h4, h5, h6, h7, h8⟩ := h2 ha
          refine ⟨h3, h4, h5, h6, by omega, ?_⟩
          simp only [Pre.after_trace, challenge_offsets_append,
            challenge_offsets_test_passcode, h8]
          rw [show a + 1 - i = (a + 1 - (i + 1)) + 1 by omega, List.range'_succ]
          simp [challenge_offsets]

theorem sync_window_exit (pa : Nat) (lap : Int) : ∀ (n i : Nat) (e : CStr) (rc : RC),
    (sync_window env passcode resync opt cmpfunc data s ui co pa t fc lap n i e).jump =
      .auth_done_service_err rc → rc = .OTP_RC_SERVICE_ERR := by
  intro n
  induction n with
  | zero => intro i e rc h; simp [sync_window] at h
  | succ n ih =>
    intro i e rc
    unfold sync_window
    split
    · intro h; cases h; rfl
    · split
      · intro h; cases h; rfl
      · dsimp only
        split
        · intro h
          exact absurd h (sync_matched_ne_exit env resync opt t fc lap i rc)
        · intro h
          exact ih _ _ rc (by simpa using h)

theorem sync_response_inv (pa : Nat) (e : CStr) (rc : RC) (r : Int) (a : Nat)
    (h : (sync_response env username passcode resync opt cmpfunc data s ui co pa t fc e).jump =
      .auth_done rc r a) :
    (rc = .OTP_RC_OK ∨ rc = .OTP_RC_AUTH_ERR ∨ rc = .OTP_RC_MAXTRIES) ∧
    (a ≠ 0 → rc = .OTP_RC_AUTH_ERR ∧ fc = .OTP_FC_FAIL_SOFT ∧ opt.ewindow2_size ≠ 0 ∧
      ¬ override_ok env opt t (env.otp_get_last_auth_pos s opt.syncdir username) a ∧
      challenge_offsets (sync_response env username passcode resync opt cmpfunc data s ui co
        pa t fc e).trace = List.range (a + 1)) := by
  revert h
  unfold sync_response
  split
  · split
    · dsimp only
      split
      · intro h; cases h
      · intro h
        obtain ⟨h1, h2⟩ := sync_window_inv env passcode resync opt cmpfunc data s ui co t fc
          pa _ _ _ _ rc r a (by simpa using h)
        refine ⟨h1, fun ha => ?_⟩
        obtain ⟨h3, h4, h5, h6, _, h8⟩ := h2 ha
        refine ⟨h3, h4, h5, h6, ?_⟩
        simp only [Pre.after_trace, challenge_offsets_append, h8, List.range_eq_range']
        simp [challenge_offsets]
    · rename_i hnot
      intro h
      obtain ⟨h1, h2⟩ := sync_window_inv env passcode resync opt cmpfunc data s ui co t fc
        pa _ _ _ _ rc r a h
      refine ⟨h1, fun ha => ?_⟩
      obtain ⟨_, h4, h5, _⟩ := h2 ha
      exact absurd ⟨h5, h4⟩ hnot
  · intro h
    cases h
    exact ⟨Or.inr (Or.inl rfl), fun h => absurd rfl h⟩

theorem sync_response_exit (pa : Nat) (e : CStr) (rc : RC)
    (h : (sync_response env username passcode resync opt cmpfunc data s ui co pa t fc e).jump =
      .auth_done_service_err rc) : rc = .OTP_RC_SERVICE_ERR := by
  revert h
  unfold sync_response
  split
  · split
    · dsimp only
      split
      · intro h; cases h; rfl
      · intro h
        exact sync_window_exit env passcode resync opt cmpfunc data s ui co t fc pa _ _ _ _ rc
          (by simpa using h)
    · exact sync_window_exit env passcode resync opt cmpfunc data s ui co t fc pa _ _ _ _ rc
  · intro h; cases h

theorem async_response_inv (challenge : CStr) (pa : Nat) (e : CStr) (rc : RC) (r : Int)
    (a : Nat)
    (h : (async_response env username challenge passcode resync opt cmpfunc data s ui co pa
      t fc e).jump = .auth_done rc r a) :
    (rc = .OTP_RC_OK ∨ rc = .OTP_RC_AUTH_ERR ∨ rc = .OTP_RC_MAXTRIES) ∧
    (a ≠ 0 → rc = .OTP_RC_AUTH_ERR ∧ fc = .OTP_FC_FAIL_SOFT ∧ opt.ewindow2_size ≠ 0 ∧
      ¬ override_ok env opt t (env.otp_get_last_auth_pos s opt.syncdir username) a ∧
      challenge_offsets (async_response env username challenge passcode resync opt cmpfunc data
        s ui co pa t fc e).trace = List.range (a + 1)) := by
  revert h
  unfold async_response
  split
  · split
    · intro h; cases h
    · split
      · intro h; cases h
      · dsimp only
        split
        · intro h
          obtain ⟨h1, h2⟩ := async_matched_inv env resync opt t fc rc r a h
          exact ⟨h1, fun ha => absurd h2 ha⟩
        · intro h
          obtain ⟨h1, h2⟩ := sync_response_inv env username passcode resync opt cmpfunc data s
            ui co t fc pa _ rc r a (by simpa using h)
          refine ⟨h1, fun ha => ?_⟩
          obtain ⟨h3, h4, h5, h6, h7⟩ := h2 ha
          refine ⟨h3, h4, h5, h6, ?_⟩
          simp only [Pre.after_trace, challenge_offsets_append,
            challenge_offsets_test_passcode, h7]
          simp [challenge_offsets]
  · exact sync_response_inv env username passcode resync opt cmpfunc data s ui co t fc pa _ rc
      r a

theorem async_response_exit (challenge : CStr) (pa : Nat) (e : CStr) (rc : RC)
    (h : (async_response env username challenge passcode resync opt cmpfunc data s ui co pa
      t fc e).jump = .auth_done_service_err rc) : rc = .OTP_RC_SERVICE_ERR := by
  revert h
  unfold async_response
  split
  · split
    · intro h; cases h; rfl
    · split
      · intro h; cases h; rfl
      · dsimp only
        split
        · intro h
          exact absurd h (async_matched_ne_exit env resync opt t fc rc)
        · intro h
          exact sync_response_exit env username passcode resync opt cmpfunc data s ui co t fc
            pa _ rc (by simpa using h)
  · exact sync_response_exit env username passcode resync opt cmpfunc data s ui co t fc pa _ rc

end Decisions

/-! ## Every call -/

section EveryCall

variable {σ : Type} (env : Env σ) (username : CStr) (challenge : Option CStr)
  (passcode : Option CStr) (resync : Int) (opt : otp_option_t)
  (cmpfunc : Option (Nat → CStr → Int)) (data : Nat) (s : σ)

/-- A call either leaves through the service-error exit during the checks and
lookups of lines 76-162, having made only lookup calls, or it is resolved and
goes on to the async and sync attempts. -/
theorem pre_shape :
    (∃ rc tr u,
      otp_pw_valid_pre env username challenge passcode resync opt cmpfunc data s =
        ⟨.auth_done_service_err rc, tr, u⟩ ∧
      (∀ c ∈ tr, c ∈ lookup_calls) ∧
      (rc = .OTP_RC_SERVICE_ERR ∨
        (rc = .OTP_RC_USER_UNKNOWN ∧ (env.otp_get_user_info opt.pwdfile username).1 = -1 ∧
          tr = [.get_user_info]) ∨
        (rc = .OTP_RC_AUTHINFO_UNAVAIL ∧ (env.otp_get_user_info opt.pwdfile username).1 = -2 ∧
          tr = [.get_user_info]))) ∨
    (∃ chal ui co t fc, challenge = some chal ∧
      Resolved env username passcode opt cmpfunc s ui co t fc) := by
  cases challenge with
  | none => exact Or.inl ⟨.OTP_RC_SERVICE_ERR, [], none, rfl, by simp, Or.inl rfl⟩
  | some chal =>
    by_cases ht : passcode = none ∧ cmpfunc.isNone
    · refine Or.inl ⟨.OTP_RC_SERVICE_ERR, [], none, ?_, by simp, Or.inl rfl⟩
      simp only [otp_pw_valid_pre, if_pos ht]
    by_cases h1 : (env.otp_get_user_info opt.pwdfile username).1 = -1
    · refine Or.inl ⟨.OTP_RC_USER_UNKNOWN, [.get_user_info], none, ?_, by simp [lookup_calls],
        Or.inr (Or.inl ⟨rfl, h1, rfl⟩)⟩
      simp only [otp_pw_valid_pre, if_neg ht, if_pos h1]
    by_cases h2 : (env.otp_get_user_info opt.pwdfile username).1 = -2
    · refine Or.inl ⟨.OTP_RC_AUTHINFO_UNAVAIL, [.get_user_info], none, ?_,
        by simp [lookup_calls], Or.inr (Or.inr ⟨rfl, h2, rfl⟩)⟩
      simp only [otp_pw_valid_pre, if_neg ht, if_neg h1, if_pos h2]
    cases hco : find_cardops env.otp_cardops (env.otp_get_user_info opt.pwdfile username).2.card
      with
    | none =>
      refine Or.inl ⟨.OTP_RC_SERVICE_ERR, [.get_user_info], none, ?_, by simp [lookup_calls],
        Or.inl rfl⟩
      simp only [otp_pw_valid_pre, if_neg ht, if_neg h1, if_neg h2, hco]
    | some co =>
      cases hfm : co.name2fm (env.otp_get_user_info opt.pwdfile username).2.card with
      | none =>
        refine Or.inl ⟨.OTP_RC_SERVICE_ERR, [.get_user_info, .name2fm], none, ?_,
          by simp [lookup_calls], Or.inl rfl⟩
        simp only [otp_pw_valid_pre, if_neg ht, if_neg h1, if_neg h2, hco, hfm]
      | some fm =>
        cases hkb : co.keystring2keyblock
            (env.otp_get_user_info opt.pwdfile username).2.keystring with
        | none =>
          refine Or.inl ⟨.OTP_RC_SERVICE_ERR, [.get_user_info, .name2fm, .keystring2keyblock],
            none, ?_, by simp [lookup_calls], Or.inl rfl⟩
          simp only [otp_pw_valid_pre, if_neg ht, if_neg h1, if_neg h2, hco, hfm, hkb]
        | some kb =>
          cases hla : env.otp_get_last_auth s opt.syncdir username with
          | none =>
            refine Or.inl ⟨.OTP_RC_SERVICE_ERR,
              [.get_user_info, .name2fm, .keystring2keyblock, .get_last_auth],
              (some (⟨username, (env.otp_get_user_info opt.pwdfile username).2.card,
                (env.otp_get_user_info opt.pwdfile username).2.keystring,
                (env.otp_get_user_info opt.pwdfile username).2.pin, fm, kb⟩, co)), ?_,
              by simp [lookup_calls], Or.inl rfl⟩
            simp only [otp_pw_valid_pre, if_neg ht, if_neg h1, if_neg h2, hco, hfm, hkb, hla]
          | some t =>
            by_cases hfc : env.otp_check_failcount s username opt = .OTP_FC_FAIL_ERR
            · refine Or.inl ⟨.OTP_RC_SERVICE_ERR, lookup_calls,
                (some (⟨username, (env.otp_get_user_info opt.pwdfile username).2.card,
                (env.otp_get_user_info opt.pwdfile username).2.keystring,
                (env.otp_get_user_info opt.pwdfile username).2.pin, fm, kb⟩, co)), ?_, by simp, Or.inl rfl⟩
              simp only [otp_pw_valid_pre, if_neg ht, if_neg h1, if_neg h2, hco, hfm, hkb, hla,
                if_pos hfc, lookup_calls]
            · exact Or.inr ⟨chal,
                ⟨username, (env.otp_get_user_info opt.pwdfile username).2.card,
                  (env.otp_get_user_info opt.pwdfile username).2.keystring,
                  (env.otp_get_user_info opt.pwdfile username).2.pin, fm, kb⟩, co, t,
                env.otp_check_failcount s username opt, rfl,
                { testable := ht, found := h1, readable := h2, provider := hco, mask := hfm,
                  key := hkb, name := rfl, card := rfl, keystring := rfl, pin := rfl,
                  last_auth := hla, policy := rfl, policy_ok := hfc }⟩

/-- The results a call can hand to the commit, and what a nonzero window position
tells: the scan stopped at that offset, in soft-fail with an extended window,
with `OTP_RC_AUTH_ERR`. -/
theorem pre_auth_done_inv (rc : RC) (r : Int) (a : Nat)
    (h : (otp_pw_valid_pre env username challenge passcode resync opt cmpfunc data s).jump =
      .auth_done rc r a) :
    (rc = .OTP_RC_OK ∨ rc = .OTP_RC_AUTH_ERR ∨ rc = .OTP_RC_MAXTRIES) ∧
    (a ≠ 0 → rc = .OTP_RC_AUTH_ERR ∧
      env.otp_check_failcount s username opt = .OTP_FC_FAIL_SOFT ∧ opt.ewindow2_size ≠ 0 ∧
      challenge_offsets (otp_pw_valid_pre env username challenge passcode resync opt cmpfunc
        data s).trace = List.range (a + 1)) := by
  rcases pre_shape env username challenge passcode resync opt cmpfunc data s with
    ⟨rc1, tr, u, heq, _, _⟩ | ⟨chal, ui, co, t, fc, rfl, hres⟩
  · rw [heq] at h; cases h
  · rw [pre_of_resolved env username passcode resync opt cmpfunc data s chal ui co t fc hres]
      at h ⊢
    obtain ⟨h1, h2⟩ := async_response_inv env username passcode resync opt cmpfunc data s ui
      co t fc chal _ _ rc r a (by simpa using h)
    refine ⟨h1, fun ha => ?_⟩
    obtain ⟨h3, h4, h5, _, h7⟩ := h2 ha
    refine ⟨h3, by rw [hres.policy]; exact h4, h5, ?_⟩
    simp only [Pre.after_trace, challenge_offsets_append, h7]
    simp [lookup_calls, challenge_offsets]

/-- The codes a call can leave through the service-error exit with. -/
theorem pre_exit_inv (rc : RC)
    (h : (otp_pw_valid_pre env username challenge passcode resync opt cmpfunc data s).jump =
      .auth_done_service_err rc) :
    rc = .OTP_RC_SERVICE_ERR ∨
    (rc = .OTP_RC_USER_UNKNOWN ∧ (env.otp_get_user_info opt.pwdfile username).1 = -1 ∧
      (otp_pw_valid_pre env username challenge passcode resync opt cmpfunc data s).trace =
        [.get_user_info]) ∨
    (rc = .OTP_RC_AUTHINFO_UNAVAIL ∧ (env.otp_get_user_info opt.pwdfile username).1 = -2 ∧
      (otp_pw_valid_pre env username challenge passcode resync opt cmpfunc data s).trace =
        [.get_user_info]) := by
  rcases pre_shape env username challenge passcode resync opt cmpfunc data s with
    ⟨rc1, tr, u, heq, _, hrc⟩ | ⟨chal, ui, co, t, fc, rfl, hres⟩
  · rw [heq] at h ⊢
    cases h
    exact hrc
  · rw [pre_of_resolved env username passcode resync opt cmpfunc data s chal ui co t fc hres]
      at h
    exact Or.inl (async_response_exit env username passcode resync opt cmpfunc data s ui co t
      fc chal _ _ rc (by simpa using h))

end EveryCall

/-! ## The calls of the sync attempt, and the early exits -/

section Kinds

variable {σ : Type} (env : Env σ) (username : CStr) (passcode : Option CStr) (resync : Int)
  (opt : otp_option_t) (cmpfunc : Option (Nat → CStr → Int)) (data : Nat) (s : σ)
  (ui : otp_user_info_t) (co : cardops_t σ) (t : Int) (fc : FC)

theorem test_passcode_inSync (e : CStr) :
    ∀ c ∈ (test_passcode passcode cmpfunc data e).2, c.inSync = true := by
  unfold test_passcode
  split <;> simp [Call.inSync]

theorem sync_window_inSync (pa : Nat) (lap : Int) : ∀ (n i : Nat) (e : CStr),
    ∀ c ∈ (sync_window env passcode resync opt cmpfunc data s ui co pa t fc lap n i e).trace,
      c.inSync = true := by
  intro n
  induction n with
  | zero => intro i e c hc; simp [sync_window] at hc
  | succ n ih =>
    intro i e c
    unfold sync_window
    split
    · intro hc
      simp only [List.mem_singleton] at hc
      subst hc
      rfl
    · split
      · intro hc
        simp only [List.mem_cons, List.mem_singleton, List.not_mem_nil, or_false] at hc
        rcases hc with rfl | rfl <;> rfl
      · dsimp only
        split
        · intro hc
          simp only [List.mem_append, List.mem_cons, List.not_mem_nil, or_false] at hc
          rcases hc with (rfl | rfl) | hc
          · rfl
          · rfl
          · exact test_passcode_inSync passcode cmpfunc data _ c hc
        · intro hc
          simp only [Pre.after_trace, List.mem_append, List.mem_cons, List.not_mem_nil,
            or_false] at hc
          rcases hc with ((rfl | rfl) | hc) | hc
          · rfl
          · rfl
          · exact test_passcode_inSync passcode cmpfunc data _ c hc
          · exact ih _ _ c hc

/-- The sync attempt only reads the recorded position, queries sync challenges,
computes responses and compares. -/
theorem sync_response_inSync (pa : Nat) (e : CStr) :
    ∀ c ∈ (sync_response env username passcode resync opt cmpfunc data s ui co pa t fc
      e).trace, c.inSync = true := by
  intro c
  unfold sync_response
  split
  · split
    · dsimp only
      split
      · intro hc
        simp only [List.mem_singleton] at hc
        subst hc
        rfl
      · intro hc
        simp only [Pre.after_trace, List.mem_append, List.mem_singleton] at hc
        rcases hc with rfl | hc
        · rfl
        · exact sync_window_inSync env passcode resync opt cmpfunc data s ui co t fc pa _ _ _ _
            c hc
    · exact sync_window_inSync env passcode resync opt cmpfunc data s ui co t fc pa _ _ _ _ c
  · intro hc
    simp at hc

/-- When the condition of line 168 fails the async attempt is skipped
altogether. -/
theorem async_response_skipped (challenge : CStr) (pa : Nat) (e : CStr)
    (h : ¬ async_entered env challenge opt ui) :
    async_response env username challenge passcode resync opt cmpfunc data s ui co pa t fc e =
      sync_response env username passcode resync opt cmpfunc data s ui co pa t fc e := by
  unfold async_entered at h
  unfold async_response
  rw [if_neg h]

/-- The result of the commit is one of four codes. -/
theorem otp_pw_valid_commit_rc (challenge : Option CStr) (rc : RC) (r : Int) (a : Nat)
    (h : (otp_pw_valid_pre env username challenge passcode resync opt cmpfunc data s).jump =
      .auth_done rc r a) :
    (otp_pw_valid env username challenge passcode resync opt cmpfunc data s).rc = .OTP_RC_OK ∨
    (otp_pw_valid env username challenge passcode resync opt cmpfunc data s).rc =
      .OTP_RC_AUTH_ERR ∨
    (otp_pw_valid env username challenge passcode resync opt cmpfunc data s).rc =
      .OTP_RC_MAXTRIES ∨
    (otp_pw_valid env username challenge passcode resync opt cmpfunc data s).rc =
      .OTP_RC_SERVICE_ERR := by
  obtain ⟨ui1, co1, hu⟩ := pre_user_of_auth_done env username challenge passcode resync opt
    cmpfunc data s rc r a h
  obtain ⟨h3, _⟩ := pre_auth_done_inv env username challenge passcode resync opt cmpfunc data s
    rc r a h
  by_cases hrc : rc = .OTP_RC_OK
  · subst hrc
    by_cases hr : r = 0
    · subst hr
      rw [(otp_pw_valid_reset env username challenge passcode resync opt cmpfunc data s ui1 co1
        a h hu).1]
      split
      · exact Or.inl rfl
      · exact Or.inr (Or.inr (Or.inr rfl))
    · have h5 := otp_pw_valid_resync env username challenge passcode resync opt cmpfunc data s
        ui1 co1 r a hr h hu
      cases hc : co1.challenge s opt.syncdir ui1 1 0 with
      | none => rw [hc] at h5; exact Or.inr (Or.inr (Or.inr h5.1))
      | some ch =>
        rw [hc] at h5
        rw [h5.1]
        split
        · exact Or.inl rfl
        · exact Or.inr (Or.inr (Or.inr rfl))
  · rw [(otp_pw_valid_failure env username challenge passcode resync opt cmpfunc data s ui1 co1
      rc r a hrc h hu).1]
    split
    · rcases h3 with h3 | h3 | h3
      · exact absurd h3 hrc
      · exact Or.inr (Or.inl h3)
      · exact Or.inr (Or.inr (Or.inl h3))
    · exact Or.inr (Or.inr (Or.inr rfl))

end Kinds

/-! ## Provider lookup, and first matches -/

section Lookup

variable {σ : Type}

/-- The scan of the provider table returns an entry exactly when that entry
passes the test of line 107 and every entry before it has a prefix and fails
the test. -/
theorem find_cardops_spec (card : CStr) (co : cardops_t σ) : ∀ tbl : List (cardops_t σ),
    (find_cardops tbl card = some co ↔
      ∃ k : Nat, tbl[k]? = some co ∧ entry_matches co card ∧
        ∀ j : Nat, j < k →
          ∃ cj, tbl[j]? = some cj ∧ cj.prefix_str ≠ none ∧ ¬ entry_matches cj card)
  | [] => by simp [find_cardops]
  | c :: rest => by
    have ih := find_cardops_spec card co rest
    unfold find_cardops
    cases hp : c.prefix_str with
    | none =>
      constructor
      · intro h; cases h
      rintro ⟨k, hk, hm, hbefore⟩
      exfalso
      cases k with
      | zero =>
        simp only [List.getElem?_cons_zero, Option.some.injEq] at hk
        subst hk
        obtain ⟨p, hp1, _⟩ := hm
        rw [hp] at hp1
        cases hp1
      | succ k =>
        obtain ⟨cj, hcj, hne, _⟩ := hbefore 0 (Nat.succ_pos k)
        simp only [List.getElem?_cons_zero, Option.some.injEq] at hcj
        subst hcj
        exact hne hp
    | some p =>
      by_cases hm : strncasecmp p card c.prefix_len = 0
      · simp only [hm, if_true, Option.some.injEq]
        constructor
        · rintro rfl
          exact ⟨0, List.getElem?_cons_zero, ⟨p, hp, hm⟩,
            fun j hj => absurd hj (Nat.not_lt_zero j)⟩
        · rintro ⟨k, hk, _, hbefore⟩
          cases k with
          | zero => simpa using hk
          | succ k =>
            obtain ⟨cj, hcj, _, hno⟩ := hbefore 0 (Nat.succ_pos k)
            simp only [List.getElem?_cons_zero, Option.some.injEq] at hcj
            subst hcj
            exact absurd ⟨p, hp, hm⟩ hno
      · simp only [hm, if_false]
        rw [ih]
        constructor
        · rintro ⟨k, hk, hmk, hbefore⟩
          refine ⟨k + 1, by simpa using hk, hmk, fun j hj => ?_⟩
          cases j with
          | zero =>
            refine ⟨c, List.getElem?_cons_zero, by rw [hp]; simp, ?_⟩
            rintro ⟨q, hq, hq0⟩
            rw [hp] at hq
            cases hq
            exact hm hq0
          | succ j =>
            obtain ⟨cj, hcj, h1, h2⟩ := hbefore j (by omega)
            exact ⟨cj, by simpa using hcj, h1, h2⟩
        · rintro ⟨k, hk, hmk, hbefore⟩
          cases k with
          | zero =>
            simp only [List.getElem?_cons_zero, Option.some.injEq] at hk
            subst hk
            obtain ⟨q, hq, hq0⟩ := hmk
            rw [hp] at hq
            cases hq
            exact absurd hq0 hm
          | succ k =>
            refine ⟨k, by simpa using hk, hmk, fun j hj => ?_⟩
            obtain ⟨cj, hcj, h1, h2⟩ := hbefore (j + 1) (by omega)
            exact ⟨cj, by simpa using hcj, h1, h2⟩

/-- When `prefix_len` is at least the length of the prefix (as it is when it
holds `strlen(prefix)`), the test of line 107 says that the prefix equals the
first `prefix_len` characters of the card name, ignoring letter case. -/
theorem entry_matches_iff (co : cardops_t σ) (card p : CStr) (hp : co.prefix_str = some p)
    (hlen : p.length ≤ co.prefix_len) : entry_matches co card ↔ prefix_matches co card := by
  unfold entry_matches prefix_matches strncasecmp
  constructor
  · rintro ⟨q, hq, h⟩
    rw [hp] at hq
    cases hq
    refine ⟨p, hp, ?_⟩
    rw [List.take_of_length_le hlen] at h
    by_contra hne
    rw [if_neg hne] at h
    cases h
  · rintro ⟨q, hq, h⟩
    rw [hp] at hq
    cases hq
    refine ⟨p, hp, ?_⟩
    rw [List.take_of_length_le hlen, if_pos h]

variable (passcode : Option CStr) (opt : otp_option_t) (cmpfunc : Option (Nat → CStr → Int))
  (data : Nat) (s : σ) (ui : otp_user_info_t) (co : cardops_t σ)

/-- A candidate that matches somewhere in a window in which the provider
succeeds everywhere has a first matching offset. -/
theorem exists_first_sync_match (wend : Int)
    (hprov : ∀ j : Nat, (j : Int) ≤ wend →
      (sync_nmatch passcode opt cmpfunc data s ui co j).isSome)
    (h : ∃ i : Nat, (i : Int) ≤ wend ∧ sync_nmatch passcode opt cmpfunc data s ui co i = some 0) :
    ∃ i : Nat, (i : Int) ≤ wend ∧ first_sync_match passcode opt cmpfunc data s ui co i := by
  classical
  have hex : ∃ i : Nat, sync_nmatch passcode opt cmpfunc data s ui co i = some 0 := by
    obtain ⟨i, _, hi⟩ := h
    exact ⟨i, hi⟩
  obtain ⟨i, hi, hm⟩ := h
  have hle : Nat.find hex ≤ i := Nat.find_min' hex hm
  refine ⟨Nat.find hex, by omega, Nat.find_spec hex, fun j hj => ?_⟩
  obtain ⟨m, hmj⟩ := Option.isSome_iff_exists.mp (hprov j (by omega))
  refine ⟨m, hmj, fun h0 => ?_⟩
  exact Nat.find_min hex hj (by rw [hmj, h0])

end Lookup

/-! ## The sync attempt when it is not entered -/

section NotEntered

variable {σ : Type} (env : Env σ) (username : CStr) (passcode : Option CStr) (resync : Int)
  (opt : otp_option_t) (cmpfunc : Option (Nat → CStr → Int)) (data : Nat) (s : σ)
  (ui : otp_user_info_t) (co : cardops_t σ) (t : Int) (fc : FC)

/-- When the condition of line 259 fails nothing is scanned: line 392 sets
`OTP_RC_AUTH_ERR`. -/
theorem sync_response_not_entered (pa : Nat) (e : CStr) (h : ¬ sync_entered env opt ui) :
    sync_response env username passcode resync opt cmpfunc data s ui co pa t fc e =
      ⟨.auth_done .OTP_RC_AUTH_ERR resync 0, [], some (ui, co)⟩ := by
  unfold sync_entered at h
  unfold sync_response
  rw [if_neg h]

end NotEntered

/-! ## The strings the candidate is compared with -/

section Compared

variable {σ : Type} (env : Env σ) (username : CStr) (passcode : Option CStr) (resync : Int)
  (opt : otp_option_t) (cmpfunc : Option (Nat → CStr → Int)) (data : Nat) (s : σ)
  (ui : otp_user_info_t) (co : cardops_t σ) (t : Int) (fc : FC)

theorem compared_append (a b : List Call) : compared (a ++ b) = compared a ++ compared b := by
  induction a with
  | nil => rfl
  | cons c a ih => cases c <;> simp [compared, ih]

theorem responded_append (a b : List Call) :
    responded ui co (a ++ b) = responded ui co a ++ responded ui co b := by
  induction a with
  | nil => rfl
  | cons c a ih =>
    cases c with
    | response ch =>
      simp only [List.cons_append, responded]
      split <;> simp [ih]
    | _ => simp [responded, ih]

theorem test_passcode_compared (e : CStr) (ht : ¬ (passcode = none ∧ cmpfunc.isNone)) :
    compared (test_passcode passcode cmpfunc data e).2 = [e] ∧
    responded ui co (test_passcode passcode cmpfunc data e).2 = [] := by
  unfold test_passcode
  split
  · exact ⟨rfl, rfl⟩
  · exact ⟨rfl, rfl⟩
  · exact absurd ⟨rfl, rfl⟩ ht

/-- In every iteration of the scan the candidate is compared with the
PIN-adjusted response of that iteration, whatever the buffer held before. -/
theorem sync_window_compared (ht : ¬ (passcode = none ∧ cmpfunc.isNone)) (lap : Int) :
    ∀ (n i : Nat) (e : CStr), GoodBuf opt ui.pin e →
    compared (sync_window env passcode resync opt cmpfunc data s ui co
        (pin_adjust_init opt ui.pin) t fc lap n i e).trace =
      (responded ui co (sync_window env passcode resync opt cmpfunc data s ui co
        (pin_adjust_init opt ui.pin) t fc lap n i e).trace).map (expected opt ui.pin) := by
  intro n
  induction n with
  | zero => intro i e _; simp [sync_window, compared, responded]
  | succ n ih =>
    intro i e hg
    rw [sync_window]
    cases hc : co.challenge s opt.syncdir ui i 0 with
    | none => simp [compared, responded]
    | some ch =>
      cases hr : co.response ui ch with
      | none => simp [compared, responded, hr]
      | some r =>
        obtain ⟨hb1, hb2⟩ := step_buf opt ui.pin e r hg
        obtain ⟨ht1, ht2⟩ := test_passcode_compared passcode cmpfunc data ui co
          (expected opt ui.pin r) ht
        simp only [hr, hb1]
        split
        · simp only [compared_append, responded_append, ht1, ht2]
          simp [compared, responded, hr]
        · simp only [Pre.after_trace, compared_append, responded_append, ht1, ht2,
            ih (i + 1) _ hb2]
          simp [compared, responded, hr]

theorem sync_response_compared (ht : ¬ (passcode = none ∧ cmpfunc.isNone)) (e : CStr)
    (hg : GoodBuf opt ui.pin e) :
    compared (sync_response env username passcode resync opt cmpfunc data s ui co
        (pin_adjust_init opt ui.pin) t fc e).trace =
      (responded ui co (sync_response env username passcode resync opt cmpfunc data s ui co
        (pin_adjust_init opt ui.pin) t fc e).trace).map (expected opt ui.pin) := by
  unfold sync_response
  split
  · split
    · dsimp only
      split
      · simp [compared, responded]
      · simp only [Pre.after_trace, compared_append, responded_append,
          sync_window_compared env passcode resync opt cmpfunc data s ui co t fc ht _ _ _ e hg]
        simp [compared, responded]
    · exact sync_window_compared env passcode resync opt cmpfunc data s ui co t fc ht _ _ _ e hg
  · simp [compared, responded]

theorem async_response_compared (ht : ¬ (passcode = none ∧ cmpfunc.isNone)) (challenge : CStr)
    (e : CStr) (hg : GoodBuf opt ui.pin e) :
    compared (async_response env username challenge passcode resync opt cmpfunc data s ui co
        (pin_adjust_init opt ui.pin) t fc e).trace =
      (responded ui co (async_response env username challenge passcode resync opt cmpfunc data
        s ui co (pin_adjust_init opt ui.pin) t fc e).trace).map (expected opt ui.pin) := by
  rw [async_response]
  split
  · cases hc : env.otp_challenge_transform username challenge with
    | none => simp [compared, responded]
    | some c1 =>
      cases hr : co.response ui c1 with
      | none => simp [compared, responded, hr]
      | some r =>
        obtain ⟨hb1, hb2⟩ := step_buf opt ui.pin e r hg
        obtain ⟨ht1, ht2⟩ := test_passcode_compared passcode cmpfunc data ui co
          (expected opt ui.pin r) ht
        simp only [hr, hb1]
        split
        · simp only [compared_append, responded_append, ht1, ht2]
          simp [compared, responded, hr]
        · simp only [Pre.after_trace, compared_append, responded_append, ht1, ht2,
            sync_response_compared env username passcode resync opt cmpfunc data s ui co t fc ht
              _ hb2]
          simp [compared, responded, hr]
  · exact sync_response_compared env username passcode resync opt cmpfunc data s ui co t fc ht
      e hg

end Compared

/-! ## What the scan and the commit call -/

section SyncChallenges

variable {σ : Type} (env : Env σ) (username : CStr) (passcode : Option CStr) (resync : Int)
  (opt : otp_option_t) (cmpfunc : Option (Nat → CStr → Int)) (data : Nat) (s : σ)
  (ui : otp_user_info_t) (co : cardops_t σ) (t : Int) (fc : FC)

theorem test_passcode_not_response (e ch : CStr) :
    Call.response ch ∉ (test_passcode passcode cmpfunc data e).2 := by
  unfold test_passcode
  split <;> simp

/-- Every response the scan computes is the response to the sync challenge of a
window offset. -/
theorem sync_window_response (pa : Nat) (lap : Int) : ∀ (n i : Nat) (e : CStr) (ch : CStr),
    Call.response ch ∈
      (sync_window env passcode resync opt cmpfunc data s ui co pa t fc lap n i e).trace →
    ∃ j, co.challenge s opt.syncdir ui j 0 = some ch := by
  intro n
  induction n with
  | zero => intro i e ch hc; simp [sync_window] at hc
  | succ n ih =>
    intro i e ch
    rw [sync_window]
    cases hc : co.challenge s opt.syncdir ui i 0 with
    | none => simp
    | some c1 =>
      cases hr : co.response ui c1 with
      | none =>
        simp only [hr, List.mem_cons, List.mem_singleton, Call.response.injEq, false_or,
          List.not_mem_nil, or_false, reduceCtorEq]
        rintro rfl
        exact ⟨i, hc⟩
      | some r =>
        simp only [hr]
        split
        · intro h
          simp only [List.mem_append, List.mem_cons, List.not_mem_nil, or_false,
            Call.response.injEq, reduceCtorEq, false_or] at h
          rcases h with rfl | h
          · exact ⟨i, hc⟩
          · exact absurd h (test_passcode_not_response passcode cmpfunc data _ ch)
        · intro h
          simp only [Pre.after_trace, List.mem_append, List.mem_cons, List.not_mem_nil, or_false,
            Call.response.injEq, reduceCtorEq, false_or] at h
          rcases h with (rfl | h) | h
          · exact ⟨i, hc⟩
          · exact absurd h (test_passcode_not_response passcode cmpfunc data _ ch)
          · exact ih _ _ ch h

theorem sync_response_response (pa : Nat) (e ch : CStr)
    (h : Call.response ch ∈
      (sync_response env username passcode resync opt cmpfunc data s ui co pa t fc e).trace) :
    ∃ j, co.challenge s opt.syncdir ui j 0 = some ch := by
  revert h
  unfold sync_response
  split
  · split
    · dsimp only
      split
      · intro h; simp at h
      · intro h
        simp only [Pre.after_trace, List.mem_append, List.mem_singleton, reduceCtorEq,
          false_or] at h
        exact sync_window_response env passcode resync opt cmpfunc data s ui co t fc pa _ _ _ _
          ch h
    · exact sync_window_response env passcode resync opt cmpfunc data s ui co t fc pa _ _ _ _ ch
  · intro h; simp at h

/-- The commit only writes, after computing the sync challenge at offset 1 when
it resyncs. -/
theorem auth_done_calls (rc : RC) (r : Int) (a : Nat) :
    ∀ c ∈ (auth_done env username opt s ui co rc r a).trace,
      c.isWrite = true ∨ c = .challenge 1 0 := by
  intro c
  unfold auth_done
  split
  · split
    · split
      · intro h
        simp only [List.mem_singleton] at h
        exact Or.inr h
      · intro h
        simp only [List.mem_cons, List.mem_singleton, List.not_mem_nil, or_false] at h
        rcases h with rfl | rfl
        · exact Or.inr rfl
        · exact Or.inl rfl
    · intro h
      simp only [List.mem_singleton] at h
      subst h
      exact Or.inl rfl
  · intro h
    simp only [List.mem_cons, List.mem_singleton, List.not_mem_nil, or_false] at h
    rcases h with rfl | rfl <;> exact Or.inl rfl

/-- The calls of a whole call are those of lines 76-392 followed by the
commit's. -/
theorem otp_pw_valid_calls (challenge : Option CStr) :
    ∀ c ∈ (otp_pw_valid env username challenge passcode resync opt cmpfunc data s).trace,
      c ∈ (otp_pw_valid_pre env username challenge passcode resync opt cmpfunc data s).trace ∨
      c.isWrite = true ∨ c = .challenge 1 0 := by
  intro c
  cases hj : (otp_pw_valid_pre env username challenge passcode resync opt cmpfunc data
      s).jump with
  | auth_done_service_err rc =>
    rw [otp_pw_valid_exit env username challenge passcode resync opt cmpfunc data s rc hj]
    exact Or.inl
  | auth_done rc r a =>
    obtain ⟨ui1, co1, hu⟩ := pre_user_of_auth_done env username challenge passcode resync
      opt cmpfunc data s rc r a hj
    rw [otp_pw_valid_commit env username challenge passcode resync opt cmpfunc data s rc r a
      ui1 co1 hj hu]
    intro h
    simp only [List.mem_append] at h
    rcases h with h | h
    · exact Or.inl h
    · exact Or.inr (auth_done_calls env username opt s ui1 co1 rc r a c h)

end SyncChallenges

/-! ## The kinds of calls a call can make -/

section CallKinds

variable {σ : Type} (env : Env σ) (username : CStr) (passcode : Option CStr) (resync : Int)
  (opt : otp_option_t) (cmpfunc : Option (Nat → CStr → Int)) (data : Nat) (s : σ)
  (ui : otp_user_info_t) (co : cardops_t σ) (t : Int) (fc : FC)

/-- The calls of the scan: sync challenge queries at token offset 0, response
computations, and tests of the candidate. -/
theorem sync_window_calls (pa : Nat) (lap : Int) : ∀ (n i : Nat) (e : CStr),
    ∀ c ∈ (sync_window env passcode resync opt cmpfunc data s ui co pa t fc lap n i e).trace,
      (∃ j, c = .challenge j 0) ∨ (∃ ch, c = .response ch) ∨
        ∃ e1, c ∈ (test_passcode passcode cmpfunc data e1).2 := by
  intro n
  induction n with
  | zero => intro i e c hc; simp [sync_window] at hc
  | succ n ih =>
    intro i e c
    rw [sync_window]
    cases hc : co.challenge s opt.syncdir ui i 0 with
    | none =>
      intro h
      simp only [List.mem_singleton] at h
      exact Or.inl ⟨i, h⟩
    | some c1 =>
      cases hr : co.response ui c1 with
      | none =>
        intro h
        simp only [hr, List.mem_cons, List.mem_singleton, List.not_mem_nil, or_false] at h
        rcases h with h | h
        · exact Or.inl ⟨i, h⟩
        · exact Or.inr (Or.inl ⟨c1, h⟩)
      | some r =>
        simp only [hr]
        split
        · intro h
          simp only [List.mem_append, List.mem_cons, List.not_mem_nil, or_false] at h
          rcases h with (h | h) | h
          · exact Or.inl ⟨i, h⟩
          · exact Or.inr (Or.inl ⟨c1, h⟩)
          · exact Or.inr (Or.inr ⟨_, h⟩)
        · intro h
          simp only [Pre.after_trace, List.mem_append, List.mem_cons, List.not_mem_nil,
            or_false] at h
          rcases h with ((h | h) | h) | h
          · exact Or.inl ⟨i, h⟩
          · exact Or.inr (Or.inl ⟨c1, h⟩)
          · exact Or.inr (Or.inr ⟨_, h⟩)
          · exact ih _ _ c h

/-- The calls of the sync attempt: those of the scan, after the read of the
recorded position when the window is extended. -/
theorem sync_response_calls (pa : Nat) (e : CStr) :
    ∀ c ∈ (sync_response env username passcode resync opt cmpfunc data s ui co pa t fc e).trace,
      (c = .get_last_auth_pos ∧ opt.ewindow2_size ≠ 0 ∧ fc = .OTP_FC_FAIL_SOFT) ∨
      (∃ j, c = .challenge j 0) ∨ (∃ ch, c = .response ch) ∨
        ∃ e1, c ∈ (test_passcode passcode cmpfunc data e1).2 := by
  intro c
  unfold sync_response
  split
  · split
    · rename_i hw
      dsimp only
      split
      · intro h
        simp only [List.mem_singleton] at h
        exact Or.inl ⟨h, hw⟩
      · intro h
        simp only [Pre.after_trace, List.mem_append, List.mem_singleton] at h
        rcases h with h | h
        · exact Or.inl ⟨h, hw⟩
        · exact Or.inr (sync_window_calls env passcode resync opt cmpfunc data s ui co t fc pa _
            _ _ _ c h)
    · intro h
      exact Or.inr (sync_window_calls env passcode resync opt cmpfunc data s ui co t fc pa _ _ _
        _ c h)
  · intro h; simp at h

/-- The calls of the async attempt and what follows it: the transform of the
caller's challenge, response computations and tests of the candidate, and the
calls of the sync attempt. -/
theorem async_response_calls (challenge : CStr) (pa : Nat) (e : CStr) :
    ∀ c ∈ (async_response env username challenge passcode resync opt cmpfunc data s ui co pa t
        fc e).trace,
      (c = .challenge_transform challenge ∧ async_entered env challenge opt ui) ∨
      (c = .get_last_auth_pos ∧ opt.ewindow2_size ≠ 0 ∧ fc = .OTP_FC_FAIL_SOFT) ∨
      (∃ j, c = .challenge j 0) ∨ (∃ ch, c = .response ch) ∨
        ∃ e1, c ∈ (test_passcode passcode cmpfunc data e1).2 := by
  intro c
  rw [async_response]
  split
  · rename_i hent
    cases hc : env.otp_challenge_transform username challenge with
    | none =>
      intro h
      simp only [List.mem_singleton] at h
      exact Or.inl ⟨h, hent⟩
    | some c1 =>
      cases hr : co.response ui c1 with
      | none =>
        intro h
        simp only [hr, List.mem_cons, List.mem_singleton, List.not_mem_nil, or_false] at h
        rcases h with h | h
        · exact Or.inl ⟨h, hent⟩
        · exact Or.inr (Or.inr (Or.inr (Or.inl ⟨c1, h⟩)))
      | some r =>
        simp only [hr]
        split
        · intro h
          simp only [List.mem_append, List.mem_cons, List.not_mem_nil, or_false] at h
          rcases h with (h | h) | h
          · exact Or.inl ⟨h, hent⟩
          · exact Or.inr (Or.inr (Or.inr (Or.inl ⟨c1, h⟩)))
          · exact Or.inr (Or.inr (Or.inr (Or.inr ⟨_, h⟩)))
        · intro h
          simp only [Pre.after_trace, List.mem_append, List.mem_cons, List.not_mem_nil,
            or_false] at h
          rcases h with ((h | h) | h) | h
          · exact Or.inl ⟨h, hent⟩
          · exact Or.inr (Or.inr (Or.inr (Or.inl ⟨c1, h⟩)))
          · exact Or.inr (Or.inr (Or.inr (Or.inr ⟨_, h⟩)))
          · exact Or.inr (sync_response_calls env username passcode resync opt cmpfunc data s ui
              co t fc pa _ c h)
  · intro h
    exact Or.inr (sync_response_calls env username passcode resync opt cmpfunc data s ui co t fc
      pa _ c h)

/-- A test of the candidate is one `strcmp` with the literal passcode, or, when
there is none, one call of the comparison function with the caller's context. -/
theorem test_passcode_calls (e : CStr) :
    ∀ c ∈ (test_passcode passcode cmpfunc data e).2,
      (∃ p, passcode = some p ∧ c = .strcmp p e) ∨
      (passcode = none ∧ cmpfunc.isSome ∧ c = .cmpfunc data e) := by
  intro c
  unfold test_passcode
  split
  · intro h
    simp only [List.mem_singleton] at h
    exact Or.inl ⟨_, rfl, h⟩
  · intro h
    simp only [List.mem_singleton] at h
    exact Or.inr ⟨rfl, rfl, h⟩
  · intro h; simp at h

/-- The recorded window position is read only in soft-fail with an extended
window configured. -/
theorem otp_pw_valid_reads_position (challenge : Option CStr)
    (h : Call.get_last_auth_pos ∈
      (otp_pw_valid env username challenge passcode resync opt cmpfunc data s).trace) :
    opt.ewindow2_size ≠ 0 ∧ env.otp_check_failcount s username opt = .OTP_FC_FAIL_SOFT := by
  rcases otp_pw_valid_calls env username passcode resync opt cmpfunc data s challenge _ h
    with h | h | h
  · rcases pre_shape env username challenge passcode resync opt cmpfunc data s with
      ⟨rc, tr, u, heq, htr, _⟩ | ⟨chal, ui1, co1, t1, fc1, rfl, hres⟩
    · rw [heq] at h
      have := htr _ h
      simp [lookup_calls] at this
    · rw [pre_of_resolved env username passcode resync opt cmpfunc data s chal ui1 co1 t1 fc1
        hres] at h
      simp only [Pre.after_trace, List.mem_append] at h
      rcases h with h | h
      · simp [lookup_calls] at h
      · rcases async_response_calls env username passcode resync opt cmpfunc data s ui1 co1 t1
          fc1 chal _ _ _ h with ⟨h1, _⟩ | ⟨_, h2, h3⟩ | ⟨j, h1⟩ | ⟨ch, h1⟩ | ⟨e1, h1⟩
        · cases h1
        · exact ⟨h2, by rw [hres.policy]; exact h3⟩
        · cases h1
        · cases h1
        · rcases test_passcode_calls passcode cmpfunc data e1 _ h1 with ⟨p, _, h2⟩ | ⟨_, _, h2⟩ <;>
            cases h2
  · simp [Call.isWrite] at h
  · cases h

end CallKinds

/-! ## The tests of the candidate -/

section Tests

variable {σ : Type} (env : Env σ) (username : CStr) (challenge : Option CStr)
  (passcode : Option CStr) (resync : Int) (opt : otp_option_t)
  (cmpfunc : Option (Nat → CStr → Int)) (data : Nat) (s : σ)

theorem mem_compared_strcmp (q e : CStr) : ∀ tr : List Call, Call.strcmp q e ∈ tr →
    e ∈ compared tr := by
  intro tr
  induction tr with
  | nil => intro h; simp at h
  | cons c tr ih =>
    intro h
    rcases List.mem_cons.mp h with h1 | h1
    · subst h1
      simp [compared]
    · cases c <;> simp [compared, ih h1]

theorem mem_compared_cmpfunc (d : Nat) (e : CStr) : ∀ tr : List Call, Call.cmpfunc d e ∈ tr →
    e ∈ compared tr := by
  intro tr
  induction tr with
  | nil => intro h; simp at h
  | cons c tr ih =>
    intro h
    rcases List.mem_cons.mp h with h1 | h1
    · subst h1
      simp [compared]
    · cases c <;> simp [compared, ih h1]

/-- Every comparison made in a call is a test of the candidate of lines 204-208
or 316-320, made before the commit. -/
theorem otp_pw_valid_tests (c : Call)
    (hc : c ∈ (otp_pw_valid env username challenge passcode resync opt cmpfunc data s).trace)
    (hk : (∃ q e, c = .strcmp q e) ∨ ∃ d e, c = .cmpfunc d e) :
    c ∈ (otp_pw_valid_pre env username challenge passcode resync opt cmpfunc data s).trace ∧
    ∃ e, c ∈ (test_passcode passcode cmpfunc data e).2 := by
  have hnw : c.isWrite = false := by
    rcases hk with ⟨q, e, rfl⟩ | ⟨d, e, rfl⟩ <;> rfl
  have hnc : c ≠ .challenge 1 0 := by
    rcases hk with ⟨q, e, rfl⟩ | ⟨d, e, rfl⟩ <;> simp
  rcases otp_pw_valid_calls env username passcode resync opt cmpfunc data s challenge c hc
    with h | h | h
  · refine ⟨h, ?_⟩
    rcases pre_shape env username challenge passcode resync opt cmpfunc data s with
      ⟨rc, tr, u, heq, htr, _⟩ | ⟨chal, ui1, co1, t1, fc1, rfl, hres⟩
    · rw [heq] at h
      have := htr _ h
      simp only [lookup_calls, List.mem_cons, List.mem_singleton, List.not_mem_nil,
        or_false] at this
      rcases hk with ⟨q, e, rfl⟩ | ⟨d, e, rfl⟩ <;> simp at this
    · rw [pre_of_resolved env username passcode resync opt cmpfunc data s chal ui1 co1 t1 fc1
        hres] at h
      simp only [Pre.after_trace, List.mem_append] at h
      rcases h with h | h
      · simp only [lookup_calls, List.mem_cons, List.mem_singleton, List.not_mem_nil,
          or_false] at h
        rcases hk with ⟨q, e, rfl⟩ | ⟨d, e, rfl⟩ <;> simp at h
      · rcases async_response_calls env username passcode resync opt cmpfunc data s ui1 co1 t1
          fc1 chal _ _ _ h with ⟨h1, _⟩ | ⟨h1, _⟩ | ⟨j, h1⟩ | ⟨ch, h1⟩ | h1
        · rcases hk with ⟨q, e, rfl⟩ | ⟨d, e, rfl⟩ <;> cases h1
        · rcases hk with ⟨q, e, rfl⟩ | ⟨d, e, rfl⟩ <;> cases h1
        · rcases hk with ⟨q, e, rfl⟩ | ⟨d, e, rfl⟩ <;> cases h1
        · rcases hk with ⟨q, e, rfl⟩ | ⟨d, e, rfl⟩ <;> cases h1
        · exact h1
  · rw [hnw] at h
    cases h
  · exact absurd h hnc

end Tests

/-! ## What an acceptance implies -/

section Soundness

variable {σ : Type} (env : Env σ) (username : CStr) (passcode : Option CStr) (resync : Int)
  (opt : otp_option_t) (cmpfunc : Option (Nat → CStr → Int)) (data : Nat) (s : σ)
  (ui : otp_user_info_t) (co : cardops_t σ) (t : Int) (fc : FC)

/-- A match in the scan is accepted only outside hard-fail, and in soft-fail only
as the second of two consecutive passcodes with an extended window
configured. -/
theorem sync_matched_ok_inv (lap : Int) (i : Nat) (r : Int) (a : Nat)
    (h : sync_matched env resync opt t fc lap i = .auth_done .OTP_RC_OK r a) :
    fc ≠ .OTP_FC_FAIL_HARD ∧
    (fc = .OTP_FC_FAIL_SOFT → opt.ewindow2_size ≠ 0 ∧ override_ok env opt t lap i) := by
  unfold sync_matched at h
  split at h
  · cases h
  · rename_i hh
    refine ⟨hh, fun hsoft => ?_⟩
    rw [if_pos hsoft] at h
    split at h
    · cases h
    · rename_i hw2
      split at h
      · rename_i hov
        exact ⟨hw2, hov⟩
      · cases h

/-- An async match is accepted only with async mode allowed, policy ok, and the
last authentication at least `chal_delay` seconds ago. -/
theorem async_matched_ok_inv (r : Int) (a : Nat)
    (h : async_matched env resync opt t fc = .auth_done .OTP_RC_OK r a) :
    opt.allow_async ≠ 0 ∧ fc ≠ .OTP_FC_FAIL_HARD ∧ fc ≠ .OTP_FC_FAIL_SOFT ∧
      ¬ env.time - t < opt.chal_delay := by
  unfold async_matched at h
  split at h
  · cases h
  · rename_i h1
    split at h
    · cases h
    · rename_i h2
      split at h
      · cases h
      · rename_i h3
        split at h
        · cases h
        · rename_i h4
          exact ⟨h1, h2, h3, h4⟩

/-- An acceptance inside the scan comes from a first match at an offset of the
scan, decided there by lines 321-385. -/
theorem sync_window_ok_inv (lap : Int) : ∀ (n i : Nat) (e : CStr) (r : Int) (a : Nat),
    GoodBuf opt ui.pin e →
    (sync_window env passcode resync opt cmpfunc data s ui co (pin_adjust_init opt ui.pin)
      t fc lap n i e).jump = .auth_done .OTP_RC_OK r a →
    ∃ k, k < n ∧
      (∀ j, j < k →
        ∃ m, sync_nmatch passcode opt cmpfunc data s ui co (i + j) = some m ∧ m ≠ 0) ∧
      sync_nmatch passcode opt cmpfunc data s ui co (i + k) = some 0 ∧
      sync_matched env resync opt t fc lap (i + k) = .auth_done .OTP_RC_OK r a := by
  intro n
  induction n with
  | zero => intro i e r a _ h; simp [sync_window] at h
  | succ n ih =>
    intro i e r a hg h
    cases hm : sync_nmatch passcode opt cmpfunc data s ui co i with
    | none =>
      exfalso
      revert h
      unfold sync_nmatch at hm
      rw [sync_window]
      cases hc : co.challenge s opt.syncdir ui i 0 with
      | none => intro h; cases h
      | some c1 =>
        cases hr : co.response ui c1 with
        | none => simp only [hr]; intro h; cases h
        | some r1 => simp [hc, hr] at hm
    | some m =>
      obtain ⟨ch, r1, _, _, _, heq⟩ :=
        sync_window_step env passcode resync opt cmpfunc data s ui co t fc lap n i e hg m hm
      rw [heq] at h
      by_cases hm0 : m = 0
      · subst hm0
        rw [if_pos rfl] at h
        exact ⟨0, Nat.succ_pos n, fun j hj => absurd hj (Nat.not_lt_zero j), hm, h⟩
      · rw [if_neg hm0] at h
        obtain ⟨k, hk, hmis, hmatch, hdec⟩ := ih (i + 1) (expected opt ui.pin r1) r a
          (step_buf opt ui.pin e r1 hg).2 (by simpa using h)
        refine ⟨k + 1, Nat.succ_lt_succ hk, fun j hj => ?_, ?_, ?_⟩
        · rcases Nat.eq_zero_or_pos j with rfl | hpos
          · exact ⟨m, hm, hm0⟩
          · obtain ⟨j1, rfl⟩ : ∃ j1, j = j1 + 1 := ⟨j - 1, by omega⟩
            have := hmis j1 (by omega)
            rwa [show i + 1 + j1 = i + (j1 + 1) by omega] at this
        · rwa [show i + 1 + k = i + (k + 1) by omega] at hmatch
        · rwa [show i + 1 + k = i + (k + 1) by omega] at hdec

/-- An acceptance by the sync attempt: the attempt was entered and the candidate
first matches at an offset of the search window, where lines 321-385 accept
it. -/
theorem sync_response_ok_inv (e : CStr) (hg : GoodBuf opt ui.pin e) (r : Int) (a : Nat)
    (h : (sync_response env username passcode resync opt cmpfunc data s ui co
      (pin_adjust_init opt ui.pin) t fc e).jump = .auth_done .OTP_RC_OK r a) :
    sync_entered env opt ui ∧ 0 ≤ last_pos env username opt s fc ∧
    ∃ i : Nat, (i : Int) ≤ window_end opt fc ∧
      first_sync_match passcode opt cmpfunc data s ui co i ∧
      sync_matched env resync opt t fc (last_pos env username opt s fc) i =
        .auth_done .OTP_RC_OK r a := by
  by_cases hs : sync_entered env opt ui
  · have hpos : 0 ≤ last_pos env username opt s fc := by
      by_contra hneg
      have hw : opt.ewindow2_size ≠ 0 ∧ fc = .OTP_FC_FAIL_SOFT := by
        by_contra hw
        apply hneg
        simp only [last_pos, if_neg hw, le_refl]
      have hl : last_pos env username opt s fc =
          env.otp_get_last_auth_pos s opt.syncdir username := by
        simp only [last_pos, if_pos hw]
      rw [hl] at hneg
      revert h
      unfold sync_entered at hs
      unfold sync_response
      rw [if_pos hs, if_pos hw]
      simp only [if_pos (not_le.mp hneg)]
      intro h
      cases h
    obtain ⟨tr, _, heq⟩ :=
      sync_response_entered env username passcode resync opt cmpfunc data s ui co t fc e hs hpos
    rw [heq] at h
    obtain ⟨k, hk, hmis, hmatch, hdec⟩ := sync_window_ok_inv env passcode resync opt cmpfunc
      data s ui co t fc (last_pos env username opt s fc) _ 0 e r a hg (by simpa using h)
    refine ⟨hs, hpos, k, by omega, ⟨by simpa using hmatch, fun j hj => ?_⟩, by simpa using hdec⟩
    simpa using hmis j hj
  · rw [sync_response_not_entered env username passcode resync opt cmpfunc data s ui co t fc _ e
      hs] at h
    cases h

/-- An accepted decision is either an async acceptance (the candidate equals the
expected async response, no sync challenge queried) or, the async attempt not
having matched, an acceptance by the sync attempt. -/
theorem async_response_ok_inv (challenge : CStr) (e : CStr) (hg : GoodBuf opt ui.pin e)
    (r : Int) (a : Nat)
    (h : (async_response env username challenge passcode resync opt cmpfunc data s ui co
      (pin_adjust_init opt ui.pin) t fc e).jump = .auth_done .OTP_RC_OK r a) :
    (async_entered env challenge opt ui ∧
      async_nmatch env username challenge passcode opt cmpfunc data ui co = some 0 ∧
      async_matched env resync opt t fc = .auth_done .OTP_RC_OK r a ∧
      challenge_offsets (async_response env username challenge passcode resync opt cmpfunc data
        s ui co (pin_adjust_init opt ui.pin) t fc e).trace = []) ∨
    (no_async_match env username challenge passcode opt cmpfunc data ui co ∧
      sync_entered env opt ui ∧ 0 ≤ last_pos env username opt s fc ∧
      challenge_offsets (async_response env username challenge passcode resync opt cmpfunc data
        s ui co (pin_adjust_init opt ui.pin) t fc e).trace ≠ [] ∧
      ∃ i : Nat, (i : Int) ≤ window_end opt fc ∧
        first_sync_match passcode opt cmpfunc data s ui co i ∧
        sync_matched env resync opt t fc (last_pos env username opt s fc) i =
          .auth_done .OTP_RC_OK r a) := by
  by_cases hent : async_entered env challenge opt ui
  · cases hm : async_nmatch env username challenge passcode opt cmpfunc data ui co with
    | none =>
      exfalso
      revert h
      unfold async_nmatch at hm
      unfold async_entered at hent
      rw [async_response, if_pos hent]
      cases hc : env.otp_challenge_transform username challenge with
      | none => intro h; cases h
      | some c1 =>
        cases hr : co.response ui c1 with
        | none => simp only [hr]; intro h; cases h
        | some r1 => simp [hc, hr] at hm
    | some m =>
      obtain ⟨c1, r1, _, _, _, heq⟩ := async_response_step env username passcode resync opt
        cmpfunc data s ui co t fc challenge e hg hent m hm
      by_cases hm0 : m = 0
      · subst hm0
        refine Or.inl ⟨hent, rfl, ?_, ?_⟩
        · rw [heq, if_pos rfl] at h
          exact h
        · exact (async_response_match env username passcode resync opt cmpfunc data s ui co t fc
            challenge e hg hent hm).2.1
      · have hno : no_async_match env username challenge passcode opt cmpfunc data ui co :=
          Or.inr ⟨m, hm, hm0⟩
        rw [heq, if_neg hm0] at h
        obtain ⟨hs, hpos, i, hi, hfirst, hdec⟩ := sync_response_ok_inv env username passcode
          resync opt cmpfunc data s ui co t fc _ (step_buf opt ui.pin e r1 hg).2 r a
          (by simpa using h)
        refine Or.inr ⟨hno, hs, hpos, ?_, i, hi, hfirst, hdec⟩
        rw [heq, if_neg hm0]
        have h4 := (sync_response_ok env username passcode resync opt cmpfunc data s ui co t fc
          _ _ r a (by simpa using h)).2.2
        simpa [challenge_offsets_append, challenge_offsets_test_passcode, challenge_offsets]
          using h4
  · have heq := async_response_skipped env username passcode resync opt cmpfunc data s ui co t fc
      challenge (pin_adjust_init opt ui.pin) e hent
    rw [heq] at h ⊢
    obtain ⟨hs, hpos, i, hi, hfirst, hdec⟩ := sync_response_ok_inv env username passcode
      resync opt cmpfunc data s ui co t fc e hg r a h
    exact Or.inr ⟨Or.inl hent, hs, hpos,
      (sync_response_ok env username passcode resync opt cmpfunc data s ui co t fc _ _ r a h).2.2,
      i, hi, hfirst, hdec⟩

end Soundness

/-! ## The window the scan covers -/

section Window

variable {σ : Type}

/-- The window of lines 260-274 as the scan covers it.  In soft-fail with a nonzero
`ewindow2_size` (the recorded position read successfully) the scan runs over
`[0, ewindow2_size]`: the recorded position is read; a candidate that first
matches at an offset `i <= ewindow2_size` is found at `i`, where it is accepted
or recorded as an override candidate, after the offsets `0..i` were examined;
the scan never goes beyond offset `ewindow2_size`.  Outside soft-fail, or with
`ewindow2_size == 0`, the scan runs over `[0, ewindow_size]` and the recorded
position is not read. -/
theorem scan_window (env : Env σ) (username chal : CStr)
    (passcode : Option CStr) (resync : Int) (opt : otp_option_t)
    (cmpfunc : Option (Nat → CStr → Int)) (data : Nat) (s : σ)
    (ui : otp_user_info_t) (co : cardops_t σ) (t : Int) (fc : FC)
    (hres : Resolved env username passcode opt cmpfunc s ui co t fc)
    (hno : no_async_match env username chal passcode opt cmpfunc data ui co)
    (hs : sync_entered env opt ui) :
    (fc = .OTP_FC_FAIL_SOFT → opt.ewindow2_size ≠ 0 →
      0 ≤ env.otp_get_last_auth_pos s opt.syncdir username →
      window_end opt fc = opt.ewindow2_size ∧
      Call.get_last_auth_pos ∈
        (otp_pw_valid_pre env username (some chal) passcode resync opt cmpfunc data s).trace ∧
      (∀ i : Nat, first_sync_match passcode opt cmpfunc data s ui co i →
        ((i : Int) ≤ opt.ewindow2_size →
          ((otp_pw_valid_pre env username (some chal) passcode resync opt cmpfunc data s).jump =
              .auth_done .OTP_RC_OK 1 0 ∨
            (otp_pw_valid_pre env username (some chal) passcode resync opt cmpfunc data s).jump =
              .auth_done .OTP_RC_AUTH_ERR resync i) ∧
          challenge_offsets (otp_pw_valid_pre env username (some chal) passcode resync opt
            cmpfunc data s).trace = List.range (i + 1)) ∧
        (opt.ewindow2_size < (i : Int) →
          (otp_pw_valid_pre env username (some chal) passcode resync opt cmpfunc data s).jump =
            .auth_done .OTP_RC_AUTH_ERR resync 0 ∧
          challenge_offsets (otp_pw_valid_pre env username (some chal) passcode resync opt
            cmpfunc data s).trace = List.range (opt.ewindow2_size + 1).toNat ∧
          i ∉ challenge_offsets (otp_pw_valid_pre env username (some chal) passcode resync opt
            cmpfunc data s).trace)) ∧
      ((∀ j : Nat, (j : Int) ≤ opt.ewindow2_size →
          ∃ m, sync_nmatch passcode opt cmpfunc data s ui co j = some m ∧ m ≠ 0) →
        challenge_offsets (otp_pw_valid_pre env username (some chal) passcode resync opt
          cmpfunc data s).trace = List.range (opt.ewindow2_size + 1).toNat)) ∧
    (¬ (fc = .OTP_FC_FAIL_SOFT ∧ opt.ewindow2_size ≠ 0) →
      window_end opt fc = opt.ewindow_size ∧
      Call.get_last_auth_pos ∉
        (otp_pw_valid env username (some chal) passcode resync opt cmpfunc data s).trace ∧
      (∀ i : Nat, first_sync_match passcode opt cmpfunc data s ui co i →
        (i : Int) ≤ opt.ewindow_size →
        (otp_pw_valid_pre env username (some chal) passcode resync opt cmpfunc data s).jump =
          sync_matched env resync opt t fc 0 i ∧
        challenge_offsets (otp_pw_valid_pre env username (some chal) passcode resync opt
          cmpfunc data s).trace = List.range (i + 1)) ∧
      ((∀ j : Nat, (j : Int) ≤ opt.ewindow_size →
          ∃ m, sync_nmatch passcode opt cmpfunc data s ui co j = some m ∧ m ≠ 0) →
        challenge_offsets (otp_pw_valid_pre env username (some chal) passcode resync opt
          cmpfunc data s).trace = List.range (opt.ewindow_size + 1).toNat)) := by
  constructor
  · intro hfc hw2 hlap
    subst hfc
    have hend : window_end opt .OTP_FC_FAIL_SOFT = opt.ewindow2_size := by
      simp [window_end, hw2]
    have hlp : last_pos env username opt s .OTP_FC_FAIL_SOFT =
        env.otp_get_last_auth_pos s opt.syncdir username := by simp [last_pos, hw2]
    have hpos : 0 ≤ last_pos env username opt s .OTP_FC_FAIL_SOFT := by rw [hlp]; exact hlap
    refine ⟨hend, ?_, fun i hm => ⟨fun hi => ?_, fun hi => ?_⟩, fun hmis => ?_⟩
    · rw [pre_of_resolved env username passcode resync opt cmpfunc data s chal ui co t _ hres]
      obtain ⟨tr, e1, _, _, heq⟩ := async_response_no_match env username passcode resync opt
        cmpfunc data s ui co t .OTP_FC_FAIL_SOFT chal _ (goodBuf_init opt ui.pin) hno
      rw [heq]
      unfold sync_entered at hs
      unfold sync_response
      rw [if_pos hs, if_pos ⟨hw2, rfl⟩]
      dsimp only
      split <;> simp
    · obtain ⟨h1, h2⟩ := pre_sync_first_match env username chal passcode resync opt cmpfunc data
        s ui co t .OTP_FC_FAIL_SOFT hres hno hs hpos i (by rw [hend]; exact hi) hm
      refine ⟨?_, h2⟩
      rw [h1]
      unfold sync_matched
      simp only [reduceCtorEq, if_false, if_true, if_neg hw2]
      split
      · exact Or.inl rfl
      · exact Or.inr rfl
    · have hall : ∀ j : Nat, (j : Int) ≤ window_end opt .OTP_FC_FAIL_SOFT →
          ∃ m, sync_nmatch passcode opt cmpfunc data s ui co j = some m ∧ m ≠ 0 := by
        intro j hj
        rw [hend] at hj
        exact hm.2 j (by omega)
      obtain ⟨h1, h2⟩ := pre_sync_no_match env username chal passcode resync opt cmpfunc data s
        ui co t .OTP_FC_FAIL_SOFT hres hno hs hpos hall
      rw [hend] at h2
      refine ⟨h1, h2, ?_⟩
      rw [h2, List.mem_range]
      omega
    · have h2 := (pre_sync_no_match env username chal passcode resync opt cmpfunc data s
        ui co t .OTP_FC_FAIL_SOFT hres hno hs hpos (by rw [hend]; exact hmis)).2
      rw [hend] at h2
      exact h2
  · intro hbase
    have hw : ¬ (opt.ewindow2_size ≠ 0 ∧ fc = .OTP_FC_FAIL_SOFT) := fun h => hbase ⟨h.2, h.1⟩
    have hend : window_end opt fc = opt.ewindow_size := by simp only [window_end, if_neg hw]
    have hlp : last_pos env username opt s fc = 0 := by simp only [last_pos, if_neg hw]
    have hpos : 0 ≤ last_pos env username opt s fc := by rw [hlp]
    refine ⟨hend, fun hmem => ?_, fun i hm hi => ?_, fun hmis => ?_⟩
    · obtain ⟨h1, h2⟩ := otp_pw_valid_reads_position env username passcode resync opt cmpfunc
        data s (some chal) hmem
      rw [hres.policy] at h2
      exact hbase ⟨h2, h1⟩
    · have h := pre_sync_first_match env username chal passcode resync opt cmpfunc data
        s ui co t fc hres hno hs hpos i (by rw [hend]; exact hi) hm
      rw [hlp] at h
      exact h
    · have h2 := (pre_sync_no_match env username chal passcode resync opt cmpfunc data s
        ui co t fc hres hno hs hpos (by rw [hend]; exact hmis)).2
      rw [hend] at h2
      exact h2

end Window

/-! ## Facts about the concrete environment -/

section Concrete

theorem find_cardops0 (k : Scenario) :
    find_cardops (env0 k).otp_cardops ['C', 'C', '1'] = some (card0 k) := by
  have h : strncasecmp ['c', 'c'] ['C', 'C', '1'] 2 = 0 := by decide
  simp [env0, find_cardops, card0, h]

theorem policy0_ne_err (k : Scenario) (s : SyncState) :
    (env0 k).otp_check_failcount s bob opt0 ≠ .OTP_FC_FAIL_ERR := by
  simp only [env0]
  split
  · decide
  · split <;> decide

/-- In the concrete environment every call for `bob` with a literal passcode
is resolved. -/
theorem resolved0 (k : Scenario) (s : SyncState) (p : CStr) :
    Resolved (env0 k) bob (some p) opt0 none s (bob_info k) (card0 k) s.last_auth
      ((env0 k).otp_check_failcount s bob opt0) where
  testable := by simp
  found := by simp [env0, bob]
  readable := by simp [env0, bob]
  provider := by
    have h : ((env0 k).otp_get_user_info opt0.pwdfile bob).2.card = ['C', 'C', '1'] := by
      simp [env0, bob]
    rw [h]
    exact find_cardops0 k
  mask := by simp [env0, bob, card0, bob_info]
  key := by simp [env0, bob, card0, bob_info]
  name := rfl
  card := by simp [env0, bob, bob_info]
  keystring := by simp [env0, bob, bob_info]
  pin := by simp [env0, bob, bob_info]
  last_auth := by simp [env0]
  policy := rfl
  policy_ok := policy0_ne_err k s

/-- The concrete provider computes every sync response below `fail_from`. -/
theorem sync_nmatch0 (k : Scenario) (s : SyncState) (p : CStr) (j : Nat) (hj : j < k.fail_from) :
    sync_nmatch (some p) opt0 none 0 s (bob_info k) (card0 k) j =
      some (strcmp p (code0 s.sync j)) := by
  simp [sync_nmatch, card0, hj, test_passcode, expected, opt0, bob_info, code0]

end Concrete

/-! ## The claims -/

section Claims

variable {σ : Type}

/-- C1: a call of `otp_pw_valid` that leaves through the service-error exit (the
label `auth_done_service_err`, which every failure before the commit jumps to)
invokes none of the four write operations, so the durable state after the call
is the state before it; the call returns the code it left with. -/
theorem C1_service_err_exit_writes_nothing (env : Env σ) (username : CStr)
    (challenge passcode : Option CStr) (resync : Int) (opt : otp_option_t)
    (cmpfunc : Option (Nat → CStr → Int)) (data : Nat) (s : σ) (rc : RC)
    (h : (otp_pw_valid_pre env username challenge passcode resync opt cmpfunc data s).jump =
      .auth_done_service_err rc) :
    writes (otp_pw_valid env username challenge passcode resync opt cmpfunc data s).trace = [] ∧
    (otp_pw_valid env username challenge passcode resync opt cmpfunc data s).store = s ∧
    (otp_pw_valid env username challenge passcode resync opt cmpfunc data s).rc = rc := by
  rw [otp_pw_valid_exit env username challenge passcode resync opt cmpfunc data s rc h]
  exact ⟨pre_writes env username challenge passcode resync opt cmpfunc data s, rfl, rfl⟩

/-- Witness of C1: the provider fails to compute the sync challenge at offset 1
while the candidate would match at offset 2; the call leaves through the
service-error exit and the store is untouched. -/
theorem C1_service_err_exit_writes_nothing_witness :
    (otp_pw_valid_pre (env0 { fail_from := 1 }) bob (some []) (some (code0 4 2)) 0 opt0 none 0
        (store0 0 0)).jump = .auth_done_service_err .OTP_RC_SERVICE_ERR ∧
    (writes (otp_pw_valid (env0 { fail_from := 1 }) bob (some []) (some (code0 4 2)) 0 opt0
        none 0 (store0 0 0)).trace = [] ∧
      (otp_pw_valid (env0 { fail_from := 1 }) bob (some []) (some (code0 4 2)) 0 opt0 none 0
        (store0 0 0)).store = store0 0 0 ∧
      (otp_pw_valid (env0 { fail_from := 1 }) bob (some []) (some (code0 4 2)) 0 opt0 none 0
        (store0 0 0)).rc = .OTP_RC_SERVICE_ERR) :=
  ⟨by decide, C1_service_err_exit_writes_nothing _ _ _ _ _ _ _ _ _ _ (by decide)⟩

/-- C2, as the code has it: with failcount policy ok, sync mode supported and
allowed, all collaborators succeeding and no async match: a candidate that
matches the expected sync response at an offset `i` of `[0, ewindow_size]` and
at no earlier offset is accepted with `OTP_RC_OK`, the scan having queried the
provider's challenge operation for the offsets `0, 1, ..., i` in this order
and for no other; a candidate that matches at no offset of
`[0, ewindow_size]` is rejected with `OTP_RC_AUTH_ERR`, the scan having
queried exactly the offsets `0, ..., ewindow_size` in ascending order, whatever
the candidate would match beyond the window.  The scan never queries an offset
beyond the window end.  After an acceptance the commit queries the challenge
operation once more, for offset 1 (the resync), whatever the window end: the
queries of the whole call are `0, ..., i, 1`; after a rejection the commit
queries nothing. -/
theorem C2_sync_window_ascending_and_bounded (env : Env σ) (username chal : CStr)
    (passcode : Option CStr) (resync : Int) (opt : otp_option_t)
    (cmpfunc : Option (Nat → CStr → Int)) (data : Nat) (s : σ)
    (ui : otp_user_info_t) (co : cardops_t σ) (t : Int)
    (hres : Resolved env username passcode opt cmpfunc s ui co t .OTP_FC_FAIL_NONE)
    (hsync : sync_entered env opt ui)
    (hasync : no_async_match env username chal passcode opt cmpfunc data ui co)
    (hprov : ∀ j : Nat, (j : Int) ≤ opt.ewindow_size →
      (sync_nmatch passcode opt cmpfunc data s ui co j).isSome)
    (hresync : (co.challenge s opt.syncdir ui 1 0).isSome)
    (hset : ∀ ch kb, (env.otp_set_sync_data s opt.syncdir username ch kb).1 = 0)
    (hincr : (env.otp_incr_failcount s opt.syncdir username).1 = 0)
    (hpos : ∀ s1 a, (env.otp_set_last_auth_pos s1 opt.syncdir username a).1 = 0) :
    (∀ i : Nat, (i : Int) ≤ opt.ewindow_size →
      sync_nmatch passcode opt cmpfunc data s ui co i = some 0 →
      (∀ j, j < i → sync_nmatch passcode opt cmpfunc data s ui co j ≠ some 0) →
      (otp_pw_valid env username (some chal) passcode resync opt cmpfunc data s).rc = .OTP_RC_OK ∧
      challenge_offsets (otp_pw_valid_pre env username (some chal) passcode resync opt cmpfunc
        data s).trace = List.range (i + 1) ∧
      challenge_offsets (otp_pw_valid env username (some chal) passcode resync opt cmpfunc
        data s).trace = List.range (i + 1) ++ [1]) ∧
    ((∀ j : Nat, (j : Int) ≤ opt.ewindow_size →
        sync_nmatch passcode opt cmpfunc data s ui co j ≠ some 0) →
      (otp_pw_valid env username (some chal) passcode resync opt cmpfunc data s).rc =
        .OTP_RC_AUTH_ERR ∧
      challenge_offsets (otp_pw_valid_pre env username (some chal) passcode resync opt cmpfunc
        data s).trace = List.range (opt.ewindow_size + 1).toNat ∧
      challenge_offsets (otp_pw_valid env username (some chal) passcode resync opt cmpfunc
        data s).trace = List.range (opt.ewindow_size + 1).toNat) ∧
    (∀ j ∈ challenge_offsets (otp_pw_valid_pre env username (some chal) passcode resync opt
      cmpfunc data s).trace, (j : Int) ≤ opt.ewindow_size) := by
  have hend : window_end opt .OTP_FC_FAIL_NONE = opt.ewindow_size := by simp [window_end]
  have hlp : last_pos env username opt s .OTP_FC_FAIL_NONE = 0 := by simp [last_pos]
  have hu := pre_user_of_resolved env username chal passcode resync opt cmpfunc data s ui co t
    .OTP_FC_FAIL_NONE hres
  have hmis : ∀ j : Nat, (j : Int) ≤ opt.ewindow_size →
      sync_nmatch passcode opt cmpfunc data s ui co j ≠ some 0 →
      ∃ m, sync_nmatch passcode opt cmpfunc data s ui co j = some m ∧ m ≠ 0 := by
    intro j hj hne
    obtain ⟨m, hm⟩ := Option.isSome_iff_exists.mp (hprov j hj)
    exact ⟨m, hm, fun h0 => hne (by rw [hm, h0])⟩
  have hacc : ∀ i : Nat, (i : Int) ≤ opt.ewindow_size →
      sync_nmatch passcode opt cmpfunc data s ui co i = some 0 →
      (∀ j, j < i → sync_nmatch passcode opt cmpfunc data s ui co j ≠ some 0) →
      (otp_pw_valid env username (some chal) passcode resync opt cmpfunc data s).rc = .OTP_RC_OK ∧
      challenge_offsets (otp_pw_valid_pre env username (some chal) passcode resync opt cmpfunc
        data s).trace = List.range (i + 1) ∧
      challenge_offsets (otp_pw_valid env username (some chal) passcode resync opt cmpfunc
        data s).trace = List.range (i + 1) ++ [1] := by
    intro i hi hmatch hbefore
    have hfirst : first_sync_match passcode opt cmpfunc data s ui co i :=
      ⟨hmatch, fun j hj => hmis j (by omega) (hbefore j hj)⟩
    obtain ⟨hj, hoff⟩ := pre_sync_first_match env username chal passcode resync opt cmpfunc
      data s ui co t .OTP_FC_FAIL_NONE hres hasync hsync (by rw [hlp]) i (by rw [hend]; exact hi)
      hfirst
    have hj1 : (otp_pw_valid_pre env username (some chal) passcode resync opt cmpfunc data
        s).jump = .auth_done .OTP_RC_OK 1 0 := by rw [hj]; simp [sync_matched]
    refine ⟨?_, hoff, ?_⟩
    · rw [otp_pw_valid_commit env username (some chal) passcode resync opt cmpfunc data s
        .OTP_RC_OK 1 0 ui co hj1 hu, auth_done_resync env username opt s ui co 1 0 one_ne_zero]
      obtain ⟨ch, hch⟩ := Option.isSome_iff_exists.mp hresync
      simp [hch, hset]
    · rw [otp_pw_valid_commit env username (some chal) passcode resync opt cmpfunc data s
        .OTP_RC_OK 1 0 ui co hj1 hu, auth_done_resync env username opt s ui co 1 0 one_ne_zero]
      obtain ⟨ch, hch⟩ := Option.isSome_iff_exists.mp hresync
      simp only [hch, challenge_offsets_append, hoff]
      rfl
  have hrej : (∀ j : Nat, (j : Int) ≤ opt.ewindow_size →
        sync_nmatch passcode opt cmpfunc data s ui co j ≠ some 0) →
      (otp_pw_valid env username (some chal) passcode resync opt cmpfunc data s).rc =
        .OTP_RC_AUTH_ERR ∧
      challenge_offsets (otp_pw_valid_pre env username (some chal) passcode resync opt cmpfunc
        data s).trace = List.range (opt.ewindow_size + 1).toNat ∧
      challenge_offsets (otp_pw_valid env username (some chal) passcode resync opt cmpfunc
        data s).trace = List.range (opt.ewindow_size + 1).toNat := by
    intro hnone
    obtain ⟨hj, hoff⟩ := pre_sync_no_match env username chal passcode resync opt cmpfunc
      data s ui co t .OTP_FC_FAIL_NONE hres hasync hsync (by rw [hlp])
      (fun j hj => hmis j (by rw [hend] at hj; exact hj) (hnone j (by rw [hend] at hj; exact hj)))
    rw [hend] at hoff
    refine ⟨?_, hoff, ?_⟩
    · rw [otp_pw_valid_commit env username (some chal) passcode resync opt cmpfunc data s
        .OTP_RC_AUTH_ERR resync 0 ui co hj hu,
        auth_done_failure env username opt s ui co .OTP_RC_AUTH_ERR resync 0 (by decide)]
      simp [hincr, hpos]
    · rw [otp_pw_valid_commit env username (some chal) passcode resync opt cmpfunc data s
        .OTP_RC_AUTH_ERR resync 0 ui co hj hu,
        auth_done_failure env username opt s ui co .OTP_RC_AUTH_ERR resync 0 (by decide)]
      simp only [challenge_offsets_append, hoff]
      simp [challenge_offsets]
  refine ⟨hacc, hrej, fun j hj => ?_⟩
  by_cases hex : ∃ i : Nat, (i : Int) ≤ opt.ewindow_size ∧
      sync_nmatch passcode opt cmpfunc data s ui co i = some 0
  · obtain ⟨i, hi, hfirst⟩ := exists_first_sync_match passcode opt cmpfunc data s ui co
      opt.ewindow_size hprov hex
    have hoff := (hacc i hi hfirst.1 (fun k hk => by
      obtain ⟨m, hm, hm0⟩ := hfirst.2 k hk
      rw [hm]
      exact fun h => hm0 (Option.some.inj h))).2.1
    rw [hoff, List.mem_range] at hj
    omega
  · have hoff := (hrej (fun k hk h0 => hex ⟨k, hk, h0⟩)).2.1
    rw [hoff, List.mem_range] at hj
    omega

/-- Witness of C2: base window `[0, 2]`, candidate correct at offset 1 (and at
no other): accepted, the scan having queried the offsets 0 and 1, and the
commit offset 1 again for the resync. -/
theorem C2_sync_window_ascending_and_bounded_witness :
    (otp_pw_valid (env0 {}) bob (some []) (some (code0 4 1)) 0 opt0 none 0 (store0 0 0)).rc =
      .OTP_RC_OK ∧
    challenge_offsets (otp_pw_valid_pre (env0 {}) bob (some []) (some (code0 4 1)) 0 opt0 none 0
      (store0 0 0)).trace = List.range (1 + 1) ∧
    challenge_offsets (otp_pw_valid (env0 {}) bob (some []) (some (code0 4 1)) 0 opt0 none 0
      (store0 0 0)).trace = List.range (1 + 1) ++ [1] :=
  (C2_sync_window_ascending_and_bounded (env0 {}) bob [] (some (code0 4 1)) 0 opt0 none 0
    (store0 0 0) (bob_info {}) (card0 {}) 0 (resolved0 {} (store0 0 0) (code0 4 1))
    (by decide) (Or.inl (by decide))
    (fun j hj => by
      have hj2 : j < 100 := by simp only [opt0] at hj; omega
      rw [sync_nmatch0 {} (store0 0 0) (code0 4 1) j hj2]; rfl)
    (by decide) (fun _ _ => rfl) rfl (fun _ _ => rfl)).1 1 (by decide) (by decide)
    (fun j hj => by
      obtain rfl : j = 0 := by omega
      decide)

/-- Counterexample to C2 as stated: policy ok, sync mode supported and allowed,
the collaborators succeeding, no challenge supplied, base window `[0, 0]`, and
the candidate correct at offset 0.  The call returns `OTP_RC_OK`, and in it the
provider's challenge operation is queried for offset 0 by the scan and then for
offset 1 by the commit: an offset beyond the window end.  With the base window
`[0, 2]` and the candidate correct at offset 2 the queries of the call are
`0, 1, 2, 1`, which is not ascending. -/
theorem C2_sync_window_counterexample :
    (env0 {}).otp_check_failcount (store0 0 0) bob { opt0 with ewindow_size := 0 } =
      .OTP_FC_FAIL_NONE ∧
    (otp_pw_valid (env0 {}) bob (some []) (some (code0 4 0)) 0 { opt0 with ewindow_size := 0 }
      none 0 (store0 0 0)).rc = .OTP_RC_OK ∧
    challenge_offsets (otp_pw_valid (env0 {}) bob (some []) (some (code0 4 0)) 0
      { opt0 with ewindow_size := 0 } none 0 (store0 0 0)).trace = [0, 1] ∧
    (¬ ∀ j ∈ challenge_offsets (otp_pw_valid (env0 {}) bob (some []) (some (code0 4 0)) 0
      { opt0 with ewindow_size := 0 } none 0 (store0 0 0)).trace,
      (j : Int) ≤ 0) ∧
    challenge_offsets (otp_pw_valid (env0 {}) bob (some []) (some (code0 4 2)) 0 opt0 none 0
      (store0 0 0)).trace = [0, 1, 2, 1] := by
  decide

/-- C3, as the code has it: when the failcount policy is hard-fail, every call in
which the async attempt or the window scan finds the candidate equal to the
expected response reaches the commit with `OTP_RC_MAXTRIES` and never returns
`OTP_RC_OK`; the failure commit runs: `otp_incr_failcount` is invoked once, then
`otp_set_last_auth_pos` with position 0, and nothing else is written; the call
returns `OTP_RC_MAXTRIES` when both writes succeed and `OTP_RC_SERVICE_ERR` when
either fails; a failure count that incrementing does not lower and that
`otp_set_last_auth_pos` leaves alone does not decrease. -/
theorem C3_hard_fail_rejects_valid_response (env : Env σ) (username chal : CStr)
    (passcode : Option CStr) (resync : Int) (opt : otp_option_t)
    (cmpfunc : Option (Nat → CStr → Int)) (data : Nat) (s : σ)
    (ui : otp_user_info_t) (co : cardops_t σ) (t : Int)
    (hres : Resolved env username passcode opt cmpfunc s ui co t .OTP_FC_FAIL_HARD)
    (hmatch : (async_entered env chal opt ui ∧
        async_nmatch env username chal passcode opt cmpfunc data ui co = some 0) ∨
      (no_async_match env username chal passcode opt cmpfunc data ui co ∧
        sync_entered env opt ui ∧
        ∃ i : Nat, (i : Int) ≤ opt.ewindow_size ∧
          first_sync_match passcode opt cmpfunc data s ui co i)) :
    (otp_pw_valid_pre env username (some chal) passcode resync opt cmpfunc data s).jump =
      .auth_done .OTP_RC_MAXTRIES resync 0 ∧
    (otp_pw_valid env username (some chal) passcode resync opt cmpfunc data s).rc ≠ .OTP_RC_OK ∧
    (otp_pw_valid env username (some chal) passcode resync opt cmpfunc data s).rc =
      (if (env.otp_incr_failcount s opt.syncdir username).1 = 0 ∧
          (env.otp_set_last_auth_pos (env.otp_incr_failcount s opt.syncdir username).2
            opt.syncdir username 0).1 = 0 then .OTP_RC_MAXTRIES else .OTP_RC_SERVICE_ERR) ∧
    writes (otp_pw_valid env username (some chal) passcode resync opt cmpfunc data s).trace =
      [.incr_failcount, .set_last_auth_pos 0] ∧
    ∀ count : σ → Nat,
      (∀ s1, count s1 ≤ count (env.otp_incr_failcount s1 opt.syncdir username).2) →
      (∀ s1 a, count (env.otp_set_last_auth_pos s1 opt.syncdir username a).2 = count s1) →
      count s ≤
        count (otp_pw_valid env username (some chal) passcode resync opt cmpfunc data s).store
    := by
  have hu := pre_user_of_resolved env username chal passcode resync opt cmpfunc data s ui co t
    .OTP_FC_FAIL_HARD hres
  have hj : (otp_pw_valid_pre env username (some chal) passcode resync opt cmpfunc data
      s).jump = .auth_done .OTP_RC_MAXTRIES resync 0 := by
    rcases hmatch with ⟨hent, hm⟩ | ⟨ha, hs, i, hi, hm⟩
    · rw [(pre_async_match env username chal passcode resync opt cmpfunc data s ui co t
        .OTP_FC_FAIL_HARD hres hent hm).1]
      simp [async_matched, hent.2.2]
    · have hend : window_end opt .OTP_FC_FAIL_HARD = opt.ewindow_size := by simp [window_end]
      have hlp : last_pos env username opt s .OTP_FC_FAIL_HARD = 0 := by simp [last_pos]
      rw [(pre_sync_first_match env username chal passcode resync opt cmpfunc data s ui co t
        .OTP_FC_FAIL_HARD hres ha hs (by rw [hlp]) i (by rw [hend]; exact hi) hm).1]
      simp [sync_matched]
  obtain ⟨h1, h2, h3, _⟩ := otp_pw_valid_failure env username (some chal) passcode resync opt
    cmpfunc data s ui co .OTP_RC_MAXTRIES resync 0 (by decide) hj hu
  refine ⟨hj, ?_, h1, h3, ?_⟩
  · rw [h1]
    split <;> decide
  · intro count hc1 hc2
    rw [h2, hc2]
    exact hc1 s

/-- Witness of C3: six failures recorded (hard-fail), candidate correct at
offset 0, writes succeeding: `OTP_RC_MAXTRIES`, and the failure pair is
written. -/
theorem C3_hard_fail_rejects_valid_response_witness :
    (otp_pw_valid (env0 {}) bob (some []) (some (code0 4 0)) 0 opt0 none 0 (store0 6 0)).rc =
      .OTP_RC_MAXTRIES ∧
    writes (otp_pw_valid (env0 {}) bob (some []) (some (code0 4 0)) 0 opt0 none 0
      (store0 6 0)).trace = [.incr_failcount, .set_last_auth_pos 0] :=
  have h := C3_hard_fail_rejects_valid_response (env0 {}) bob [] (some (code0 4 0)) 0 opt0 none
    0 (store0 6 0) (bob_info {}) (card0 {}) 0 (resolved0 {} (store0 6 0) (code0 4 0))
    (Or.inr ⟨Or.inl (by decide), by decide, 0, by decide, by decide,
      fun j hj => absurd hj (Nat.not_lt_zero j)⟩)
  ⟨h.2.2.1, h.2.2.2.1⟩

/-- Counterexample to C3 as stated: the policy is hard-fail and the candidate
matches the expected sync response at offset 0 of the window, but
`otp_incr_failcount` fails, and the call returns `OTP_RC_SERVICE_ERR`, not
`OTP_RC_MAXTRIES`. -/
theorem C3_hard_fail_counterexample :
    (env0 { write_rc := 1 }).otp_check_failcount (store0 6 0) bob opt0 = .OTP_FC_FAIL_HARD ∧
    sync_nmatch (some (code0 4 0)) opt0 none 0 (store0 6 0) (bob_info { write_rc := 1 })
      (card0 { write_rc := 1 }) 0 = some 0 ∧
    (otp_pw_valid (env0 { write_rc := 1 }) bob (some []) (some (code0 4 0)) 0 opt0 none 0
      (store0 6 0)).rc = .OTP_RC_SERVICE_ERR ∧
    (otp_pw_valid (env0 { write_rc := 1 }) bob (some []) (some (code0 4 0)) 0 opt0 none 0
      (store0 6 0)).rc ≠ .OTP_RC_MAXTRIES := by
  decide

/-- C4, as the code has it: in soft-fail with a nonzero `ewindow2_size`, let `i` be
the first offset of the window `[0, ewindow2_size]` at which the scan finds the
candidate equal to the expected sync response.  The decision is acceptance
(`OTP_RC_OK` with resync) if and only if `last_auth_pos != 0`,
`i == last_auth_pos + 1` and `now - last_auth_time < ewindow2_delay`, and the
call then returns `OTP_RC_OK` exactly when the resync succeeds.  Otherwise the
scan ends at `i` with `OTP_RC_AUTH_ERR`, the failure commit hands exactly `i`
to `otp_set_last_auth_pos`, and the call returns `OTP_RC_AUTH_ERR` when both
writes succeed and `OTP_RC_SERVICE_ERR` when either fails.  In both cases no
offset greater than `i` is examined. -/
theorem C4_softfail_override_decision (env : Env σ) (username chal : CStr)
    (passcode : Option CStr) (resync : Int) (opt : otp_option_t)
    (cmpfunc : Option (Nat → CStr → Int)) (data : Nat) (s : σ)
    (ui : otp_user_info_t) (co : cardops_t σ) (t : Int) (i : Nat)
    (hres : Resolved env username passcode opt cmpfunc s ui co t .OTP_FC_FAIL_SOFT)
    (hw2 : opt.ewindow2_size ≠ 0)
    (ha : no_async_match env username chal passcode opt cmpfunc data ui co)
    (hs : sync_entered env opt ui)
    (hlap : 0 ≤ env.otp_get_last_auth_pos s opt.syncdir username)
    (hi : (i : Int) ≤ opt.ewindow2_size)
    (hm : first_sync_match passcode opt cmpfunc data s ui co i) :
    challenge_offsets (otp_pw_valid_pre env username (some chal) passcode resync opt cmpfunc
      data s).trace = List.range (i + 1) ∧
    ((otp_pw_valid_pre env username (some chal) passcode resync opt cmpfunc data s).jump =
        .auth_done .OTP_RC_OK 1 0 ↔
      (env.otp_get_last_auth_pos s opt.syncdir username ≠ 0 ∧
        (i : Int) = env.otp_get_last_auth_pos s opt.syncdir username + 1 ∧
        env.time - t < opt.ewindow2_delay)) ∧
    ((otp_pw_valid env username (some chal) passcode resync opt cmpfunc data s).rc = .OTP_RC_OK ↔
      (env.otp_get_last_auth_pos s opt.syncdir username ≠ 0 ∧
        (i : Int) = env.otp_get_last_auth_pos s opt.syncdir username + 1 ∧
        env.time - t < opt.ewindow2_delay) ∧
      ∃ ch, co.challenge s opt.syncdir ui 1 0 = some ch ∧
        (env.otp_set_sync_data s opt.syncdir username ch ui.keyblock).1 = 0) ∧
    (¬ (env.otp_get_last_auth_pos s opt.syncdir username ≠ 0 ∧
        (i : Int) = env.otp_get_last_auth_pos s opt.syncdir username + 1 ∧
        env.time - t < opt.ewindow2_delay) →
      (otp_pw_valid_pre env username (some chal) passcode resync opt cmpfunc data s).jump =
        .auth_done .OTP_RC_AUTH_ERR resync i ∧
      writes (otp_pw_valid env username (some chal) passcode resync opt cmpfunc data s).trace =
        [.incr_failcount, .set_last_auth_pos i] ∧
      (otp_pw_valid env username (some chal) passcode resync opt cmpfunc data s).rc =
        (if (env.otp_incr_failcount s opt.syncdir username).1 = 0 ∧
            (env.otp_set_last_auth_pos (env.otp_incr_failcount s opt.syncdir username).2
              opt.syncdir username i).1 = 0 then .OTP_RC_AUTH_ERR else .OTP_RC_SERVICE_ERR)) := by
  have hu := pre_user_of_resolved env username chal passcode resync opt cmpfunc data s ui co t
    .OTP_FC_FAIL_SOFT hres
  have hend : window_end opt .OTP_FC_FAIL_SOFT = opt.ewindow2_size := by
    simp [window_end, hw2]
  have hlp : last_pos env username opt s .OTP_FC_FAIL_SOFT =
      env.otp_get_last_auth_pos s opt.syncdir username := by simp [last_pos, hw2]
  obtain ⟨hj, hoff⟩ := pre_sync_first_match env username chal passcode resync opt cmpfunc data
    s ui co t .OTP_FC_FAIL_SOFT hres ha hs (by rw [hlp]; exact hlap) i (by rw [hend]; exact hi) hm
  rw [hlp] at hj
  by_cases hc : env.otp_get_last_auth_pos s opt.syncdir username ≠ 0 ∧
      (i : Int) = env.otp_get_last_auth_pos s opt.syncdir username + 1 ∧
      env.time - t < opt.ewindow2_delay
  · have hj1 : (otp_pw_valid_pre env username (some chal) passcode resync opt cmpfunc data
        s).jump = .auth_done .OTP_RC_OK 1 0 := by
      rw [hj]; simp [sync_matched, hw2, hc]
    have hr := otp_pw_valid_resync env username (some chal) passcode resync opt cmpfunc data s
      ui co 1 0 one_ne_zero hj1 hu
    refine ⟨hoff, ⟨fun _ => hc, fun _ => hj1⟩, ?_, fun hn => absurd hc hn⟩
    cases hch : co.challenge s opt.syncdir ui 1 0 with
    | none =>
      rw [hch] at hr
      simp [hr.1]
    | some ch =>
      rw [hch] at hr
      rw [hr.1]
      by_cases hset : (env.otp_set_sync_data s opt.syncdir username ch ui.keyblock).1 = 0
      · simp [hset, hc]
      · simp [hset]
  · have hj1 : (otp_pw_valid_pre env username (some chal) passcode resync opt cmpfunc data
        s).jump = .auth_done .OTP_RC_AUTH_ERR resync i := by
      rw [hj]; simp only [sync_matched, hw2, if_neg hc]; simp
    obtain ⟨h1, _, h3, _⟩ := otp_pw_valid_failure env username (some chal) passcode resync opt
      cmpfunc data s ui co .OTP_RC_AUTH_ERR resync i (by decide) hj1 hu
    refine ⟨hoff, ⟨fun h => ?_, fun h => absurd h hc⟩, ⟨fun h => ?_, fun h => absurd h.1 hc⟩,
      fun _ => ⟨hj1, h3, h1⟩⟩
    · rw [hj1] at h; cases h
    · rw [h1] at h
      split at h <;> cases h

/-- Witness of C4: soft-fail, extended window `[0, 5]`, position 2 recorded 30
seconds ago, candidate correct first at offset 3: the override is accepted and
the scan stopped at offset 3. -/
theorem C4_softfail_override_decision_witness :
    challenge_offsets (otp_pw_valid_pre (env0 { time := 30 }) bob (some []) (some (code0 4 3))
      0 opt0 none 0 (store0 3 2)).trace = List.range (3 + 1) ∧
    (otp_pw_valid (env0 { time := 30 }) bob (some []) (some (code0 4 3)) 0 opt0 none 0
      (store0 3 2)).rc = .OTP_RC_OK :=
  have h := C4_softfail_override_decision (env0 { time := 30 }) bob [] (some (code0 4 3)) 0 opt0
    none 0 (store0 3 2) (bob_info { time := 30 }) (card0 { time := 30 }) 0 3
    (resolved0 { time := 30 } (store0 3 2) (code0 4 3)) (by decide) (Or.inl (by decide))
    (by decide) (by decide) (by decide)
    ⟨by decide, fun j hj => by
      rw [sync_nmatch0 { time := 30 } (store0 3 2) (code0 4 3) j (by simp only; omega)]
      refine ⟨_, rfl, ?_⟩
      obtain rfl | rfl | rfl : j = 0 ∨ j = 1 ∨ j = 2 := by omega
      all_goals decide⟩
  ⟨h.1, h.2.2.1.mpr ⟨by decide, ⟨_, rfl, rfl⟩⟩⟩

/-- Counterexample to C4 as stated: soft-fail, extended window configured, no
position recorded, candidate correct first at offset 1 (so no override), and
`otp_incr_failcount` fails: the call returns `OTP_RC_SERVICE_ERR`, not
`OTP_RC_AUTH_ERR`. -/
theorem C4_softfail_counterexample :
    (env0 { write_rc := 1 }).otp_check_failcount (store0 3 0) bob opt0 = .OTP_FC_FAIL_SOFT ∧
    opt0.ewindow2_size ≠ 0 ∧
    (env0 { write_rc := 1 }).otp_get_last_auth_pos (store0 3 0) opt0.syncdir bob = 0 ∧
    sync_nmatch (some (code0 4 1)) opt0 none 0 (store0 3 0) (bob_info { write_rc := 1 })
      (card0 { write_rc := 1 }) 0 = some 1 ∧
    sync_nmatch (some (code0 4 1)) opt0 none 0 (store0 3 0) (bob_info { write_rc := 1 })
      (card0 { write_rc := 1 }) 1 = some 0 ∧
    (otp_pw_valid (env0 { write_rc := 1 }) bob (some []) (some (code0 4 1)) 0 opt0 none 0
      (store0 3 0)).rc = .OTP_RC_SERVICE_ERR ∧
    (otp_pw_valid (env0 { write_rc := 1 }) bob (some []) (some (code0 4 1)) 0 opt0 none 0
      (store0 3 0)).rc ≠ .OTP_RC_AUTH_ERR := by
  decide

/-- C5, as the code has it: two calls for a user in soft-fail with an extended
window configured, the store's writes succeeding.  The first call presents a
passcode correct first at position `p` (`p != 0`) and is not itself the second
of two consecutive passcodes (the recorded position is 0 or is not `p - 1`, or
the last authentication is not within the override delay); the second call
reads back the position the first one recorded and presents a passcode correct
first at position `p + 1`.  The first call returns `OTP_RC_AUTH_ERR`; the
second returns `OTP_RC_OK` if it is made within the override delay of the last
authentication time and `OTP_RC_AUTH_ERR` if not, in particular if the two
calls are more than the override delay apart. -/
theorem C5_two_consecutive_passcodes (env1 env2 : Env σ) (username chal1 chal2 : CStr)
    (passcode1 passcode2 : Option CStr) (resync1 resync2 : Int) (opt : otp_option_t)
    (cmpfunc1 cmpfunc2 : Option (Nat → CStr → Int)) (data1 data2 : Nat) (s0 s1 : σ)
    (ui1 ui2 : otp_user_info_t) (co1 co2 : cardops_t σ) (t1 t2 : Int) (p : Nat)
    (hw2 : opt.ewindow2_size ≠ 0) (hp : p ≠ 0) (hwin : (p : Int) + 1 ≤ opt.ewindow2_size)
    (hres1 : Resolved env1 username passcode1 opt cmpfunc1 s0 ui1 co1 t1 .OTP_FC_FAIL_SOFT)
    (ha1 : no_async_match env1 username chal1 passcode1 opt cmpfunc1 data1 ui1 co1)
    (hsync1 : sync_entered env1 opt ui1)
    (hlap : 0 ≤ env1.otp_get_last_auth_pos s0 opt.syncdir username)
    (hfresh : ¬ (env1.otp_get_last_auth_pos s0 opt.syncdir username ≠ 0 ∧
      (p : Int) = env1.otp_get_last_auth_pos s0 opt.syncdir username + 1 ∧
      env1.time - t1 < opt.ewindow2_delay))
    (hm1 : first_sync_match passcode1 opt cmpfunc1 data1 s0 ui1 co1 p)
    (hincr1 : (env1.otp_incr_failcount s0 opt.syncdir username).1 = 0)
    (hpos1 : ∀ s a, (env1.otp_set_last_auth_pos s opt.syncdir username a).1 = 0)
    (hs1 : (otp_pw_valid env1 username (some chal1) passcode1 resync1 opt cmpfunc1 data1
      s0).store = s1)
    (hread : env2.otp_get_last_auth_pos s1 opt.syncdir username = p)
    (hres2 : Resolved env2 username passcode2 opt cmpfunc2 s1 ui2 co2 t2 .OTP_FC_FAIL_SOFT)
    (ha2 : no_async_match env2 username chal2 passcode2 opt cmpfunc2 data2 ui2 co2)
    (hsync2 : sync_entered env2 opt ui2)
    (hm2 : first_sync_match passcode2 opt cmpfunc2 data2 s1 ui2 co2 (p + 1))
    (hresync2 : ∃ ch, co2.challenge s1 opt.syncdir ui2 1 0 = some ch ∧
      (env2.otp_set_sync_data s1 opt.syncdir username ch ui2.keyblock).1 = 0)
    (hincr2 : (env2.otp_incr_failcount s1 opt.syncdir username).1 = 0)
    (hpos2 : ∀ s a, (env2.otp_set_last_auth_pos s opt.syncdir username a).1 = 0) :
    (otp_pw_valid env1 username (some chal1) passcode1 resync1 opt cmpfunc1 data1 s0).rc =
      .OTP_RC_AUTH_ERR ∧
    s1 = (env1.otp_set_last_auth_pos (env1.otp_incr_failcount s0 opt.syncdir username).2
      opt.syncdir username p).2 ∧
    (env2.time - t2 < opt.ewindow2_delay →
      (otp_pw_valid env2 username (some chal2) passcode2 resync2 opt cmpfunc2 data2 s1).rc =
        .OTP_RC_OK) ∧
    (opt.ewindow2_delay ≤ env2.time - t2 →
      (otp_pw_valid env2 username (some chal2) passcode2 resync2 opt cmpfunc2 data2 s1).rc =
        .OTP_RC_AUTH_ERR) ∧
    (t2 ≤ env1.time → opt.ewindow2_delay < env2.time - env1.time →
      (otp_pw_valid env2 username (some chal2) passcode2 resync2 opt cmpfunc2 data2 s1).rc =
        .OTP_RC_AUTH_ERR) := by
  have hend : window_end opt .OTP_FC_FAIL_SOFT = opt.ewindow2_size := by
    simp [window_end, hw2]
  -- the first call
  have hu1 := pre_user_of_resolved env1 username chal1 passcode1 resync1 opt cmpfunc1 data1 s0
    ui1 co1 t1 .OTP_FC_FAIL_SOFT hres1
  have hlp1 : last_pos env1 username opt s0 .OTP_FC_FAIL_SOFT =
      env1.otp_get_last_auth_pos s0 opt.syncdir username := by simp [last_pos, hw2]
  have hj1 : (otp_pw_valid_pre env1 username (some chal1) passcode1 resync1 opt cmpfunc1 data1
      s0).jump = .auth_done .OTP_RC_AUTH_ERR resync1 p := by
    rw [(pre_sync_first_match env1 username chal1 passcode1 resync1 opt cmpfunc1 data1 s0 ui1
      co1 t1 .OTP_FC_FAIL_SOFT hres1 ha1 hsync1 (by rw [hlp1]; exact hlap) p
      (by rw [hend]; omega) hm1).1, hlp1]
    simp only [sync_matched, hw2, if_neg hfresh]
    simp
  obtain ⟨hrc1, hst1, _, _⟩ := otp_pw_valid_failure env1 username (some chal1) passcode1
    resync1 opt cmpfunc1 data1 s0 ui1 co1 .OTP_RC_AUTH_ERR resync1 p (by decide) hj1 hu1
  -- the second call
  have hu2 := pre_user_of_resolved env2 username chal2 passcode2 resync2 opt cmpfunc2 data2 s1
    ui2 co2 t2 .OTP_FC_FAIL_SOFT hres2
  have hlp2 : last_pos env2 username opt s1 .OTP_FC_FAIL_SOFT = p := by
    simp [last_pos, hw2, hread]
  have hj2 := (pre_sync_first_match env2 username chal2 passcode2 resync2 opt cmpfunc2 data2 s1
    ui2 co2 t2 .OTP_FC_FAIL_SOFT hres2 ha2 hsync2 (by rw [hlp2]; omega) (p + 1)
    (by rw [hend]; push_cast; exact hwin) hm2).1
  rw [hlp2] at hj2
  have hp' : (p : Int) ≠ 0 := by exact_mod_cast hp
  have hlate : opt.ewindow2_delay ≤ env2.time - t2 →
      (otp_pw_valid env2 username (some chal2) passcode2 resync2 opt cmpfunc2 data2 s1).rc =
        .OTP_RC_AUTH_ERR := by
    intro hd
    have hj : (otp_pw_valid_pre env2 username (some chal2) passcode2 resync2 opt cmpfunc2 data2
        s1).jump = .auth_done .OTP_RC_AUTH_ERR resync2 (p + 1) := by
      rw [hj2]
      simp [sync_matched, hw2, not_lt.mpr hd]
    rw [(otp_pw_valid_failure env2 username (some chal2) passcode2 resync2 opt cmpfunc2 data2 s1
      ui2 co2 .OTP_RC_AUTH_ERR resync2 (p + 1) (by decide) hj hu2).1]
    simp [hincr2, hpos2]
  refine ⟨?_, ?_, ?_, hlate, fun ht hd => hlate (by omega)⟩
  · rw [hrc1]
    simp [hincr1, hpos1]
  · rw [← hs1, hst1]
  · intro hd
    have hj : (otp_pw_valid_pre env2 username (some chal2) passcode2 resync2 opt cmpfunc2 data2
        s1).jump = .auth_done .OTP_RC_OK 1 0 := by
      rw [hj2]
      simp [sync_matched, hw2, hp', hd]
    have h := otp_pw_valid_resync env2 username (some chal2) passcode2 resync2 opt cmpfunc2
      data2 s1 ui2 co2 1 0 one_ne_zero hj hu2
    obtain ⟨ch, hch, hset⟩ := hresync2
    rw [hch] at h
    rw [h.1]
    simp [hset]

/-- Witness of C5: three failures recorded (soft-fail), no position recorded;
at time 30 the passcode for position 2 is rejected and position 2 recorded; at
time 50, within the delay of 60, the passcode for position 3 is accepted. -/
theorem C5_two_consecutive_passcodes_witness :
    (otp_pw_valid (env0 { time := 30 }) bob (some []) (some (code0 4 2)) 0 opt0 none 0
      (store0 3 0)).rc = .OTP_RC_AUTH_ERR ∧
    (otp_pw_valid (env0 { time := 50 }) bob (some []) (some (code0 4 3)) 0 opt0 none 0
      { last_auth := 30, last_auth_pos := 2, failcount := 4, sync := 4 }).rc = .OTP_RC_OK :=
  have h := C5_two_consecutive_passcodes (env0 { time := 30 }) (env0 { time := 50 }) bob [] []
    (some (code0 4 2)) (some (code0 4 3)) 0 0 opt0 none none 0 0 (store0 3 0)
    { last_auth := 30, last_auth_pos := 2, failcount := 4, sync := 4 }
    (bob_info { time := 30 }) (bob_info { time := 50 }) (card0 { time := 30 })
    (card0 { time := 50 }) 0 30 2 (by decide) (by decide) (by decide)
    (resolved0 { time := 30 } (store0 3 0) (code0 4 2)) (Or.inl (by decide)) (by decide)
    (by decide) (by decide)
    ⟨by decide, fun j hj => by
      rw [sync_nmatch0 { time := 30 } (store0 3 0) (code0 4 2) j (by simp only; omega)]
      refine ⟨_, rfl, ?_⟩
      obtain rfl | rfl : j = 0 ∨ j = 1 := by omega
      all_goals decide⟩
    rfl (fun _ _ => rfl) (by decide) rfl
    (resolved0 { time := 50 } { last_auth := 30, last_auth_pos := 2, failcount := 4, sync := 4 }
      (code0 4 3)) (Or.inl (by decide)) (by decide)
    ⟨by decide, fun j hj => by
      rw [sync_nmatch0 { time := 50 }
        { last_auth := 30, last_auth_pos := 2, failcount := 4, sync := 4 } (code0 4 3) j
        (by simp only; omega)]
      refine ⟨_, rfl, ?_⟩
      obtain rfl | rfl | rfl : j = 0 ∨ j = 1 ∨ j = 2 := by omega
      all_goals decide⟩
    ⟨_, rfl, rfl⟩ rfl (fun _ _ => rfl)
  ⟨h.1, h.2.2.1 (by decide)⟩

/-- Counterexample to C5 as stated: a user in soft-fail with the extended window
`[0, 5]` configured, for whom position 1 was recorded 30 seconds ago; the first
call presents the passcode correct exactly at position 2 (nonzero), and it is
accepted as the second of two consecutive passcodes: the first call returns
`OTP_RC_OK`, not `OTP_RC_AUTH_ERR`.  (With no position recorded but the store's
writes failing, the same first call returns `OTP_RC_SERVICE_ERR`.) -/
theorem C5_two_consecutive_counterexample :
    (env0 { time := 30 }).otp_check_failcount (store0 3 1) bob opt0 = .OTP_FC_FAIL_SOFT ∧
    opt0.ewindow2_size = 5 ∧
    (∀ j, j ≤ 5 →
      (sync_nmatch (some (code0 4 2)) opt0 none 0 (store0 3 1) (bob_info { time := 30 })
        (card0 { time := 30 }) j = some 0 ↔ j = 2)) ∧
    (otp_pw_valid (env0 { time := 30 }) bob (some []) (some (code0 4 2)) 0 opt0 none 0
      (store0 3 1)).rc = .OTP_RC_OK ∧
    (otp_pw_valid (env0 { time := 30 }) bob (some []) (some (code0 4 2)) 0 opt0 none 0
      (store0 3 1)).rc ≠ .OTP_RC_AUTH_ERR ∧
    (otp_pw_valid (env0 { time := 30, write_rc := 1 }) bob (some []) (some (code0 4 2)) 0 opt0
      none 0 (store0 3 0)).rc = .OTP_RC_SERVICE_ERR := by
  decide

/-- C6, as the code has it: in soft-fail with `ewindow2_size == 0`, every call in
which the scan finds the candidate equal to the expected sync response at an
offset of `[0, ewindow_size]` (the async attempt, if entered, having been
carried out) reaches the commit with `OTP_RC_MAXTRIES` and never returns
`OTP_RC_OK`; the failure commit hands position 0 to `otp_set_last_auth_pos`; the
call returns `OTP_RC_MAXTRIES` when both writes succeed and
`OTP_RC_SERVICE_ERR` when either fails. -/
theorem C6_softfail_without_ewindow2 (env : Env σ) (username chal : CStr)
    (passcode : Option CStr) (resync : Int) (opt : otp_option_t)
    (cmpfunc : Option (Nat → CStr → Int)) (data : Nat) (s : σ)
    (ui : otp_user_info_t) (co : cardops_t σ) (t : Int) (i : Nat)
    (hres : Resolved env username passcode opt cmpfunc s ui co t .OTP_FC_FAIL_SOFT)
    (hw2 : opt.ewindow2_size = 0)
    (ha : ¬ async_entered env chal opt ui ∨
      ∃ n, async_nmatch env username chal passcode opt cmpfunc data ui co = some n)
    (hs : sync_entered env opt ui)
    (hi : (i : Int) ≤ opt.ewindow_size)
    (hm : first_sync_match passcode opt cmpfunc data s ui co i) :
    (otp_pw_valid_pre env username (some chal) passcode resync opt cmpfunc data s).jump =
      .auth_done .OTP_RC_MAXTRIES resync 0 ∧
    (otp_pw_valid env username (some chal) passcode resync opt cmpfunc data s).rc ≠ .OTP_RC_OK ∧
    (otp_pw_valid env username (some chal) passcode resync opt cmpfunc data s).rc =
      (if (env.otp_incr_failcount s opt.syncdir username).1 = 0 ∧
          (env.otp_set_last_auth_pos (env.otp_incr_failcount s opt.syncdir username).2
            opt.syncdir username 0).1 = 0 then .OTP_RC_MAXTRIES else .OTP_RC_SERVICE_ERR) ∧
    writes (otp_pw_valid env username (some chal) passcode resync opt cmpfunc data s).trace =
      [.incr_failcount, .set_last_auth_pos 0] := by
  have hu := pre_user_of_resolved env username chal passcode resync opt cmpfunc data s ui co t
    .OTP_FC_FAIL_SOFT hres
  have hsyncpath : no_async_match env username chal passcode opt cmpfunc data ui co →
      (otp_pw_valid_pre env username (some chal) passcode resync opt cmpfunc data s).jump =
        .auth_done .OTP_RC_MAXTRIES resync 0 := by
    intro hno
    have hend : window_end opt .OTP_FC_FAIL_SOFT = opt.ewindow_size := by
      simp [window_end, hw2]
    have hlp : last_pos env username opt s .OTP_FC_FAIL_SOFT = 0 := by simp [last_pos, hw2]
    rw [(pre_sync_first_match env username chal passcode resync opt cmpfunc data s ui co t
      .OTP_FC_FAIL_SOFT hres hno hs (by rw [hlp]) i (by rw [hend]; exact hi) hm).1]
    simp [sync_matched, hw2]
  have hj : (otp_pw_valid_pre env username (some chal) passcode resync opt cmpfunc data
      s).jump = .auth_done .OTP_RC_MAXTRIES resync 0 := by
    rcases ha with hne | ⟨n, hn⟩
    · exact hsyncpath (Or.inl hne)
    · by_cases hent : async_entered env chal opt ui
      · by_cases h0 : n = 0
        · subst h0
          rw [(pre_async_match env username chal passcode resync opt cmpfunc data s ui co t
            .OTP_FC_FAIL_SOFT hres hent hn).1]
          simp [async_matched, hent.2.2]
        · exact hsyncpath (Or.inr ⟨n, hn, h0⟩)
      · exact hsyncpath (Or.inl hent)
  obtain ⟨h1, _, h3, _⟩ := otp_pw_valid_failure env username (some chal) passcode resync opt
    cmpfunc data s ui co .OTP_RC_MAXTRIES resync 0 (by decide) hj hu
  refine ⟨hj, ?_, h1, h3⟩
  rw [h1]
  split <;> decide

/-- Witness of C6: soft-fail, no extended window, candidate correct at offset 1
of the base window `[0, 2]`, writes succeeding: `OTP_RC_MAXTRIES`, position 0
recorded. -/
theorem C6_softfail_without_ewindow2_witness :
    (otp_pw_valid (env0 {}) bob (some []) (some (code0 4 1)) 0 { opt0 with ewindow2_size := 0 }
      none 0 (store0 3 0)).rc = .OTP_RC_MAXTRIES ∧
    writes (otp_pw_valid (env0 {}) bob (some []) (some (code0 4 1)) 0
      { opt0 with ewindow2_size := 0 } none 0 (store0 3 0)).trace =
      [.incr_failcount, .set_last_auth_pos 0] :=
  have hres : Resolved (env0 {}) bob (some (code0 4 1)) { opt0 with ewindow2_size := 0 } none
      (store0 3 0) (bob_info {}) (card0 {}) 0 .OTP_FC_FAIL_SOFT :=
    { resolved0 {} (store0 3 0) (code0 4 1) with }
  have h := C6_softfail_without_ewindow2 (env0 {}) bob [] (some (code0 4 1)) 0
    { opt0 with ewindow2_size := 0 } none 0 (store0 3 0) (bob_info {}) (card0 {}) 0 1 hres rfl
    (Or.inl (by decide)) (by decide) (by decide)
    ⟨by decide, fun j hj => by
      obtain rfl : j = 0 := by omega
      exact ⟨1, by decide, by decide⟩⟩
  ⟨h.2.2.1, h.2.2.2⟩

/-- Counterexample to C6 as stated: soft-fail, `ewindow2_size == 0`, candidate
correct at offset 1 of the base window, and `otp_incr_failcount` fails: the call
returns `OTP_RC_SERVICE_ERR`, not `OTP_RC_MAXTRIES`. -/
theorem C6_softfail_counterexample :
    (env0 { write_rc := 1 }).otp_check_failcount (store0 3 0) bob
      { opt0 with ewindow2_size := 0 } = .OTP_FC_FAIL_SOFT ∧
    sync_nmatch (some (code0 4 1)) { opt0 with ewindow2_size := 0 } none 0 (store0 3 0)
      (bob_info { write_rc := 1 }) (card0 { write_rc := 1 }) 1 = some 0 ∧
    (otp_pw_valid (env0 { write_rc := 1 }) bob (some []) (some (code0 4 1)) 0
      { opt0 with ewindow2_size := 0 } none 0 (store0 3 0)).rc = .OTP_RC_SERVICE_ERR ∧
    (otp_pw_valid (env0 { write_rc := 1 }) bob (some []) (some (code0 4 1)) 0
      { opt0 with ewindow2_size := 0 } none 0 (store0 3 0)).rc ≠ .OTP_RC_MAXTRIES := by
  decide

/-- C7: whenever the async attempt is entered and the candidate matches the
expected async response, the result handed to the commit is `OTP_RC_MAXTRIES`
if the failcount policy is hard-fail or soft-fail, `OTP_RC_MAXTRIES` if
`now - last_auth_time < chal_delay`, and `OTP_RC_OK` otherwise, with the
caller's `resync` and no window position; no sync attempt is made: no sync
challenge is queried and the recorded position is not read. -/
theorem C7_async_match_decision (env : Env σ) (username chal : CStr)
    (passcode : Option CStr) (resync : Int) (opt : otp_option_t)
    (cmpfunc : Option (Nat → CStr → Int)) (data : Nat) (s : σ)
    (ui : otp_user_info_t) (co : cardops_t σ) (t : Int) (fc : FC)
    (hres : Resolved env username passcode opt cmpfunc s ui co t fc)
    (hent : async_entered env chal opt ui)
    (hm : async_nmatch env username chal passcode opt cmpfunc data ui co = some 0) :
    (otp_pw_valid_pre env username (some chal) passcode resync opt cmpfunc data s).jump =
      .auth_done
        (if fc = .OTP_FC_FAIL_HARD ∨ fc = .OTP_FC_FAIL_SOFT then .OTP_RC_MAXTRIES
          else if env.time - t < opt.chal_delay then .OTP_RC_MAXTRIES else .OTP_RC_OK)
        resync 0 ∧
    challenge_offsets (otp_pw_valid_pre env username (some chal) passcode resync opt cmpfunc
      data s).trace = [] ∧
    Call.get_last_auth_pos ∉ (otp_pw_valid_pre env username (some chal) passcode resync opt
      cmpfunc data s).trace := by
  obtain ⟨h1, h2, h3⟩ := pre_async_match env username chal passcode resync opt cmpfunc data s
    ui co t fc hres hent hm
  refine ⟨?_, h2, h3⟩
  rw [h1]
  unfold async_matched
  rw [if_neg hent.2.2]
  by_cases hh : fc = .OTP_FC_FAIL_HARD
  · simp [hh]
  · by_cases hsf : fc = .OTP_FC_FAIL_SOFT
    · simp [hsf]
    · by_cases hd : env.time - t < opt.chal_delay <;> simp [hh, hsf, hd]

/-- Witness of C7: policy ok, challenge `x`, candidate equal to the expected
async response, last authentication 1000 seconds ago with a replay delay of 60:
`OTP_RC_OK` is handed to the commit. -/
theorem C7_async_match_decision_witness :
    (otp_pw_valid_pre (env0 {}) bob (some ['x']) (some ['r', 'x', '9']) 0 opt0 none 0
      (store0 0 0)).jump = .auth_done .OTP_RC_OK 0 0 ∧
    challenge_offsets (otp_pw_valid_pre (env0 {}) bob (some ['x']) (some ['r', 'x', '9']) 0 opt0
      none 0 (store0 0 0)).trace = [] :=
  have h := C7_async_match_decision (env0 {}) bob ['x'] (some ['r', 'x', '9']) 0 opt0 none 0
    (store0 0 0) (bob_info {}) (card0 {}) 0 .OTP_FC_FAIL_NONE
    (resolved0 {} (store0 0 0) ['r', 'x', '9']) (by decide) (by decide)
  ⟨h.1, h.2.1⟩

/-- C8, as the code has it: for every call accepted through the async path with
the caller's `resync` argument zero, the success commit consists only of
`otp_reset_failcount`: no sync challenge is computed, `otp_set_sync_data` is not
called, and the call returns `OTP_RC_OK` if the reset succeeds and
`OTP_RC_SERVICE_ERR` if it fails. -/
theorem C8_async_accept_resets_only (env : Env σ) (username : CStr)
    (challenge passcode : Option CStr) (resync : Int) (opt : otp_option_t)
    (cmpfunc : Option (Nat → CStr → Int)) (data : Nat) (s : σ)
    (hacc : accepted_async
      (otp_pw_valid_pre env username challenge passcode resync opt cmpfunc data s))
    (hr : resync = 0) :
    commit_calls (otp_pw_valid_pre env username challenge passcode resync opt cmpfunc data s)
      (otp_pw_valid env username challenge passcode resync opt cmpfunc data s) =
      [.reset_failcount] ∧
    writes (otp_pw_valid env username challenge passcode resync opt cmpfunc data s).trace =
      [.reset_failcount] ∧
    challenge_offsets (otp_pw_valid env username challenge passcode resync opt cmpfunc data
      s).trace = [] ∧
    (otp_pw_valid env username challenge passcode resync opt cmpfunc data s).rc =
      (if (env.otp_reset_failcount s opt.syncdir username).1 = 0 then .OTP_RC_OK
        else .OTP_RC_SERVICE_ERR) := by
  obtain ⟨⟨r, a, hj⟩, hoff⟩ := hacc
  obtain ⟨ui, co, hu⟩ := pre_user_of_auth_done env username challenge passcode resync opt
    cmpfunc data s .OTP_RC_OK r a hj
  obtain ⟨_, hr1, _⟩ := pre_ok env username challenge passcode resync opt cmpfunc data s r a hj
  have hr0 : r = 0 := by rw [hr1 hoff, hr]
  subst hr0
  obtain ⟨h1, _, h3, h4⟩ := otp_pw_valid_reset env username challenge passcode resync opt
    cmpfunc data s ui co a hj hu
  refine ⟨h4, h3, ?_, h1⟩
  rw [otp_pw_valid_commit env username challenge passcode resync opt cmpfunc data s .OTP_RC_OK
    0 a ui co hj hu, auth_done_reset env username opt s ui co a]
  simp only [challenge_offsets_append, hoff]
  rfl

/-- Witness of C8: async acceptance with `resync = 0`: only the reset is
written. -/
theorem C8_async_accept_resets_only_witness :
    commit_calls
      (otp_pw_valid_pre (env0 {}) bob (some ['x']) (some ['r', 'x', '9']) 0 opt0 none 0
        (store0 0 0))
      (otp_pw_valid (env0 {}) bob (some ['x']) (some ['r', 'x', '9']) 0 opt0 none 0
        (store0 0 0)) = [.reset_failcount] ∧
    (otp_pw_valid (env0 {}) bob (some ['x']) (some ['r', 'x', '9']) 0 opt0 none 0
      (store0 0 0)).rc = .OTP_RC_OK :=
  have h := C8_async_accept_resets_only (env0 {}) bob (some ['x']) (some ['r', 'x', '9']) 0 opt0
    none 0 (store0 0 0) ⟨⟨0, 0, by decide⟩, by decide⟩ rfl
  ⟨h.1, h.2.2.2⟩

/-- Counterexample to C8 as stated: a call accepted through the async path (no
sync challenge queried before the decision) with `resync = 1`: the commit
computes the sync challenge at offset 1 and calls `otp_set_sync_data`;
`otp_reset_failcount` is not called; the call returns `OTP_RC_OK`. -/
theorem C8_async_accept_counterexample :
    (otp_pw_valid_pre (env0 {}) bob (some ['x']) (some ['r', 'x', '9']) 1 opt0 none 0
      (store0 0 0)).jump = .auth_done .OTP_RC_OK 1 0 ∧
    challenge_offsets (otp_pw_valid_pre (env0 {}) bob (some ['x']) (some ['r', 'x', '9']) 1 opt0
      none 0 (store0 0 0)).trace = [] ∧
    commit_calls
      (otp_pw_valid_pre (env0 {}) bob (some ['x']) (some ['r', 'x', '9']) 1 opt0 none 0
        (store0 0 0))
      (otp_pw_valid (env0 {}) bob (some ['x']) (some ['r', 'x', '9']) 1 opt0 none 0
        (store0 0 0)) = [.challenge 1 0, .set_sync_data (List.replicate 5 'c') [7]] ∧
    Call.reset_failcount ∉ (otp_pw_valid (env0 {}) bob (some ['x']) (some ['r', 'x', '9']) 1
      opt0 none 0 (store0 0 0)).trace ∧
    (otp_pw_valid (env0 {}) bob (some ['x']) (some ['r', 'x', '9']) 1 opt0 none 0
      (store0 0 0)).rc = .OTP_RC_OK := by
  decide

/-- C9: when a call is accepted in async mode, the caller's `resync` argument
decides the commit: the card is resynced (the sync challenge at offset 1 is
computed and `otp_set_sync_data` is called) if and only if `resync` is nonzero,
and otherwise only `otp_reset_failcount` is called; when the call is accepted in
sync mode the card is resynced whatever the value of `resync`.  This holds of
every call that returns `OTP_RC_OK`; and already when the commit is reached with
`OTP_RC_OK` the same test chooses between running the resync and only resetting
the failure count.  The calls take effect: after a resync the store is the one
`otp_set_sync_data` left, given the challenge at offset 1 and the key block, and
the call returns by its status (after a failed challenge computation the store
is untouched and the call returns `OTP_RC_SERVICE_ERR`); after a reset the
store is the one `otp_reset_failcount` left and the call returns by its
status. -/
theorem C9_resync_argument_decides (env : Env σ) (username : CStr)
    (challenge passcode : Option CStr) (resync : Int) (opt : otp_option_t)
    (cmpfunc : Option (Nat → CStr → Int)) (data : Nat) (s : σ)
    (ui : otp_user_info_t) (co : cardops_t σ)
    (hu : (otp_pw_valid_pre env username challenge passcode resync opt cmpfunc data s).user =
      some (ui, co)) :
    ((otp_pw_valid env username challenge passcode resync opt cmpfunc data s).rc = .OTP_RC_OK →
      (challenge_offsets (otp_pw_valid_pre env username challenge passcode resync opt cmpfunc
          data s).trace = [] →
        ((∃ ch, commit_calls
            (otp_pw_valid_pre env username challenge passcode resync opt cmpfunc data s)
            (otp_pw_valid env username challenge passcode resync opt cmpfunc data s) =
            [.challenge 1 0, .set_sync_data ch ui.keyblock]) ↔ resync ≠ 0) ∧
        (resync = 0 →
          commit_calls (otp_pw_valid_pre env username challenge passcode resync opt cmpfunc
              data s)
            (otp_pw_valid env username challenge passcode resync opt cmpfunc data s) =
            [.reset_failcount])) ∧
      (challenge_offsets (otp_pw_valid_pre env username challenge passcode resync opt cmpfunc
          data s).trace ≠ [] →
        ∃ ch, commit_calls
          (otp_pw_valid_pre env username challenge passcode resync opt cmpfunc data s)
          (otp_pw_valid env username challenge passcode resync opt cmpfunc data s) =
          [.challenge 1 0, .set_sync_data ch ui.keyblock])) ∧
    (accepted_async (otp_pw_valid_pre env username challenge passcode resync opt cmpfunc data s) →
      (resync ≠ 0 →
        commit_calls (otp_pw_valid_pre env username challenge passcode resync opt cmpfunc data s)
          (otp_pw_valid env username challenge passcode resync opt cmpfunc data s) =
          resync_calls opt s ui co) ∧
      (resync = 0 →
        commit_calls (otp_pw_valid_pre env username challenge passcode resync opt cmpfunc data s)
          (otp_pw_valid env username challenge passcode resync opt cmpfunc data s) =
          [.reset_failcount])) ∧
    (accepted_sync (otp_pw_valid_pre env username challenge passcode resync opt cmpfunc data s) →
      commit_calls (otp_pw_valid_pre env username challenge passcode resync opt cmpfunc data s)
        (otp_pw_valid env username challenge passcode resync opt cmpfunc data s) =
        resync_calls opt s ui co) ∧
    (accepted_async (otp_pw_valid_pre env username challenge passcode resync opt cmpfunc data s) →
      (resync ≠ 0 →
        (match co.challenge s opt.syncdir ui 1 0 with
          | none =>
            (otp_pw_valid env username challenge passcode resync opt cmpfunc data s).rc =
              .OTP_RC_SERVICE_ERR ∧
            (otp_pw_valid env username challenge passcode resync opt cmpfunc data s).store = s
          | some ch =>
            (otp_pw_valid env username challenge passcode resync opt cmpfunc data s).rc =
              (if (env.otp_set_sync_data s opt.syncdir username ch ui.keyblock).1 = 0 then
                .OTP_RC_OK else .OTP_RC_SERVICE_ERR) ∧
            (otp_pw_valid env username challenge passcode resync opt cmpfunc data s).store =
              (env.otp_set_sync_data s opt.syncdir username ch ui.keyblock).2)) ∧
      (resync = 0 →
        ((otp_pw_valid env username challenge passcode resync opt cmpfunc data s).rc =
            (if (env.otp_reset_failcount s opt.syncdir username).1 = 0 then .OTP_RC_OK
              else .OTP_RC_SERVICE_ERR) ∧
          (otp_pw_valid env username challenge passcode resync opt cmpfunc data s).store =
            (env.otp_reset_failcount s opt.syncdir username).2))) ∧
    (accepted_sync (otp_pw_valid_pre env username challenge passcode resync opt cmpfunc data s) →
      (match co.challenge s opt.syncdir ui 1 0 with
        | none =>
          (otp_pw_valid env username challenge passcode resync opt cmpfunc data s).rc =
            .OTP_RC_SERVICE_ERR ∧
          (otp_pw_valid env username challenge passcode resync opt cmpfunc data s).store = s
        | some ch =>
          (otp_pw_valid env username challenge passcode resync opt cmpfunc data s).rc =
            (if (env.otp_set_sync_data s opt.syncdir username ch ui.keyblock).1 = 0 then
              .OTP_RC_OK else .OTP_RC_SERVICE_ERR) ∧
          (otp_pw_valid env username challenge passcode resync opt cmpfunc data s).store =
            (env.otp_set_sync_data s opt.syncdir username ch ui.keyblock).2)) ∧
    ((otp_pw_valid env username challenge passcode resync opt cmpfunc data s).rc = .OTP_RC_OK →
      (challenge_offsets (otp_pw_valid_pre env username challenge passcode resync opt cmpfunc
          data s).trace = [] → resync = 0 →
        (env.otp_reset_failcount s opt.syncdir username).1 = 0 ∧
        (otp_pw_valid env username challenge passcode resync opt cmpfunc data s).store =
          (env.otp_reset_failcount s opt.syncdir username).2) ∧
      (challenge_offsets (otp_pw_valid_pre env username challenge passcode resync opt cmpfunc
          data s).trace ≠ [] ∨ resync ≠ 0 →
        ∃ ch, co.challenge s opt.syncdir ui 1 0 = some ch ∧
          (env.otp_set_sync_data s opt.syncdir username ch ui.keyblock).1 = 0 ∧
          (otp_pw_valid env username challenge passcode resync opt cmpfunc data s).store =
            (env.otp_set_sync_data s opt.syncdir username ch ui.keyblock).2)) := by
  have hresync : ∀ r a, r ≠ 0 →
      (otp_pw_valid_pre env username challenge passcode resync opt cmpfunc data s).jump =
        .auth_done .OTP_RC_OK r a →
      commit_calls (otp_pw_valid_pre env username challenge passcode resync opt cmpfunc data s)
        (otp_pw_valid env username challenge passcode resync opt cmpfunc data s) =
        resync_calls opt s ui co := by
    intro r a hr hj
    have h := otp_pw_valid_resync env username challenge passcode resync opt cmpfunc data s
      ui co r a hr hj hu
    unfold resync_calls
    cases hc : co.challenge s opt.syncdir ui 1 0 with
    | none => rw [hc] at h; exact h.2.2.2
    | some ch => rw [hc] at h; exact h.2.2.2
  have hreset : ∀ a,
      (otp_pw_valid_pre env username challenge passcode resync opt cmpfunc data s).jump =
        .auth_done .OTP_RC_OK 0 a →
      commit_calls (otp_pw_valid_pre env username challenge passcode resync opt cmpfunc data s)
        (otp_pw_valid env username challenge passcode resync opt cmpfunc data s) =
        [.reset_failcount] := fun a hj =>
    (otp_pw_valid_reset env username challenge passcode resync opt cmpfunc data s ui co a
      hj hu).2.2.2
  have hfull : ∀ r a, r ≠ 0 →
      (otp_pw_valid_pre env username challenge passcode resync opt cmpfunc data s).jump =
        .auth_done .OTP_RC_OK r a →
      (otp_pw_valid env username challenge passcode resync opt cmpfunc data s).rc = .OTP_RC_OK →
      ∃ ch, commit_calls
        (otp_pw_valid_pre env username challenge passcode resync opt cmpfunc data s)
        (otp_pw_valid env username challenge passcode resync opt cmpfunc data s) =
        [.challenge 1 0, .set_sync_data ch ui.keyblock] := by
    intro r a hr hj hok
    have h := otp_pw_valid_resync env username challenge passcode resync opt cmpfunc data s
      ui co r a hr hj hu
    cases hc : co.challenge s opt.syncdir ui 1 0 with
    | none =>
      rw [hc] at h
      rw [h.1] at hok
      cases hok
    | some ch =>
      rw [hc] at h
      exact ⟨ch, h.2.2.2⟩
  have heff : ∀ r a, r ≠ 0 →
      (otp_pw_valid_pre env username challenge passcode resync opt cmpfunc data s).jump =
        .auth_done .OTP_RC_OK r a →
      (match co.challenge s opt.syncdir ui 1 0 with
        | none =>
          (otp_pw_valid env username challenge passcode resync opt cmpfunc data s).rc =
            .OTP_RC_SERVICE_ERR ∧
          (otp_pw_valid env username challenge passcode resync opt cmpfunc data s).store = s
        | some ch =>
          (otp_pw_valid env username challenge passcode resync opt cmpfunc data s).rc =
            (if (env.otp_set_sync_data s opt.syncdir username ch ui.keyblock).1 = 0 then
              .OTP_RC_OK else .OTP_RC_SERVICE_ERR) ∧
          (otp_pw_valid env username challenge passcode resync opt cmpfunc data s).store =
            (env.otp_set_sync_data s opt.syncdir username ch ui.keyblock).2) := by
    intro r a hr hj
    have h := otp_pw_valid_resync env username challenge passcode resync opt cmpfunc data s
      ui co r a hr hj hu
    cases hc : co.challenge s opt.syncdir ui 1 0 with
    | none => rw [hc] at h; exact ⟨h.1, h.2.1⟩
    | some ch => rw [hc] at h; exact ⟨h.1, h.2.1⟩
  have hokset : ∀ r a, r ≠ 0 →
      (otp_pw_valid_pre env username challenge passcode resync opt cmpfunc data s).jump =
        .auth_done .OTP_RC_OK r a →
      (otp_pw_valid env username challenge passcode resync opt cmpfunc data s).rc = .OTP_RC_OK →
      ∃ ch, co.challenge s opt.syncdir ui 1 0 = some ch ∧
        (env.otp_set_sync_data s opt.syncdir username ch ui.keyblock).1 = 0 ∧
        (otp_pw_valid env username challenge passcode resync opt cmpfunc data s).store =
          (env.otp_set_sync_data s opt.syncdir username ch ui.keyblock).2 := by
    intro r a hr hj hok
    have h := otp_pw_valid_resync env username challenge passcode resync opt cmpfunc data s
      ui co r a hr hj hu
    cases hc : co.challenge s opt.syncdir ui 1 0 with
    | none =>
      rw [hc] at h
      rw [h.1] at hok
      cases hok
    | some ch =>
      rw [hc] at h
      refine ⟨ch, rfl, ?_, h.2.1⟩
      rw [h.1] at hok
      by_contra hne
      rw [if_neg hne] at hok
      cases hok
  refine ⟨fun hok => ?_, ?_, ?_, ?_, ?_, fun hok => ?_⟩
  · obtain ⟨r, a, hj⟩ := ok_inv env username challenge passcode resync opt cmpfunc data s hok
    obtain ⟨_, hr0, hr1⟩ := pre_ok env username challenge passcode resync opt cmpfunc data s r a
      hj
    refine ⟨fun hoff => ?_, fun hoff => hfull r a (by rw [hr1 hoff]; exact one_ne_zero) hj hok⟩
    have hrr : r = resync := hr0 hoff
    subst hrr
    refine ⟨⟨fun ⟨ch, hch⟩ h0 => ?_, fun hne => hfull r a hne hj hok⟩, fun h0 => ?_⟩
    · subst h0
      rw [hreset a hj] at hch
      cases hch
    · subst h0
      exact hreset a hj
  · rintro ⟨⟨r, a, hj⟩, hoff⟩
    obtain ⟨_, hr0, _⟩ := pre_ok env username challenge passcode resync opt cmpfunc data s r a hj
    have hrr : r = resync := hr0 hoff
    subst hrr
    exact ⟨fun hr => hresync r a hr hj, fun h0 => by subst h0; exact hreset a hj⟩
  · rintro ⟨⟨r, a, hj⟩, hoff⟩
    obtain ⟨_, _, hr1⟩ := pre_ok env username challenge passcode resync opt cmpfunc data s r a hj
    exact hresync r a (by rw [hr1 hoff]; exact one_ne_zero) hj
  · rintro ⟨⟨r, a, hj⟩, hoff⟩
    obtain ⟨_, hr0, _⟩ := pre_ok env username challenge passcode resync opt cmpfunc data s r a hj
    have hrr : r = resync := hr0 hoff
    subst hrr
    refine ⟨fun hr => heff r a hr hj, fun h0 => ?_⟩
    subst h0
    have h := otp_pw_valid_reset env username challenge passcode 0 opt cmpfunc data s ui co a
      hj hu
    exact ⟨h.1, h.2.1⟩
  · rintro ⟨⟨r, a, hj⟩, hoff⟩
    obtain ⟨_, _, hr1⟩ := pre_ok env username challenge passcode resync opt cmpfunc data s r a hj
    exact heff r a (by rw [hr1 hoff]; exact one_ne_zero) hj
  · obtain ⟨r, a, hj⟩ := ok_inv env username challenge passcode resync opt cmpfunc data s hok
    obtain ⟨_, hr0, hr1⟩ := pre_ok env username challenge passcode resync opt cmpfunc data s r a
      hj
    refine ⟨fun hoff h0 => ?_, fun hor => ?_⟩
    · have hrr : r = resync := hr0 hoff
      subst hrr
      subst h0
      have h := otp_pw_valid_reset env username challenge passcode 0 opt cmpfunc data s ui co a
        hj hu
      refine ⟨?_, h.2.1⟩
      rw [h.1] at hok
      by_contra hne
      rw [if_neg hne] at hok
      cases hok
    · have hr : r ≠ 0 := by
        by_cases hoff : challenge_offsets (otp_pw_valid_pre env username challenge passcode
            resync opt cmpfunc data s).trace = []
        · rw [hr0 hoff]
          rcases hor with hor | hor
          · exact absurd hoff hor
          · exact hor
        · rw [hr1 hoff]
          exact one_ne_zero
      exact hokset r a hr hj hok

/-- Witness of C9: a call accepted in async mode with `resync = 1` resyncs the
card: the challenge at offset 1 is computed and stored, and the store left has
the counter set from it. -/
theorem C9_resync_argument_decides_witness :
    (∃ ch, commit_calls
      (otp_pw_valid_pre (env0 {}) bob (some ['x']) (some ['r', 'x', '9']) 1 opt0 none 0
        (store0 0 0))
      (otp_pw_valid (env0 {}) bob (some ['x']) (some ['r', 'x', '9']) 1 opt0 none 0
        (store0 0 0)) = [.challenge 1 0, .set_sync_data ch (bob_info {}).keyblock]) ∧
    (otp_pw_valid (env0 {}) bob (some ['x']) (some ['r', 'x', '9']) 1 opt0 none 0
      (store0 0 0)).store = { last_auth := 1000, last_auth_pos := 0, failcount := 0, sync := 5 } :=
  have h := C9_resync_argument_decides (env0 {}) bob (some ['x']) (some ['r', 'x', '9']) 1 opt0
    none 0 (store0 0 0) (bob_info {}) (card0 {})
    (pre_user_of_resolved (env0 {}) bob ['x'] (some ['r', 'x', '9']) 1 opt0 none 0 (store0 0 0)
      (bob_info {}) (card0 {}) 0 _ (resolved0 {} (store0 0 0) ['r', 'x', '9']))
  ⟨((h.1 (by decide)).1 (by decide)).1.mpr (by decide),
    let ⟨_, hch, _, hst⟩ := (h.2.2.2.2.2 (by decide)).2 (Or.inr (by decide))
    hst.trans (by
      simp only [card0, env0, write0, store0, opt0, bob_info] at hch ⊢
      cases hch
      decide)⟩

/-- C10: for every call accepted through the sync path, the success commit
computes the provider's sync challenge at window offset 1, token offset 0, and
passes that challenge with the user's key block (the one decoded from the
user's key string) to `otp_set_sync_data`; the call returns `OTP_RC_OK` if both
steps succeed and `OTP_RC_SERVICE_ERR` if either fails, and after a failed
challenge computation `otp_set_sync_data` is not called at all;
`otp_reset_failcount`, `otp_incr_failcount` and `otp_set_last_auth_pos` are not
called. -/
theorem C10_sync_accept_resyncs (env : Env σ) (username : CStr)
    (challenge passcode : Option CStr) (resync : Int) (opt : otp_option_t)
    (cmpfunc : Option (Nat → CStr → Int)) (data : Nat) (s : σ)
    (ui : otp_user_info_t) (co : cardops_t σ)
    (hacc : accepted_sync
      (otp_pw_valid_pre env username challenge passcode resync opt cmpfunc data s))
    (hu : (otp_pw_valid_pre env username challenge passcode resync opt cmpfunc data s).user =
      some (ui, co)) :
    co.keystring2keyblock (env.otp_get_user_info opt.pwdfile username).2.keystring =
      some ui.keyblock ∧
    (match co.challenge s opt.syncdir ui 1 0 with
      | none =>
        commit_calls (otp_pw_valid_pre env username challenge passcode resync opt cmpfunc data s)
          (otp_pw_valid env username challenge passcode resync opt cmpfunc data s) =
          [.challenge 1 0] ∧
        writes (otp_pw_valid env username challenge passcode resync opt cmpfunc data s).trace
          = [] ∧
        (otp_pw_valid env username challenge passcode resync opt cmpfunc data s).rc =
          .OTP_RC_SERVICE_ERR
      | some ch =>
        commit_calls (otp_pw_valid_pre env username challenge passcode resync opt cmpfunc data s)
          (otp_pw_valid env username challenge passcode resync opt cmpfunc data s) =
          [.challenge 1 0, .set_sync_data ch ui.keyblock] ∧
        writes (otp_pw_valid env username challenge passcode resync opt cmpfunc data s).trace =
          [.set_sync_data ch ui.keyblock] ∧
        (otp_pw_valid env username challenge passcode resync opt cmpfunc data s).rc =
          (if (env.otp_set_sync_data s opt.syncdir username ch ui.keyblock).1 = 0 then
            .OTP_RC_OK else .OTP_RC_SERVICE_ERR)) ∧
    Call.reset_failcount ∉
      (otp_pw_valid env username challenge passcode resync opt cmpfunc data s).trace ∧
    Call.incr_failcount ∉
      (otp_pw_valid env username challenge passcode resync opt cmpfunc data s).trace ∧
    ∀ a, Call.set_last_auth_pos a ∉
      (otp_pw_valid env username challenge passcode resync opt cmpfunc data s).trace := by
  obtain ⟨⟨r, a, hj⟩, hoff⟩ := hacc
  obtain ⟨_, _, hr1⟩ := pre_ok env username challenge passcode resync opt cmpfunc data s r a hj
  have hr : r ≠ 0 := by rw [hr1 hoff]; exact one_ne_zero
  have h := otp_pw_valid_resync env username challenge passcode resync opt cmpfunc data s
    ui co r a hr hj hu
  refine ⟨(pre_user_key env username challenge passcode resync opt cmpfunc data s ui co hu).2,
    ?_, ?_⟩
  · cases hc : co.challenge s opt.syncdir ui 1 0 with
    | none => rw [hc] at h; exact ⟨h.2.2.2, h.2.2.1, h.1⟩
    | some ch => rw [hc] at h; exact ⟨h.2.2.2, h.2.2.1, h.1⟩
  · have hw : ∀ c : Call, c.isWrite = true → (∀ ch kb, c ≠ .set_sync_data ch kb) →
        c ∉ (otp_pw_valid env username challenge passcode resync opt cmpfunc data s).trace := by
      intro c hcw hne hmem
      have hm := mem_writes c _ hcw hmem
      cases hc : co.challenge s opt.syncdir ui 1 0 with
      | none => rw [hc] at h; rw [h.2.2.1] at hm; cases hm
      | some ch =>
        rw [hc] at h
        rw [h.2.2.1] at hm
        simp only [List.mem_singleton] at hm
        exact hne _ _ hm
    exact ⟨hw _ rfl (fun _ _ h => by cases h), hw _ rfl (fun _ _ h => by cases h),
      fun a => hw _ rfl (fun _ _ h => by cases h)⟩

/-- Witness of C10: candidate correct at offset 1 with policy ok: the commit
computes the challenge at offset 1 (the counter 5 in unary) and stores it with
the key block `[7]`; the call returns `OTP_RC_OK`. -/
theorem C10_sync_accept_resyncs_witness :
    commit_calls
      (otp_pw_valid_pre (env0 {}) bob (some []) (some (code0 4 1)) 0 opt0 none 0 (store0 0 0))
      (otp_pw_valid (env0 {}) bob (some []) (some (code0 4 1)) 0 opt0 none 0 (store0 0 0)) =
      [.challenge 1 0, .set_sync_data (List.replicate 5 'c') [7]] ∧
    (otp_pw_valid (env0 {}) bob (some []) (some (code0 4 1)) 0 opt0 none 0 (store0 0 0)).rc =
      .OTP_RC_OK :=
  have h := (C10_sync_accept_resyncs (env0 {}) bob (some []) (some (code0 4 1)) 0 opt0 none 0
    (store0 0 0) (bob_info {}) (card0 {}) ⟨⟨1, 0, by decide⟩, by decide⟩
    (pre_user_of_resolved (env0 {}) bob [] (some (code0 4 1)) 0 opt0 none 0 (store0 0 0)
      (bob_info {}) (card0 {}) 0 _ (resolved0 {} (store0 0 0) (code0 4 1)))).2.1
  ⟨h.1, h.2.2⟩

/-- C11: for every call whose pre-commit result is `OTP_RC_AUTH_ERR` or
`OTP_RC_MAXTRIES`, the failure commit invokes `otp_incr_failcount` once and then
`otp_set_last_auth_pos` once, on the store the first write left, whether or not
the first write succeeded; the call returns the pre-commit result if both
writes succeed and `OTP_RC_SERVICE_ERR` if either fails.  The position written
is the window position of the decision: it is 0 with `OTP_RC_MAXTRIES`; it is
nonzero only when the scan stopped at that offset in soft-fail with an extended
window; and when the call ends on an override candidate at offset `i`, it is
`i`. -/
theorem C11_failure_commit (env : Env σ) (username : CStr)
    (challenge passcode : Option CStr) (resync : Int) (opt : otp_option_t)
    (cmpfunc : Option (Nat → CStr → Int)) (data : Nat) (s : σ) (rc : RC) (r : Int) (a : Nat)
    (hj : (otp_pw_valid_pre env username challenge passcode resync opt cmpfunc data s).jump =
      .auth_done rc r a)
    (hrc : rc = .OTP_RC_AUTH_ERR ∨ rc = .OTP_RC_MAXTRIES) :
    commit_calls (otp_pw_valid_pre env username challenge passcode resync opt cmpfunc data s)
      (otp_pw_valid env username challenge passcode resync opt cmpfunc data s) =
      [.incr_failcount, .set_last_auth_pos a] ∧
    writes (otp_pw_valid env username challenge passcode resync opt cmpfunc data s).trace =
      [.incr_failcount, .set_last_auth_pos a] ∧
    (otp_pw_valid env username challenge passcode resync opt cmpfunc data s).rc =
      (if (env.otp_incr_failcount s opt.syncdir username).1 = 0 ∧
          (env.otp_set_last_auth_pos (env.otp_incr_failcount s opt.syncdir username).2
            opt.syncdir username a).1 = 0 then rc else .OTP_RC_SERVICE_ERR) ∧
    (otp_pw_valid env username challenge passcode resync opt cmpfunc data s).store =
      (env.otp_set_last_auth_pos (env.otp_incr_failcount s opt.syncdir username).2
        opt.syncdir username a).2 ∧
    (rc = .OTP_RC_MAXTRIES → a = 0) ∧
    (a ≠ 0 →
      env.otp_check_failcount s username opt = .OTP_FC_FAIL_SOFT ∧ opt.ewindow2_size ≠ 0 ∧
      challenge_offsets (otp_pw_valid_pre env username challenge passcode resync opt cmpfunc
        data s).trace = List.range (a + 1)) ∧
    (∀ (chal : CStr) (ui : otp_user_info_t) (co : cardops_t σ) (t : Int) (i : Nat),
      challenge = some chal →
      Resolved env username passcode opt cmpfunc s ui co t .OTP_FC_FAIL_SOFT →
      opt.ewindow2_size ≠ 0 →
      no_async_match env username chal passcode opt cmpfunc data ui co →
      sync_entered env opt ui →
      0 ≤ env.otp_get_last_auth_pos s opt.syncdir username →
      (i : Int) ≤ opt.ewindow2_size →
      first_sync_match passcode opt cmpfunc data s ui co i →
      ¬ override_ok env opt t (env.otp_get_last_auth_pos s opt.syncdir username) i →
      a = i) := by
  have hne : rc ≠ .OTP_RC_OK := by rcases hrc with h | h <;> rw [h] <;> decide
  obtain ⟨ui, co, hu⟩ := pre_user_of_auth_done env username challenge passcode resync opt
    cmpfunc data s rc r a hj
  obtain ⟨h1, h2, h3, h4⟩ := otp_pw_valid_failure env username challenge passcode resync opt
    cmpfunc data s ui co rc r a hne hj hu
  obtain ⟨_, hpos⟩ := pre_auth_done_inv env username challenge passcode resync opt cmpfunc data
    s rc r a hj
  refine ⟨h4, h3, h1, h2, ?_, ?_, ?_⟩
  · intro hm
    by_contra ha
    rw [(hpos ha).1] at hm
    cases hm
  · intro ha
    exact (hpos ha).2
  · intro chal ui1 co1 t i hch hres hw2 hno hs hlap hi hm hov
    subst hch
    have hend : window_end opt .OTP_FC_FAIL_SOFT = opt.ewindow2_size := by
      simp [window_end, hw2]
    have hlp : last_pos env username opt s .OTP_FC_FAIL_SOFT =
        env.otp_get_last_auth_pos s opt.syncdir username := by simp [last_pos, hw2]
    have hj1 := (pre_sync_first_match env username chal passcode resync opt cmpfunc data s ui1
      co1 t .OTP_FC_FAIL_SOFT hres hno hs (by rw [hlp]; exact hlap) i (by rw [hend]; exact hi)
      hm).1
    rw [hj, hlp] at hj1
    unfold override_ok at hov
    simp only [sync_matched, hw2, if_neg hov] at hj1
    simp at hj1
    exact hj1.2.2

/-- Witness of C11: soft-fail, extended window, no position recorded, candidate
correct first at offset 1: the call ends on an override candidate and the
failure commit writes position 1. -/
theorem C11_failure_commit_witness :
    commit_calls
      (otp_pw_valid_pre (env0 {}) bob (some []) (some (code0 4 1)) 0 opt0 none 0 (store0 3 0))
      (otp_pw_valid (env0 {}) bob (some []) (some (code0 4 1)) 0 opt0 none 0 (store0 3 0)) =
      [.incr_failcount, .set_last_auth_pos 1] ∧
    (otp_pw_valid (env0 {}) bob (some []) (some (code0 4 1)) 0 opt0 none 0 (store0 3 0)).rc =
      .OTP_RC_AUTH_ERR :=
  have h := C11_failure_commit (env0 {}) bob (some []) (some (code0 4 1)) 0 opt0 none 0
    (store0 3 0) .OTP_RC_AUTH_ERR 0 1 (by decide) (Or.inl rfl)
  ⟨h.1, h.2.2.1⟩

/-- C12: every call performs at most one group of writes and never mixes groups:
a call that leaves through the service-error exit writes nothing; a call that
reaches the commit with `OTP_RC_OK` writes nothing but `otp_set_sync_data` (at
most once), or nothing but `otp_reset_failcount`; a call that reaches the commit
with another result writes the failure pair, `otp_incr_failcount` and then
`otp_set_last_auth_pos`, and nothing else.  So a success-group write occurs only
when the pre-commit result is `OTP_RC_OK`, and a write of the failure pair only
when it is not. -/
theorem C12_one_group_of_writes (env : Env σ) (username : CStr)
    (challenge passcode : Option CStr) (resync : Int) (opt : otp_option_t)
    (cmpfunc : Option (Nat → CStr → Int)) (data : Nat) (s : σ) :
    ((∃ rc, (otp_pw_valid_pre env username challenge passcode resync opt cmpfunc data s).jump =
        .auth_done_service_err rc ∧
        writes (otp_pw_valid env username challenge passcode resync opt cmpfunc data s).trace
          = []) ∨
      (∃ r a, (otp_pw_valid_pre env username challenge passcode resync opt cmpfunc data s).jump =
        .auth_done .OTP_RC_OK r a ∧
        (writes (otp_pw_valid env username challenge passcode resync opt cmpfunc data s).trace
            = [] ∨
          (∃ ch kb,
            writes (otp_pw_valid env username challenge passcode resync opt cmpfunc data
              s).trace = [.set_sync_data ch kb]) ∨
          writes (otp_pw_valid env username challenge passcode resync opt cmpfunc data s).trace
            = [.reset_failcount])) ∨
      (∃ rc r a, (otp_pw_valid_pre env username challenge passcode resync opt cmpfunc data
          s).jump = .auth_done rc r a ∧ rc ≠ .OTP_RC_OK ∧
        writes (otp_pw_valid env username challenge passcode resync opt cmpfunc data s).trace =
          [.incr_failcount, .set_last_auth_pos a])) ∧
    (∀ c ∈ (otp_pw_valid env username challenge passcode resync opt cmpfunc data s).trace,
      (c = .reset_failcount ∨ ∃ ch kb, c = .set_sync_data ch kb) →
      ∃ r a, (otp_pw_valid_pre env username challenge passcode resync opt cmpfunc data s).jump =
        .auth_done .OTP_RC_OK r a) ∧
    (∀ c ∈ (otp_pw_valid env username challenge passcode resync opt cmpfunc data s).trace,
      (c = .incr_failcount ∨ ∃ a, c = .set_last_auth_pos a) →
      ∃ rc r a, (otp_pw_valid_pre env username challenge passcode resync opt cmpfunc data
        s).jump = .auth_done rc r a ∧ rc ≠ .OTP_RC_OK) := by
  have hcases :
      (∃ rc, (otp_pw_valid_pre env username challenge passcode resync opt cmpfunc data s).jump =
        .auth_done_service_err rc ∧
        writes (otp_pw_valid env username challenge passcode resync opt cmpfunc data s).trace
          = []) ∨
      (∃ r a, (otp_pw_valid_pre env username challenge passcode resync opt cmpfunc data s).jump =
        .auth_done .OTP_RC_OK r a ∧
        (writes (otp_pw_valid env username challenge passcode resync opt cmpfunc data s).trace
            = [] ∨
          (∃ ch kb,
            writes (otp_pw_valid env username challenge passcode resync opt cmpfunc data
              s).trace = [.set_sync_data ch kb]) ∨
          writes (otp_pw_valid env username challenge passcode resync opt cmpfunc data s).trace
            = [.reset_failcount])) ∨
      (∃ rc r a, (otp_pw_valid_pre env username challenge passcode resync opt cmpfunc data
          s).jump = .auth_done rc r a ∧ rc ≠ .OTP_RC_OK ∧
        writes (otp_pw_valid env username challenge passcode resync opt cmpfunc data s).trace =
          [.incr_failcount, .set_last_auth_pos a]) := by
    cases hj : (otp_pw_valid_pre env username challenge passcode resync opt cmpfunc data
        s).jump with
    | auth_done_service_err rc =>
      refine Or.inl ⟨rc, rfl, ?_⟩
      rw [otp_pw_valid_exit env username challenge passcode resync opt cmpfunc data s rc hj]
      exact pre_writes env username challenge passcode resync opt cmpfunc data s
    | auth_done rc r a =>
      obtain ⟨ui, co, hu⟩ := pre_user_of_auth_done env username challenge passcode resync opt
        cmpfunc data s rc r a hj
      by_cases hrc : rc = .OTP_RC_OK
      · subst hrc
        refine Or.inr (Or.inl ⟨r, a, rfl, ?_⟩)
        by_cases hr : r = 0
        · subst hr
          exact Or.inr (Or.inr (otp_pw_valid_reset env username challenge passcode resync opt
            cmpfunc data s ui co a hj hu).2.2.1)
        · have h := otp_pw_valid_resync env username challenge passcode resync opt cmpfunc data
            s ui co r a hr hj hu
          cases hc : co.challenge s opt.syncdir ui 1 0 with
          | none => rw [hc] at h; exact Or.inl h.2.2.1
          | some ch => rw [hc] at h; exact Or.inr (Or.inl ⟨ch, ui.keyblock, h.2.2.1⟩)
      · exact Or.inr (Or.inr ⟨rc, r, a, rfl, hrc,
          (otp_pw_valid_failure env username challenge passcode resync opt cmpfunc data s ui co
            rc r a hrc hj hu).2.2.1⟩)
  refine ⟨hcases, ?_, ?_⟩
  · intro c hc hkind
    have hw : c.isWrite = true := by
      rcases hkind with rfl | ⟨ch, kb, rfl⟩ <;> rfl
    have hm := mem_writes c _ hw hc
    rcases hcases with ⟨rc, _, h0⟩ | ⟨r, a, hj, _⟩ | ⟨rc, r, a, _, _, h0⟩
    · rw [h0] at hm; cases hm
    · exact ⟨r, a, hj⟩
    · rw [h0] at hm
      rcases hkind with rfl | ⟨ch, kb, rfl⟩ <;> simp at hm
  · intro c hc hkind
    have hw : c.isWrite = true := by
      rcases hkind with rfl | ⟨a, rfl⟩ <;> rfl
    have hm := mem_writes c _ hw hc
    rcases hcases with ⟨rc, _, h0⟩ | ⟨r, a, _, h0 | ⟨ch, kb, h0⟩ | h0⟩ | ⟨rc, r, a, hj, hrc, _⟩
    · rw [h0] at hm; cases hm
    · rw [h0] at hm; cases hm
    · rw [h0] at hm
      rcases hkind with rfl | ⟨a, rfl⟩ <;> simp at hm
    · rw [h0] at hm
      rcases hkind with rfl | ⟨a, rfl⟩ <;> simp at hm
    · exact ⟨rc, r, a, hj, hrc⟩

/-- Witness of C12: in a call that resets the failure count the commit was
reached with `OTP_RC_OK`. -/
theorem C12_one_group_of_writes_witness :
    ∃ r a, (otp_pw_valid_pre (env0 {}) bob (some ['x']) (some ['r', 'x', '9']) 0 opt0 none 0
      (store0 0 0)).jump = .auth_done .OTP_RC_OK r a :=
  (C12_one_group_of_writes (env0 {}) bob (some ['x']) (some ['r', 'x', '9']) 0 opt0 none 0
    (store0 0 0)).2.1 .reset_failcount (by decide) (Or.inl rfl)

/-- C13, as the code has it: every call in which the challenge is absent (NULL) is
rejected with `OTP_RC_SERVICE_ERR`; no collaborator is called and no durable
state is written.  An empty challenge string is not rejected for being empty:
it keeps the async attempt from being entered (`otp_challenge_transform` is not
called), and a resolved call is decided by the sync attempt. -/
theorem C13_null_challenge_rejected (env : Env σ) (username : CStr)
    (passcode : Option CStr) (resync : Int) (opt : otp_option_t)
    (cmpfunc : Option (Nat → CStr → Int)) (data : Nat) (s : σ) :
    ((otp_pw_valid env username none passcode resync opt cmpfunc data s).rc =
        .OTP_RC_SERVICE_ERR ∧
      (otp_pw_valid env username none passcode resync opt cmpfunc data s).store = s ∧
      (otp_pw_valid env username none passcode resync opt cmpfunc data s).trace = []) ∧
    (∀ c ∈ (otp_pw_valid_pre env username (some []) passcode resync opt cmpfunc data s).trace,
      c.isTransform = false) ∧
    (∀ (ui : otp_user_info_t) (co : cardops_t σ) (t : Int) (fc : FC),
      Resolved env username passcode opt cmpfunc s ui co t fc →
      otp_pw_valid_pre env username (some []) passcode resync opt cmpfunc data s =
        (sync_response env username passcode resync opt cmpfunc data s ui co
          (pin_adjust_init opt ui.pin) t fc (e_response_init opt ui.pin)).after lookup_calls) := by
  have hskip : ∀ (ui : otp_user_info_t) (co : cardops_t σ) (t : Int) (fc : FC),
      Resolved env username passcode opt cmpfunc s ui co t fc →
      otp_pw_valid_pre env username (some []) passcode resync opt cmpfunc data s =
        (sync_response env username passcode resync opt cmpfunc data s ui co
          (pin_adjust_init opt ui.pin) t fc (e_response_init opt ui.pin)).after lookup_calls := by
    intro ui co t fc hres
    rw [pre_of_resolved env username passcode resync opt cmpfunc data s [] ui co t fc hres,
      async_response_skipped env username passcode resync opt cmpfunc data s ui co t fc [] _ _
        (fun h => h.1 rfl)]
  refine ⟨⟨rfl, rfl, rfl⟩, ?_, hskip⟩
  intro c hc
  rcases pre_shape env username (some []) passcode resync opt cmpfunc data s with
    ⟨rc, tr, u, heq, htr, _⟩ | ⟨chal, ui, co, t, fc, hch, hres⟩
  · rw [heq] at hc
    have := htr c hc
    simp only [lookup_calls, List.mem_cons, List.mem_singleton, List.not_mem_nil,
      or_false] at this
    rcases this with rfl | rfl | rfl | rfl | rfl <;> rfl
  · rw [hskip ui co t fc hres] at hc
    simp only [Pre.after_trace, List.mem_append] at hc
    rcases hc with hc | hc
    · simp only [lookup_calls, List.mem_cons, List.mem_singleton, List.not_mem_nil,
        or_false] at hc
      rcases hc with rfl | rfl | rfl | rfl | rfl <;> rfl
    · have := sync_response_inSync env username passcode resync opt cmpfunc data s ui co t fc
        _ _ c hc
      cases c <;> simp_all [Call.inSync, Call.isTransform]

/-- Counterexample to C13 as stated: a call with the empty string as challenge
and the passcode correct at offset 1 is not rejected: it returns `OTP_RC_OK`
and writes the new sync data. -/
theorem C13_empty_challenge_counterexample :
    (otp_pw_valid (env0 {}) bob (some []) (some (code0 4 1)) 0 opt0 none 0 (store0 0 0)).rc =
      .OTP_RC_OK ∧
    writes (otp_pw_valid (env0 {}) bob (some []) (some (code0 4 1)) 0 opt0 none 0
      (store0 0 0)).trace = [.set_sync_data (List.replicate 5 'c') [7]] ∧
    (otp_pw_valid (env0 {}) bob (some []) (some (code0 4 1)) 0 opt0 none 0 (store0 0 0)).store ≠
      store0 0 0 := by
  decide

/-- C14: a call with a non-NULL challenge in which neither a literal passcode nor
a comparison function is supplied returns `OTP_RC_SERVICE_ERR` without calling
any collaborator: the user record is not looked up and no durable state is read
or written. -/
theorem C14_nothing_to_test_rejected (env : Env σ) (username chal : CStr) (resync : Int)
    (opt : otp_option_t) (data : Nat) (s : σ) :
    (otp_pw_valid env username (some chal) none resync opt none data s).rc =
      .OTP_RC_SERVICE_ERR ∧
    (otp_pw_valid env username (some chal) none resync opt none data s).trace = [] ∧
    (otp_pw_valid env username (some chal) none resync opt none data s).store = s := by
  have h : otp_pw_valid_pre env username (some chal) none resync opt none data s =
      ⟨.auth_done_service_err .OTP_RC_SERVICE_ERR, [], none⟩ := by
    simp [otp_pw_valid_pre]
  simp [otp_pw_valid, h]

/-- C15: provider resolution binds the first entry of the `otp_cardops` table, in
table order up to the first entry with a null prefix, that passes the test of
line 107, `strncasecmp(prefix, card, prefix_len) == 0`; an entry after the first
one that passes is never chosen.  For an entry whose `prefix_len` is the length
of its prefix (or more) the test says that the prefix equals the first
`prefix_len` characters of the card-type string ignoring letter case.  The
provider a call carries on with is the entry so found, and if no entry is found
the call returns `OTP_RC_SERVICE_ERR` having made only the user lookup, without
writing state. -/
theorem C15_first_matching_provider (env : Env σ) (username chal : CStr)
    (passcode : Option CStr) (resync : Int) (opt : otp_option_t)
    (cmpfunc : Option (Nat → CStr → Int)) (data : Nat) (s : σ) :
    (∀ co : cardops_t σ,
      find_cardops env.otp_cardops (env.otp_get_user_info opt.pwdfile username).2.card =
        some co ↔
      ∃ k : Nat, env.otp_cardops[k]? = some co ∧
        entry_matches co (env.otp_get_user_info opt.pwdfile username).2.card ∧
        ∀ j : Nat, j < k → ∃ cj, env.otp_cardops[j]? = some cj ∧ cj.prefix_str ≠ none ∧
          ¬ entry_matches cj (env.otp_get_user_info opt.pwdfile username).2.card) ∧
    (∀ (co : cardops_t σ) (p : CStr), co.prefix_str = some p → p.length ≤ co.prefix_len →
      (entry_matches co (env.otp_get_user_info opt.pwdfile username).2.card ↔
        prefix_matches co (env.otp_get_user_info opt.pwdfile username).2.card)) ∧
    (∀ (ui : otp_user_info_t) (co : cardops_t σ),
      (otp_pw_valid_pre env username (some chal) passcode resync opt cmpfunc data s).user =
        some (ui, co) →
      find_cardops env.otp_cardops (env.otp_get_user_info opt.pwdfile username).2.card =
        some co) ∧
    (¬ (passcode = none ∧ cmpfunc.isNone) →
      (env.otp_get_user_info opt.pwdfile username).1 ≠ -1 →
      (env.otp_get_user_info opt.pwdfile username).1 ≠ -2 →
      find_cardops env.otp_cardops (env.otp_get_user_info opt.pwdfile username).2.card = none →
      (otp_pw_valid env username (some chal) passcode resync opt cmpfunc data s).rc =
        .OTP_RC_SERVICE_ERR ∧
      (otp_pw_valid env username (some chal) passcode resync opt cmpfunc data s).trace =
        [.get_user_info] ∧
      writes (otp_pw_valid env username (some chal) passcode resync opt cmpfunc data s).trace
        = [] ∧
      (otp_pw_valid env username (some chal) passcode resync opt cmpfunc data s).store = s) := by
  refine ⟨fun co => find_cardops_spec _ co _, fun co p hp hlen => entry_matches_iff co _ p hp hlen,
    fun ui co hu => (pre_user_key env username (some chal) passcode resync opt cmpfunc data s ui
      co hu).1, ?_⟩
  intro ht h1 h2 hnone
  have hp : otp_pw_valid_pre env username (some chal) passcode resync opt cmpfunc data s =
      ⟨.auth_done_service_err .OTP_RC_SERVICE_ERR, [.get_user_info], none⟩ := by
    simp only [otp_pw_valid_pre, if_neg ht, if_neg h1, if_neg h2, hnone]
  simp [otp_pw_valid, hp, writes, Call.isWrite]

/-- Witness of C15: a table with two entries that both match the card name
`CC1`: the first one is bound. -/
theorem C15_first_matching_provider_witness :
    find_cardops [card0 { fm := 1 }, card0 {}] ['C', 'C', '1'] = some (card0 { fm := 1 }) :=
  ((C15_first_matching_provider { env0 {} with otp_cardops := [card0 { fm := 1 }, card0 {}] }
    bob [] (some []) 0 opt0 none 0 (store0 0 0)).1 (card0 { fm := 1 })).mpr
    ⟨0, rfl, ⟨['c', 'c'], rfl, by decide⟩, fun j hj => absurd hj (Nat.not_lt_zero j)⟩

/-- C16: with a non-NULL challenge and a passcode or comparison function
supplied, the call returns `OTP_RC_USER_UNKNOWN` exactly when
`otp_get_user_info` returns -1 and `OTP_RC_AUTHINFO_UNAVAIL` exactly when it
returns -2; in both cases the lookup is the only call made: no provider
operation is invoked and no durable state is written. -/
theorem C16_user_lookup_codes (env : Env σ) (username chal : CStr)
    (passcode : Option CStr) (resync : Int) (opt : otp_option_t)
    (cmpfunc : Option (Nat → CStr → Int)) (data : Nat) (s : σ)
    (ht : ¬ (passcode = none ∧ cmpfunc.isNone)) :
    ((otp_pw_valid env username (some chal) passcode resync opt cmpfunc data s).rc =
        .OTP_RC_USER_UNKNOWN ↔
      (env.otp_get_user_info opt.pwdfile username).1 = -1) ∧
    ((otp_pw_valid env username (some chal) passcode resync opt cmpfunc data s).rc =
        .OTP_RC_AUTHINFO_UNAVAIL ↔
      (env.otp_get_user_info opt.pwdfile username).1 = -2) ∧
    ((env.otp_get_user_info opt.pwdfile username).1 = -1 ∨
        (env.otp_get_user_info opt.pwdfile username).1 = -2 →
      (otp_pw_valid env username (some chal) passcode resync opt cmpfunc data s).trace =
        [.get_user_info] ∧
      (∀ c ∈ (otp_pw_valid env username (some chal) passcode resync opt cmpfunc data s).trace,
        c.isProvider = false) ∧
      writes (otp_pw_valid env username (some chal) passcode resync opt cmpfunc data s).trace
        = [] ∧
      (otp_pw_valid env username (some chal) passcode resync opt cmpfunc data s).store = s) := by
  have hunk : (env.otp_get_user_info opt.pwdfile username).1 = -1 →
      otp_pw_valid env username (some chal) passcode resync opt cmpfunc data s =
        ⟨.OTP_RC_USER_UNKNOWN, s, [.get_user_info]⟩ := by
    intro h1
    have hp : otp_pw_valid_pre env username (some chal) passcode resync opt cmpfunc data s =
        ⟨.auth_done_service_err .OTP_RC_USER_UNKNOWN, [.get_user_info], none⟩ := by
      simp only [otp_pw_valid_pre, if_neg ht, if_pos h1]
    simp [otp_pw_valid, hp]
  have hunav : (env.otp_get_user_info opt.pwdfile username).1 = -2 →
      otp_pw_valid env username (some chal) passcode resync opt cmpfunc data s =
        ⟨.OTP_RC_AUTHINFO_UNAVAIL, s, [.get_user_info]⟩ := by
    intro h2
    have h1 : ¬ (env.otp_get_user_info opt.pwdfile username).1 = -1 := by rw [h2]; decide
    have hp : otp_pw_valid_pre env username (some chal) passcode resync opt cmpfunc data s =
        ⟨.auth_done_service_err .OTP_RC_AUTHINFO_UNAVAIL, [.get_user_info], none⟩ := by
      simp only [otp_pw_valid_pre, if_neg ht, if_neg h1, if_pos h2]
    simp [otp_pw_valid, hp]
  have hinv : ∀ code : RC, code = .OTP_RC_USER_UNKNOWN ∨ code = .OTP_RC_AUTHINFO_UNAVAIL →
      (otp_pw_valid env username (some chal) passcode resync opt cmpfunc data s).rc = code →
      (code = .OTP_RC_USER_UNKNOWN ∧ (env.otp_get_user_info opt.pwdfile username).1 = -1) ∨
      (code = .OTP_RC_AUTHINFO_UNAVAIL ∧
        (env.otp_get_user_info opt.pwdfile username).1 = -2) := by
    intro code hcode hrc
    cases hj : (otp_pw_valid_pre env username (some chal) passcode resync opt cmpfunc data
        s).jump with
    | auth_done_service_err rc =>
      rw [otp_pw_valid_exit env username (some chal) passcode resync opt cmpfunc data s rc hj]
        at hrc
      simp only at hrc
      subst hrc
      rcases pre_exit_inv env username (some chal) passcode resync opt cmpfunc data s rc hj with
        h | ⟨h, h1, _⟩ | ⟨h, h2, _⟩
      · rcases hcode with hc | hc <;> rw [h] at hc <;> cases hc
      · exact Or.inl ⟨h, h1⟩
      · exact Or.inr ⟨h, h2⟩
    | auth_done rc r a =>
      have h4 := otp_pw_valid_commit_rc env username passcode resync opt cmpfunc data s
        (some chal) rc r a hj
      rw [hrc] at h4
      rcases hcode with hc | hc <;> rw [hc] at h4 <;> simp at h4
  refine ⟨⟨fun h => ?_, fun h => by rw [hunk h]⟩, ⟨fun h => ?_, fun h => by rw [hunav h]⟩, ?_⟩
  · rcases hinv _ (Or.inl rfl) h with ⟨_, h1⟩ | ⟨hc, _⟩
    · exact h1
    · cases hc
  · rcases hinv _ (Or.inr rfl) h with ⟨hc, _⟩ | ⟨_, h2⟩
    · cases hc
    · exact h2
  · rintro (h | h)
    · rw [hunk h]
      exact ⟨rfl, by simp [Call.isProvider], rfl, rfl⟩
    · rw [hunav h]
      exact ⟨rfl, by simp [Call.isProvider], rfl, rfl⟩

/-- Witness of C16: the user `eve` is not in the password file: the lookup
returns -1 and the call returns `OTP_RC_USER_UNKNOWN`. -/
theorem C16_user_lookup_codes_witness :
    (otp_pw_valid (env0 {}) ['e', 'v', 'e'] (some []) (some (code0 4 1)) 0 opt0 none 0
      (store0 0 0)).rc = .OTP_RC_USER_UNKNOWN :=
  (C16_user_lookup_codes (env0 {}) ['e', 'v', 'e'] [] (some (code0 4 1)) 0 opt0 none 0
    (store0 0 0) (by simp)).1.mpr (by decide)

/-- C17: an async mismatch is not terminal: in every call in which the async
attempt is entered and the candidate differs from the expected async response,
the transformed challenge's response having been computed and compared, the
call goes on with the sync attempt, whose decision it takes; and with sync
supported and allowed, policy ok and the provider succeeding in the window, a
candidate that matches the expected sync response at an offset of
`[0, ewindow_size]` is accepted although a challenge was supplied: the commit
is reached with `OTP_RC_OK` and `resync = 1`, the sync challenge at offset 1 is
computed and handed with the key block to `otp_set_sync_data`, the store is the
one that write left and the call returns by its status; so with the
collaborators succeeding the call returns `OTP_RC_OK` and the card is
resynced. -/
theorem C17_async_mismatch_falls_through (env : Env σ) (username chal : CStr)
    (passcode : Option CStr) (resync : Int) (opt : otp_option_t)
    (cmpfunc : Option (Nat → CStr → Int)) (data : Nat) (s : σ)
    (ui : otp_user_info_t) (co : cardops_t σ) (t : Int) (fc : FC) (m : Int)
    (hres : Resolved env username passcode opt cmpfunc s ui co t fc)
    (hent : async_entered env chal opt ui)
    (hmis : async_nmatch env username chal passcode opt cmpfunc data ui co = some m)
    (hm : m ≠ 0) :
    (∃ c1 r, env.otp_challenge_transform username chal = some c1 ∧
      co.response ui c1 = some r ∧
      otp_pw_valid_pre env username (some chal) passcode resync opt cmpfunc data s =
        ((sync_response env username passcode resync opt cmpfunc data s ui co
          (pin_adjust_init opt ui.pin) t fc (expected opt ui.pin r)).after
          ([Call.challenge_transform chal, Call.response c1] ++
            (test_passcode passcode cmpfunc data (expected opt ui.pin r)).2)).after
          lookup_calls) ∧
    (fc = .OTP_FC_FAIL_NONE → sync_entered env opt ui →
      (∀ j : Nat, (j : Int) ≤ opt.ewindow_size →
        (sync_nmatch passcode opt cmpfunc data s ui co j).isSome) →
      (∃ i : Nat, (i : Int) ≤ opt.ewindow_size ∧
        sync_nmatch passcode opt cmpfunc data s ui co i = some 0) →
      (otp_pw_valid_pre env username (some chal) passcode resync opt cmpfunc data s).jump =
        .auth_done .OTP_RC_OK 1 0 ∧
      (match co.challenge s opt.syncdir ui 1 0 with
        | none =>
          (otp_pw_valid env username (some chal) passcode resync opt cmpfunc data s).rc =
            .OTP_RC_SERVICE_ERR ∧
          (otp_pw_valid env username (some chal) passcode resync opt cmpfunc data s).store = s ∧
          commit_calls
            (otp_pw_valid_pre env username (some chal) passcode resync opt cmpfunc data s)
            (otp_pw_valid env username (some chal) passcode resync opt cmpfunc data s) =
            [.challenge 1 0]
        | some ch =>
          (otp_pw_valid env username (some chal) passcode resync opt cmpfunc data s).rc =
            (if (env.otp_set_sync_data s opt.syncdir username ch ui.keyblock).1 = 0 then
              .OTP_RC_OK else .OTP_RC_SERVICE_ERR) ∧
          (otp_pw_valid env username (some chal) passcode resync opt cmpfunc data s).store =
            (env.otp_set_sync_data s opt.syncdir username ch ui.keyblock).2 ∧
          commit_calls
            (otp_pw_valid_pre env username (some chal) passcode resync opt cmpfunc data s)
            (otp_pw_valid env username (some chal) passcode resync opt cmpfunc data s) =
            [.challenge 1 0, .set_sync_data ch ui.keyblock]) ∧
      ((∃ ch, co.challenge s opt.syncdir ui 1 0 = some ch ∧
          (env.otp_set_sync_data s opt.syncdir username ch ui.keyblock).1 = 0) →
        (otp_pw_valid env username (some chal) passcode resync opt cmpfunc data s).rc =
          .OTP_RC_OK ∧
        ∃ ch, co.challenge s opt.syncdir ui 1 0 = some ch ∧
          (otp_pw_valid env username (some chal) passcode resync opt cmpfunc data s).store =
            (env.otp_set_sync_data s opt.syncdir username ch ui.keyblock).2 ∧
          commit_calls
            (otp_pw_valid_pre env username (some chal) passcode resync opt cmpfunc data s)
            (otp_pw_valid env username (some chal) passcode resync opt cmpfunc data s) =
            [.challenge 1 0, .set_sync_data ch ui.keyblock])) := by
  have hno : no_async_match env username chal passcode opt cmpfunc data ui co :=
    Or.inr ⟨m, hmis, hm⟩
  constructor
  · obtain ⟨c1, r, hc1, hr, _, heq⟩ := async_response_step env username passcode resync opt
      cmpfunc data s ui co t fc chal _ (goodBuf_init opt ui.pin) hent m hmis
    refine ⟨c1, r, hc1, hr, ?_⟩
    rw [pre_of_resolved env username passcode resync opt cmpfunc data s chal ui co t fc hres,
      heq, if_neg hm]
  · intro hfc hs hprov hex
    subst hfc
    have hend : window_end opt .OTP_FC_FAIL_NONE = opt.ewindow_size := by simp [window_end]
    have hlp : last_pos env username opt s .OTP_FC_FAIL_NONE = 0 := by simp [last_pos]
    obtain ⟨i, hi, hfirst⟩ := exists_first_sync_match passcode opt cmpfunc data s ui co
      opt.ewindow_size hprov hex
    have hj := (pre_sync_first_match env username chal passcode resync opt cmpfunc data s ui co
      t .OTP_FC_FAIL_NONE hres hno hs (by rw [hlp]) i (by rw [hend]; exact hi) hfirst).1
    have hj1 : (otp_pw_valid_pre env username (some chal) passcode resync opt cmpfunc data
        s).jump = .auth_done .OTP_RC_OK 1 0 := by rw [hj]; simp [sync_matched]
    have hu := pre_user_of_resolved env username chal passcode resync opt cmpfunc data s ui co
      t .OTP_FC_FAIL_NONE hres
    have h := otp_pw_valid_resync env username (some chal) passcode resync opt cmpfunc data s
      ui co 1 0 one_ne_zero hj1 hu
    refine ⟨hj1, ?_, ?_⟩
    · cases hc : co.challenge s opt.syncdir ui 1 0 with
      | none => rw [hc] at h; exact ⟨h.1, h.2.1, h.2.2.2⟩
      | some ch => rw [hc] at h; exact ⟨h.1, h.2.1, h.2.2.2⟩
    · rintro ⟨ch, hch, hset⟩
      rw [hch] at h
      exact ⟨by rw [h.1]; simp [hset], ch, hch, h.2.1, h.2.2.2⟩

/-- Witness of C17: challenge `x` supplied, candidate not the async response but
the sync response at offset 1: accepted, and the card is resynced: the store
left has the counter of the challenge at offset 1. -/
theorem C17_async_mismatch_falls_through_witness :
    (otp_pw_valid (env0 {}) bob (some ['x']) (some (code0 4 1)) 0 opt0 none 0 (store0 0 0)).rc =
      .OTP_RC_OK ∧
    (otp_pw_valid (env0 {}) bob (some ['x']) (some (code0 4 1)) 0 opt0 none 0
      (store0 0 0)).store = { last_auth := 1000, last_auth_pos := 0, failcount := 0, sync := 5 } :=
  have h := ((C17_async_mismatch_falls_through (env0 {}) bob ['x'] (some (code0 4 1)) 0 opt0 none 0
    (store0 0 0) (bob_info {}) (card0 {}) 0 .OTP_FC_FAIL_NONE 1
    (resolved0 {} (store0 0 0) (code0 4 1)) (by decide) (by decide) (by decide)).2 rfl
    (by decide)
    (fun j hj => by
      have hj2 : j < 100 := by simp only [opt0] at hj; omega
      rw [sync_nmatch0 {} (store0 0 0) (code0 4 1) j hj2]; rfl)
    ⟨1, by decide, by decide⟩).2.2 ⟨_, rfl, rfl⟩
  ⟨h.1,
    let ⟨_, hch, hst, _⟩ := h.2
    hst.trans (by
      simp only [card0, env0, write0, store0, opt0, bob_info] at hch ⊢
      cases hch
      decide)⟩

/-- C19: in the async attempt and in every iteration of the window scan, the
string the candidate is compared with is exactly the PIN followed by the
provider's response when `prepend_pin` is set, and exactly the provider's
response followed by the PIN when it is not: the strings compared in a call
are, in order, the PIN-adjusted responses the provider computed in that call,
so none carries a residue of an earlier response or PIN. -/
theorem C19_expected_string_has_no_residue (env : Env σ) (username chal : CStr)
    (passcode : Option CStr) (resync : Int) (opt : otp_option_t)
    (cmpfunc : Option (Nat → CStr → Int)) (data : Nat) (s : σ)
    (ui : otp_user_info_t) (co : cardops_t σ) (t : Int) (fc : FC)
    (hres : Resolved env username passcode opt cmpfunc s ui co t fc) :
    compared (otp_pw_valid_pre env username (some chal) passcode resync opt cmpfunc data
        s).trace =
      (responded ui co (otp_pw_valid_pre env username (some chal) passcode resync opt cmpfunc
        data s).trace).map
        (fun r => if opt.prepend_pin ≠ 0 then ui.pin ++ r else r ++ ui.pin) := by
  have hfun : (fun r => if opt.prepend_pin ≠ 0 then ui.pin ++ r else r ++ ui.pin) =
      expected opt ui.pin := by
    funext r
    rfl
  rw [hfun, pre_of_resolved env username passcode resync opt cmpfunc data s chal ui co t fc
    hres]
  simp only [Pre.after_trace, compared_append, responded_append,
    async_response_compared env username passcode resync opt cmpfunc data s ui co t fc
      hres.testable chal _ (goodBuf_init opt ui.pin)]
  simp [lookup_calls, compared, responded]

/-- Witness of C19: PIN `9` prepended, challenge `x`, candidate correct at sync
offset 1: the async attempt and two iterations of the scan compare the
candidate with `9rx`, `9rcccc` and `9rccccc`. -/
theorem C19_expected_string_has_no_residue_witness :
    compared (otp_pw_valid_pre (env0 {}) bob (some ['x'])
      (some ('9' :: 'r' :: List.replicate 5 'c')) 0 { opt0 with prepend_pin := 1 } none 0
      (store0 0 0)).trace =
      [['9', 'r', 'x'], '9' :: 'r' :: List.replicate 4 'c', '9' :: 'r' :: List.replicate 5 'c'] :=
  have hres : Resolved (env0 {}) bob (some ('9' :: 'r' :: List.replicate 5 'c'))
      { opt0 with prepend_pin := 1 } none (store0 0 0) (bob_info {}) (card0 {}) 0
      .OTP_FC_FAIL_NONE :=
    { resolved0 {} (store0 0 0) ('9' :: 'r' :: List.replicate 5 'c') with }
  (C19_expected_string_has_no_residue (env0 {}) bob ['x']
    (some ('9' :: 'r' :: List.replicate 5 'c')) 0 { opt0 with prepend_pin := 1 } none 0
    (store0 0 0) (bob_info {}) (card0 {}) 0 .OTP_FC_FAIL_NONE hres).trans (by decide)

/-- C20: for every call with the collaborators succeeding in which there is no
async match and either the sync attempt is not entered or the scan exhausts the
window without a match, the pre-commit result is `OTP_RC_AUTH_ERR` and the
failure commit records window position 0: `otp_incr_failcount` is applied to the
store, then `otp_set_last_auth_pos` with position 0 to the store that left, the
store after the call is the one the second write left, and the call returns
`OTP_RC_AUTH_ERR` when both writes succeed and `OTP_RC_SERVICE_ERR` when either
fails.  The scan examines exactly the offsets of the window, none when the
window size is negative, and nothing is scanned when the sync attempt is not
entered. -/
theorem C20_no_match_is_auth_err (env : Env σ) (username chal : CStr)
    (passcode : Option CStr) (resync : Int) (opt : otp_option_t)
    (cmpfunc : Option (Nat → CStr → Int)) (data : Nat) (s : σ)
    (ui : otp_user_info_t) (co : cardops_t σ) (t : Int) (fc : FC)
    (hres : Resolved env username passcode opt cmpfunc s ui co t fc)
    (hno : no_async_match env username chal passcode opt cmpfunc data ui co)
    (h : ¬ sync_entered env opt ui ∨
      (0 ≤ last_pos env username opt s fc ∧
        ∀ j : Nat, (j : Int) ≤ window_end opt fc →
          ∃ m, sync_nmatch passcode opt cmpfunc data s ui co j = some m ∧ m ≠ 0)) :
    (otp_pw_valid_pre env username (some chal) passcode resync opt cmpfunc data s).jump =
      .auth_done .OTP_RC_AUTH_ERR resync 0 ∧
    commit_calls (otp_pw_valid_pre env username (some chal) passcode resync opt cmpfunc data s)
      (otp_pw_valid env username (some chal) passcode resync opt cmpfunc data s) =
      [.incr_failcount, .set_last_auth_pos 0] ∧
    writes (otp_pw_valid env username (some chal) passcode resync opt cmpfunc data s).trace =
      [.incr_failcount, .set_last_auth_pos 0] ∧
    (sync_entered env opt ui →
      challenge_offsets (otp_pw_valid_pre env username (some chal) passcode resync opt cmpfunc
        data s).trace = List.range (window_end opt fc + 1).toNat) ∧
    (sync_entered env opt ui → window_end opt fc < 0 →
      challenge_offsets (otp_pw_valid_pre env username (some chal) passcode resync opt cmpfunc
        data s).trace = []) ∧
    (¬ sync_entered env opt ui →
      challenge_offsets (otp_pw_valid_pre env username (some chal) passcode resync opt cmpfunc
        data s).trace = []) ∧
    (otp_pw_valid env username (some chal) passcode resync opt cmpfunc data s).rc =
      (if (env.otp_incr_failcount s opt.syncdir username).1 = 0 ∧
          (env.otp_set_last_auth_pos (env.otp_incr_failcount s opt.syncdir username).2
            opt.syncdir username 0).1 = 0 then .OTP_RC_AUTH_ERR else .OTP_RC_SERVICE_ERR) ∧
    (otp_pw_valid env username (some chal) passcode resync opt cmpfunc data s).store =
      (env.otp_set_last_auth_pos (env.otp_incr_failcount s opt.syncdir username).2
        opt.syncdir username 0).2 := by
  have hu := pre_user_of_resolved env username chal passcode resync opt cmpfunc data s ui co t
    fc hres
  have hskip : ¬ sync_entered env opt ui →
      (otp_pw_valid_pre env username (some chal) passcode resync opt cmpfunc data s).jump =
        .auth_done .OTP_RC_AUTH_ERR resync 0 ∧
      challenge_offsets (otp_pw_valid_pre env username (some chal) passcode resync opt cmpfunc
        data s).trace = [] := by
    intro hns
    obtain ⟨tr, e1, _, htr, heq⟩ := async_response_no_match env username passcode resync opt
      cmpfunc data s ui co t fc chal _ (goodBuf_init opt ui.pin) hno
    rw [pre_of_resolved env username passcode resync opt cmpfunc data s chal ui co t fc hres,
      heq, sync_response_not_entered env username passcode resync opt cmpfunc data s ui co t fc
        _ e1 hns]
    refine ⟨rfl, ?_⟩
    simp only [Pre.after_trace, challenge_offsets_append, htr]
    rfl
  have hscan : sync_entered env opt ui →
      (otp_pw_valid_pre env username (some chal) passcode resync opt cmpfunc data s).jump =
        .auth_done .OTP_RC_AUTH_ERR resync 0 ∧
      challenge_offsets (otp_pw_valid_pre env username (some chal) passcode resync opt cmpfunc
        data s).trace = List.range (window_end opt fc + 1).toNat := by
    intro hs
    rcases h with hns | ⟨hpos, hmis⟩
    · exact absurd hs hns
    · exact pre_sync_no_match env username chal passcode resync opt cmpfunc data s ui co t fc
        hres hno hs hpos hmis
  have hj : (otp_pw_valid_pre env username (some chal) passcode resync opt cmpfunc data
      s).jump = .auth_done .OTP_RC_AUTH_ERR resync 0 := by
    by_cases hs : sync_entered env opt ui
    · exact (hscan hs).1
    · exact (hskip hs).1
  obtain ⟨h1, h2, h3, h4⟩ := otp_pw_valid_failure env username (some chal) passcode resync opt
    cmpfunc data s ui co .OTP_RC_AUTH_ERR resync 0 (by decide) hj hu
  refine ⟨hj, h4, h3, fun hs => (hscan hs).2, fun hs hneg => ?_, fun hns => (hskip hns).2, h1,
    h2⟩
  rw [(hscan hs).2]
  have : (window_end opt fc + 1).toNat = 0 := by omega
  rw [this]
  rfl

/-- Witness of C20: policy ok, base window `[0, 2]`, and a candidate that is
correct only at offset 7: the scan examines the offsets 0, 1 and 2 without a
match, the result is `OTP_RC_AUTH_ERR`, and the store left has one more failure
and position 0.  With a base window of negative size no offset is examined. -/
theorem C20_no_match_is_auth_err_witness :
    ((otp_pw_valid_pre (env0 {}) bob (some []) (some (code0 4 7)) 0 opt0 none 0
        (store0 0 0)).jump = .auth_done .OTP_RC_AUTH_ERR 0 0 ∧
      challenge_offsets (otp_pw_valid_pre (env0 {}) bob (some []) (some (code0 4 7)) 0 opt0 none
        0 (store0 0 0)).trace = [0, 1, 2] ∧
      (otp_pw_valid (env0 {}) bob (some []) (some (code0 4 7)) 0 opt0 none 0 (store0 0 0)).rc =
        .OTP_RC_AUTH_ERR ∧
      (otp_pw_valid (env0 {}) bob (some []) (some (code0 4 7)) 0 opt0 none 0
        (store0 0 0)).store =
        { last_auth := 1000, last_auth_pos := 0, failcount := 1, sync := 4 }) ∧
    ((otp_pw_valid_pre (env0 {}) bob (some []) (some (code0 4 0)) 0
        { opt0 with ewindow_size := -1 } none 0 (store0 0 0)).jump =
        .auth_done .OTP_RC_AUTH_ERR 0 0 ∧
      challenge_offsets (otp_pw_valid_pre (env0 {}) bob (some []) (some (code0 4 0)) 0
        { opt0 with ewindow_size := -1 } none 0 (store0 0 0)).trace = []) :=
  have h := C20_no_match_is_auth_err (env0 {}) bob [] (some (code0 4 7)) 0 opt0 none 0
    (store0 0 0) (bob_info {}) (card0 {}) 0 .OTP_FC_FAIL_NONE
    (resolved0 {} (store0 0 0) (code0 4 7)) (Or.inl (by decide))
    (Or.inr ⟨by decide, fun j hj => by
      have hw : window_end opt0 .OTP_FC_FAIL_NONE = 2 := by decide
      rw [hw] at hj
      rw [sync_nmatch0 {} (store0 0 0) (code0 4 7) j (by simp only; omega)]
      refine ⟨_, rfl, ?_⟩
      obtain rfl | rfl | rfl : j = 0 ∨ j = 1 ∨ j = 2 := by omega
      all_goals decide⟩)
  have hres : Resolved (env0 {}) bob (some (code0 4 0)) { opt0 with ewindow_size := -1 } none
      (store0 0 0) (bob_info {}) (card0 {}) 0 .OTP_FC_FAIL_NONE :=
    { resolved0 {} (store0 0 0) (code0 4 0) with }
  have hneg := C20_no_match_is_auth_err (env0 {}) bob [] (some (code0 4 0)) 0
    { opt0 with ewindow_size := -1 } none 0 (store0 0 0) (bob_info {}) (card0 {}) 0
    .OTP_FC_FAIL_NONE hres (Or.inl (by decide))
    (Or.inr ⟨by decide, fun j hj => by
      have : window_end { opt0 with ewindow_size := -1 } .OTP_FC_FAIL_NONE = -1 := by decide
      rw [this] at hj
      omega⟩)
  ⟨⟨h.1, (h.2.2.2.1 (by decide)).trans (by decide), h.2.2.2.2.2.2.1.trans (by decide),
      h.2.2.2.2.2.2.2.trans (by decide)⟩,
    hneg.1, hneg.2.2.2.2.1 (by decide) (by decide)⟩

/-- C21: the async attempt is entered only if the challenge is non-empty, the
feature mask has the async bit and `allow_async` is set: a call in which
`otp_challenge_transform` is invoked, or which is accepted in async mode, is a
resolved call in which all three hold.  So with an empty challenge, or with
`allow_async` 0, the transform is not invoked and the call is not accepted in
async mode, whatever the candidate.  In every resolved call in which one of the
three fails, the decision part is the five lookups followed by the sync attempt
on the untouched buffer, so the sync attempt alone decides;
`otp_challenge_transform` is not invoked; every response the provider computes
is the response to the sync challenge of a window offset; and the call is not
accepted in async mode. -/
theorem C21_async_attempt_gate (env : Env σ) (username chal : CStr)
    (passcode : Option CStr) (resync : Int) (opt : otp_option_t)
    (cmpfunc : Option (Nat → CStr → Int)) (data : Nat) (s : σ) :
    (((∃ c ∈ (otp_pw_valid env username (some chal) passcode resync opt cmpfunc data s).trace,
          c.isTransform = true) ∨
        accepted_async
          (otp_pw_valid_pre env username (some chal) passcode resync opt cmpfunc data s)) →
      ∃ (ui : otp_user_info_t) (co : cardops_t σ) (t : Int) (fc : FC),
        Resolved env username passcode opt cmpfunc s ui co t fc ∧
        chal ≠ [] ∧ ui.featuremask &&& env.OTP_CF_AM ≠ 0 ∧ opt.allow_async ≠ 0) ∧
    (chal = [] ∨ opt.allow_async = 0 →
      (∀ c ∈ (otp_pw_valid env username (some chal) passcode resync opt cmpfunc data s).trace,
        c.isTransform = false) ∧
      ¬ accepted_async
        (otp_pw_valid_pre env username (some chal) passcode resync opt cmpfunc data s)) ∧
    (∀ (ui : otp_user_info_t) (co : cardops_t σ) (t : Int) (fc : FC),
      Resolved env username passcode opt cmpfunc s ui co t fc →
      chal = [] ∨ ui.featuremask &&& env.OTP_CF_AM = 0 ∨ opt.allow_async = 0 →
      ¬ async_entered env chal opt ui ∧
      otp_pw_valid_pre env username (some chal) passcode resync opt cmpfunc data s =
        (sync_response env username passcode resync opt cmpfunc data s ui co
          (pin_adjust_init opt ui.pin) t fc (e_response_init opt ui.pin)).after lookup_calls ∧
      (∀ c ∈ (otp_pw_valid env username (some chal) passcode resync opt cmpfunc data s).trace,
        c.isTransform = false) ∧
      (∀ ch, Call.response ch ∈
          (otp_pw_valid env username (some chal) passcode resync opt cmpfunc data s).trace →
        ∃ j, co.challenge s opt.syncdir ui j 0 = some ch) ∧
      ¬ accepted_async
        (otp_pw_valid_pre env username (some chal) passcode resync opt cmpfunc data s)) := by
  have hgate : ((∃ c ∈ (otp_pw_valid env username (some chal) passcode resync opt cmpfunc data
        s).trace, c.isTransform = true) ∨
      accepted_async
        (otp_pw_valid_pre env username (some chal) passcode resync opt cmpfunc data s)) →
      ∃ (ui : otp_user_info_t) (co : cardops_t σ) (t : Int) (fc : FC),
        Resolved env username passcode opt cmpfunc s ui co t fc ∧
        chal ≠ [] ∧ ui.featuremask &&& env.OTP_CF_AM ≠ 0 ∧ opt.allow_async ≠ 0 := by
    intro h
    rcases pre_shape env username (some chal) passcode resync opt cmpfunc data s with
      ⟨rc, tr, u, heq, htr, _⟩ | ⟨chal1, ui, co, t, fc, hch, hres⟩
    · exfalso
      rcases h with ⟨c, hc, hk⟩ | ⟨⟨r, a, hj⟩, _⟩
      · rcases otp_pw_valid_calls env username passcode resync opt cmpfunc data s (some chal) c
          hc with hc | hc | hc
        · rw [heq] at hc
          have := htr c hc
          simp only [lookup_calls, List.mem_cons, List.mem_singleton, List.not_mem_nil,
            or_false] at this
          rcases this with rfl | rfl | rfl | rfl | rfl <;> cases hk
        · cases c <;> simp_all [Call.isWrite, Call.isTransform]
        · subst hc; cases hk
      · rw [heq] at hj
        cases hj
    · cases hch
      refine ⟨ui, co, t, fc, hres, ?_⟩
      have hpre := pre_of_resolved env username passcode resync opt cmpfunc data s chal ui co t
        fc hres
      rcases h with ⟨c, hc, hk⟩ | ⟨⟨r, a, hj⟩, hoff⟩
      · rcases otp_pw_valid_calls env username passcode resync opt cmpfunc data s (some chal) c
          hc with hc | hc | hc
        · rw [hpre] at hc
          simp only [Pre.after_trace, List.mem_append] at hc
          rcases hc with hc | hc
          · exfalso
            simp only [lookup_calls, List.mem_cons, List.mem_singleton, List.not_mem_nil,
              or_false] at hc
            rcases hc with rfl | rfl | rfl | rfl | rfl <;> cases hk
          · rcases async_response_calls env username passcode resync opt cmpfunc data s ui co t
              fc chal _ _ c hc with ⟨_, hent⟩ | ⟨h1, _⟩ | ⟨j, h1⟩ | ⟨ch, h1⟩ | ⟨e1, h1⟩
            · exact hent
            · subst h1; cases hk
            · subst h1; cases hk
            · subst h1; cases hk
            · rcases test_passcode_calls passcode cmpfunc data e1 c h1 with
                ⟨p, _, h2⟩ | ⟨_, _, h2⟩ <;> (subst h2; cases hk)
        · exfalso
          cases c <;> simp_all [Call.isWrite, Call.isTransform]
        · subst hc; cases hk
      · rw [hpre] at hj hoff
        rcases async_response_ok_inv env username passcode resync opt cmpfunc data s ui co t fc
          chal _ (goodBuf_init opt ui.pin) r a (by simpa using hj) with
          ⟨hent, _⟩ | ⟨_, _, _, hne, _⟩
        · exact hent
        · exfalso
          apply hne
          simpa [challenge_offsets_append, lookup_calls, challenge_offsets] using hoff
  refine ⟨hgate, fun h => ⟨fun c hc => ?_, fun hacc => ?_⟩, fun ui co t fc hres h => ?_⟩
  · cases hk : c.isTransform with
    | false => rfl
    | true =>
      obtain ⟨_, _, _, _, _, h1, _, h3⟩ := hgate (Or.inl ⟨c, hc, hk⟩)
      rcases h with h | h
      · exact absurd h h1
      · exact absurd h h3
  · obtain ⟨_, _, _, _, _, h1, _, h3⟩ := hgate (Or.inr hacc)
    rcases h with h | h
    · exact absurd h h1
    · exact absurd h h3
  · have hne : ¬ async_entered env chal opt ui := by
      rintro ⟨h1, h2, h3⟩
      rcases h with h | h | h
      · exact h1 h
      · exact h2 h
      · exact h3 h
    have heq : otp_pw_valid_pre env username (some chal) passcode resync opt cmpfunc data s =
        (sync_response env username passcode resync opt cmpfunc data s ui co
          (pin_adjust_init opt ui.pin) t fc (e_response_init opt ui.pin)).after lookup_calls := by
      rw [pre_of_resolved env username passcode resync opt cmpfunc data s chal ui co t fc hres,
        async_response_skipped env username passcode resync opt cmpfunc data s ui co t fc chal _
          _ hne]
    refine ⟨hne, heq, fun c hc => ?_, fun ch hc => ?_, ?_⟩
    · rcases otp_pw_valid_calls env username passcode resync opt cmpfunc data s (some chal) c hc
        with hc | hc | hc
      · rw [heq] at hc
        simp only [Pre.after_trace, List.mem_append] at hc
        rcases hc with hc | hc
        · simp only [lookup_calls, List.mem_cons, List.mem_singleton, List.not_mem_nil,
            or_false] at hc
          rcases hc with rfl | rfl | rfl | rfl | rfl <;> rfl
        · have := sync_response_inSync env username passcode resync opt cmpfunc data s ui co t
            fc _ _ c hc
          cases c <;> simp_all [Call.inSync, Call.isTransform]
      · cases c <;> simp_all [Call.isWrite, Call.isTransform]
      · subst hc; rfl
    · rcases otp_pw_valid_calls env username passcode resync opt cmpfunc data s (some chal) _ hc
        with hc | hc | hc
      · rw [heq] at hc
        simp only [Pre.after_trace, List.mem_append] at hc
        rcases hc with hc | hc
        · simp [lookup_calls] at hc
        · exact sync_response_response env username passcode resync opt cmpfunc data s ui co t
            fc _ _ ch hc
      · simp [Call.isWrite] at hc
      · cases hc
    · rintro ⟨⟨r, a, hj⟩, hoff⟩
      rw [heq] at hj hoff
      obtain ⟨_, _, h3⟩ := sync_response_ok env username passcode resync opt cmpfunc data s ui
        co t fc _ _ r a (by simpa using hj)
      apply h3
      simpa [challenge_offsets_append, lookup_calls, challenge_offsets] using hoff

/-- Witness of C21: async mode disabled by configuration, challenge `x`
supplied, and the candidate `rx9` is the expected async response: the call is
not accepted in async mode. -/
theorem C21_async_attempt_gate_witness :
    async_nmatch (env0 {}) bob ['x'] (some ['r', 'x', '9']) { opt0 with allow_async := 0 } none 0
      (bob_info {}) (card0 {}) = some 0 ∧
    ¬ accepted_async (otp_pw_valid_pre (env0 {}) bob (some ['x']) (some ['r', 'x', '9']) 0
      { opt0 with allow_async := 0 } none 0 (store0 0 0)) ∧
    (otp_pw_valid (env0 {}) bob (some ['x']) (some ['r', 'x', '9']) 0
      { opt0 with allow_async := 0 } none 0 (store0 0 0)).rc = .OTP_RC_AUTH_ERR :=
  ⟨by decide,
    ((C21_async_attempt_gate (env0 {}) bob ['x'] (some ['r', 'x', '9']) 0
      { opt0 with allow_async := 0 } none 0 (store0 0 0)).2.1 (Or.inr rfl)).2, by decide⟩

/-- C22: the code at the input soft-fail, `ewindow_size = 5`, `ewindow2_size = 2`,
candidate correct exactly at offset 4.  The claim has the window widened, every
offset of the base window `[0, 5]` still examined, and the candidate found at
offset 4.  The code sets `end = opt->ewindow2_size` (line 273, under the comment
"Increase window for ewindow2"), so the window shrinks to `[0, 2]`: only the
offsets 0, 1 and 2 are examined, the candidate is not found, the decision is
`OTP_RC_AUTH_ERR` with position 0 (neither acceptance nor an override candidate
at 4), and the call returns `OTP_RC_AUTH_ERR`. -/
theorem C22_extended_window_shrinks :
    (env0 {}).otp_check_failcount (store0 3 0) bob
      { opt0 with ewindow_size := 5, ewindow2_size := 2 } = .OTP_FC_FAIL_SOFT ∧
    sync_nmatch (some (code0 4 4)) { opt0 with ewindow_size := 5, ewindow2_size := 2 } none 0
      (store0 3 0) (bob_info {}) (card0 {}) 4 = some 0 ∧
    (∀ j, j < 4 →
      sync_nmatch (some (code0 4 4)) { opt0 with ewindow_size := 5, ewindow2_size := 2 } none 0
        (store0 3 0) (bob_info {}) (card0 {}) j = some 1) ∧
    challenge_offsets (otp_pw_valid_pre (env0 {}) bob (some []) (some (code0 4 4)) 0
      { opt0 with ewindow_size := 5, ewindow2_size := 2 } none 0 (store0 3 0)).trace =
      [0, 1, 2] ∧
    (otp_pw_valid_pre (env0 {}) bob (some []) (some (code0 4 4)) 0
      { opt0 with ewindow_size := 5, ewindow2_size := 2 } none 0 (store0 3 0)).jump =
      .auth_done .OTP_RC_AUTH_ERR 0 0 ∧
    (otp_pw_valid (env0 {}) bob (some []) (some (code0 4 4)) 0
      { opt0 with ewindow_size := 5, ewindow2_size := 2 } none 0 (store0 3 0)).rc =
      .OTP_RC_AUTH_ERR := by
  decide

/-- C23, as the code has it: three calls at the left edge of the window, for a
user in soft-fail at each of the three calls, with an extended window of size at
least 2, no position recorded at the start, the store's writes succeeding and
each call reading back the position the call before it recorded.  The calls
present the passcodes correct first at positions 0, 1 and 2.  The first returns
`OTP_RC_AUTH_ERR` and records position 0; the second then reads position 0, so
its match at position 1 is not the second of two consecutive passcodes,
whenever it is made: it returns `OTP_RC_AUTH_ERR` and records position 1; the
third, made within the override delay of the last authentication time, returns
`OTP_RC_OK` and resyncs the card.  The store each call leaves is the one its
last write left: `otp_set_last_auth_pos` with the position, after
`otp_incr_failcount`, for the first two, `otp_set_sync_data` for the third. -/
theorem C23_left_edge_needs_three (env1 env2 env3 : Env σ) (username : CStr)
    (chal1 chal2 chal3 : CStr) (passcode1 passcode2 passcode3 : Option CStr)
    (resync1 resync2 resync3 : Int) (opt : otp_option_t)
    (cmpfunc1 cmpfunc2 cmpfunc3 : Option (Nat → CStr → Int)) (data1 data2 data3 : Nat)
    (s0 s1 s2 : σ) (ui1 ui2 ui3 : otp_user_info_t) (co1 co2 co3 : cardops_t σ) (t1 t2 t3 : Int)
    (hw2 : 2 ≤ opt.ewindow2_size)
    (hres1 : Resolved env1 username passcode1 opt cmpfunc1 s0 ui1 co1 t1 .OTP_FC_FAIL_SOFT)
    (ha1 : no_async_match env1 username chal1 passcode1 opt cmpfunc1 data1 ui1 co1)
    (hsync1 : sync_entered env1 opt ui1)
    (hstart : env1.otp_get_last_auth_pos s0 opt.syncdir username = 0)
    (hm1 : first_sync_match passcode1 opt cmpfunc1 data1 s0 ui1 co1 0)
    (hincr1 : (env1.otp_incr_failcount s0 opt.syncdir username).1 = 0)
    (hpos1 : ∀ s a, (env1.otp_set_last_auth_pos s opt.syncdir username a).1 = 0)
    (hs1 : (otp_pw_valid env1 username (some chal1) passcode1 resync1 opt cmpfunc1 data1
      s0).store = s1)
    (hread2 : ∀ s a, env2.otp_get_last_auth_pos
      (env1.otp_set_last_auth_pos s opt.syncdir username a).2 opt.syncdir username = a)
    (hres2 : Resolved env2 username passcode2 opt cmpfunc2 s1 ui2 co2 t2 .OTP_FC_FAIL_SOFT)
    (ha2 : no_async_match env2 username chal2 passcode2 opt cmpfunc2 data2 ui2 co2)
    (hsync2 : sync_entered env2 opt ui2)
    (hm2 : first_sync_match passcode2 opt cmpfunc2 data2 s1 ui2 co2 1)
    (hincr2 : (env2.otp_incr_failcount s1 opt.syncdir username).1 = 0)
    (hpos2 : ∀ s a, (env2.otp_set_last_auth_pos s opt.syncdir username a).1 = 0)
    (hs2 : (otp_pw_valid env2 username (some chal2) passcode2 resync2 opt cmpfunc2 data2
      s1).store = s2)
    (hread3 : ∀ s a, env3.otp_get_last_auth_pos
      (env2.otp_set_last_auth_pos s opt.syncdir username a).2 opt.syncdir username = a)
    (hres3 : Resolved env3 username passcode3 opt cmpfunc3 s2 ui3 co3 t3 .OTP_FC_FAIL_SOFT)
    (ha3 : no_async_match env3 username chal3 passcode3 opt cmpfunc3 data3 ui3 co3)
    (hsync3 : sync_entered env3 opt ui3)
    (hm3 : first_sync_match passcode3 opt cmpfunc3 data3 s2 ui3 co3 2)
    (hdelay3 : env3.time - t3 < opt.ewindow2_delay)
    (hresync3 : ∃ ch, co3.challenge s2 opt.syncdir ui3 1 0 = some ch ∧
      (env3.otp_set_sync_data s2 opt.syncdir username ch ui3.keyblock).1 = 0) :
    ((otp_pw_valid env1 username (some chal1) passcode1 resync1 opt cmpfunc1 data1 s0).rc =
        .OTP_RC_AUTH_ERR ∧
      commit_calls
        (otp_pw_valid_pre env1 username (some chal1) passcode1 resync1 opt cmpfunc1 data1 s0)
        (otp_pw_valid env1 username (some chal1) passcode1 resync1 opt cmpfunc1 data1 s0) =
        [.incr_failcount, .set_last_auth_pos 0] ∧
      s1 = (env1.otp_set_last_auth_pos (env1.otp_incr_failcount s0 opt.syncdir username).2
        opt.syncdir username 0).2) ∧
    (env2.otp_get_last_auth_pos s1 opt.syncdir username = 0 ∧
      (otp_pw_valid_pre env2 username (some chal2) passcode2 resync2 opt cmpfunc2 data2 s1).jump =
        .auth_done .OTP_RC_AUTH_ERR resync2 1 ∧
      (otp_pw_valid env2 username (some chal2) passcode2 resync2 opt cmpfunc2 data2 s1).rc =
        .OTP_RC_AUTH_ERR ∧
      commit_calls
        (otp_pw_valid_pre env2 username (some chal2) passcode2 resync2 opt cmpfunc2 data2 s1)
        (otp_pw_valid env2 username (some chal2) passcode2 resync2 opt cmpfunc2 data2 s1) =
        [.incr_failcount, .set_last_auth_pos 1] ∧
      s2 = (env2.otp_set_last_auth_pos (env2.otp_incr_failcount s1 opt.syncdir username).2
        opt.syncdir username 1).2) ∧
    (env3.otp_get_last_auth_pos s2 opt.syncdir username = 1 ∧
      (otp_pw_valid env3 username (some chal3) passcode3 resync3 opt cmpfunc3 data3 s2).rc =
        .OTP_RC_OK ∧
      ∃ ch, co3.challenge s2 opt.syncdir ui3 1 0 = some ch ∧
        commit_calls
          (otp_pw_valid_pre env3 username (some chal3) passcode3 resync3 opt cmpfunc3 data3 s2)
          (otp_pw_valid env3 username (some chal3) passcode3 resync3 opt cmpfunc3 data3 s2) =
          [.challenge 1 0, .set_sync_data ch ui3.keyblock] ∧
        (otp_pw_valid env3 username (some chal3) passcode3 resync3 opt cmpfunc3 data3 s2).store =
          (env3.otp_set_sync_data s2 opt.syncdir username ch ui3.keyblock).2) := by
  have hw0 : opt.ewindow2_size ≠ 0 := by omega
  have hend : window_end opt .OTP_FC_FAIL_SOFT = opt.ewindow2_size := by
    simp [window_end, hw0]
  have hlast : ∀ (env : Env σ) (s : σ), last_pos env username opt s .OTP_FC_FAIL_SOFT =
      env.otp_get_last_auth_pos s opt.syncdir username := by
    intro env s
    simp [last_pos, hw0]
  -- the first call
  have hu1 := pre_user_of_resolved env1 username chal1 passcode1 resync1 opt cmpfunc1 data1 s0
    ui1 co1 t1 .OTP_FC_FAIL_SOFT hres1
  have hj1 : (otp_pw_valid_pre env1 username (some chal1) passcode1 resync1 opt cmpfunc1 data1
      s0).jump = .auth_done .OTP_RC_AUTH_ERR resync1 0 := by
    rw [(pre_sync_first_match env1 username chal1 passcode1 resync1 opt cmpfunc1 data1 s0 ui1
      co1 t1 .OTP_FC_FAIL_SOFT hres1 ha1 hsync1 (by rw [hlast, hstart]) 0
      (by rw [hend]; push_cast; omega) hm1).1, hlast, hstart]
    simp [sync_matched, hw0]
  obtain ⟨hrc1, hst1, _, hcc1⟩ := otp_pw_valid_failure env1 username (some chal1) passcode1
    resync1 opt cmpfunc1 data1 s0 ui1 co1 .OTP_RC_AUTH_ERR resync1 0 (by decide) hj1 hu1
  -- the second call
  have hrd2 : env2.otp_get_last_auth_pos s1 opt.syncdir username = 0 := by
    rw [← hs1, hst1, hread2]
    rfl
  have hu2 := pre_user_of_resolved env2 username chal2 passcode2 resync2 opt cmpfunc2 data2 s1
    ui2 co2 t2 .OTP_FC_FAIL_SOFT hres2
  have hj2 : (otp_pw_valid_pre env2 username (some chal2) passcode2 resync2 opt cmpfunc2 data2
      s1).jump = .auth_done .OTP_RC_AUTH_ERR resync2 1 := by
    rw [(pre_sync_first_match env2 username chal2 passcode2 resync2 opt cmpfunc2 data2 s1 ui2
      co2 t2 .OTP_FC_FAIL_SOFT hres2 ha2 hsync2 (by rw [hlast, hrd2]) 1
      (by rw [hend]; push_cast; omega) hm2).1, hlast, hrd2]
    simp [sync_matched, hw0]
  obtain ⟨hrc2, hst2, _, hcc2⟩ := otp_pw_valid_failure env2 username (some chal2) passcode2
    resync2 opt cmpfunc2 data2 s1 ui2 co2 .OTP_RC_AUTH_ERR resync2 1 (by decide) hj2 hu2
  -- the third call
  have hrd3 : env3.otp_get_last_auth_pos s2 opt.syncdir username = 1 := by
    rw [← hs2, hst2, hread3]
    rfl
  have hu3 := pre_user_of_resolved env3 username chal3 passcode3 resync3 opt cmpfunc3 data3 s2
    ui3 co3 t3 .OTP_FC_FAIL_SOFT hres3
  have hj3 : (otp_pw_valid_pre env3 username (some chal3) passcode3 resync3 opt cmpfunc3 data3
      s2).jump = .auth_done .OTP_RC_OK 1 0 := by
    rw [(pre_sync_first_match env3 username chal3 passcode3 resync3 opt cmpfunc3 data3 s2 ui3
      co3 t3 .OTP_FC_FAIL_SOFT hres3 ha3 hsync3 (by rw [hlast, hrd3]; decide) 2
      (by rw [hend]; push_cast; omega) hm3).1, hlast, hrd3]
    simp [sync_matched, hw0, hdelay3]
  have h3 := otp_pw_valid_resync env3 username (some chal3) passcode3 resync3 opt cmpfunc3
    data3 s2 ui3 co3 1 0 one_ne_zero hj3 hu3
  obtain ⟨ch, hch, hset⟩ := hresync3
  rw [hch] at h3
  refine ⟨⟨?_, hcc1, by rw [← hs1, hst1]⟩, ⟨hrd2, hj2, ?_, hcc2, by rw [← hs2, hst2]⟩, hrd3, ?_,
    ch, hch, h3.2.2.2, h3.2.1⟩
  · rw [hrc1]
    simp [hincr1, hpos1]
  · rw [hrc2]
    simp [hincr2, hpos2]
  · rw [h3.1]
    simp [hset]

/-- Witness of C23: three failures recorded (soft-fail), no position recorded,
extended window `[0, 5]`, delay 60; at times 10, 20 and 30 the passcodes for
positions 0, 1 and 2 are presented: rejected, rejected, accepted. -/
theorem C23_left_edge_needs_three_witness :
    (otp_pw_valid (env0 { time := 10 }) bob (some []) (some (code0 4 0)) 0 opt0 none 0
      (store0 3 0)).rc = .OTP_RC_AUTH_ERR ∧
    (otp_pw_valid (env0 { time := 20 }) bob (some []) (some (code0 4 1)) 0 opt0 none 0
      { last_auth := 10, last_auth_pos := 0, failcount := 4, sync := 4 }).rc =
      .OTP_RC_AUTH_ERR ∧
    (otp_pw_valid (env0 { time := 30 }) bob (some []) (some (code0 4 2)) 0 opt0 none 0
      { last_auth := 20, last_auth_pos := 1, failcount := 5, sync := 4 }).rc = .OTP_RC_OK :=
  have h := C23_left_edge_needs_three (env0 { time := 10 }) (env0 { time := 20 })
    (env0 { time := 30 }) bob [] [] [] (some (code0 4 0)) (some (code0 4 1)) (some (code0 4 2))
    0 0 0 opt0 none none none 0 0 0 (store0 3 0)
    { last_auth := 10, last_auth_pos := 0, failcount := 4, sync := 4 }
    { last_auth := 20, last_auth_pos := 1, failcount := 5, sync := 4 }
    (bob_info { time := 10 }) (bob_info { time := 20 }) (bob_info { time := 30 })
    (card0 { time := 10 }) (card0 { time := 20 }) (card0 { time := 30 }) 0 10 20
    (by decide)
    (resolved0 { time := 10 } (store0 3 0) (code0 4 0)) (Or.inl (by decide)) (by decide) rfl
    ⟨by decide, fun j hj => by omega⟩
    rfl (fun _ _ => rfl) (by decide) (fun _ _ => rfl)
    (resolved0 { time := 20 } { last_auth := 10, last_auth_pos := 0, failcount := 4, sync := 4 }
      (code0 4 1)) (Or.inl (by decide)) (by decide)
    ⟨by decide, fun j hj => by
      rw [sync_nmatch0 { time := 20 }
        { last_auth := 10, last_auth_pos := 0, failcount := 4, sync := 4 } (code0 4 1) j
        (by simp only; omega)]
      refine ⟨_, rfl, ?_⟩
      obtain rfl : j = 0 := by omega
      decide⟩
    rfl (fun _ _ => rfl) (by decide) (fun _ _ => rfl)
    (resolved0 { time := 30 } { last_auth := 20, last_auth_pos := 1, failcount := 5, sync := 4 }
      (code0 4 2)) (Or.inl (by decide)) (by decide)
    ⟨by decide, fun j hj => by
      rw [sync_nmatch0 { time := 30 }
        { last_auth := 20, last_auth_pos := 1, failcount := 5, sync := 4 } (code0 4 2) j
        (by simp only; omega)]
      refine ⟨_, rfl, ?_⟩
      obtain rfl | rfl : j = 0 ∨ j = 1 := by omega
      all_goals decide⟩
    (by decide) ⟨_, rfl, rfl⟩
  ⟨h.1.1, h.2.1.2.2.1, h.2.2.2.1⟩

/-- Counterexample to C23 as stated: soft threshold 3, hard threshold 6, four
failures and no position recorded, extended window `[0, 5]`, delay 60.  The
user is in soft-fail; the passcodes correct exactly at positions 0, 1 and 2 are
presented at times 10, 20 and 30, each call on the store the call before it
left.  The first two calls return `OTP_RC_AUTH_ERR` and each adds a failure, so
at the third call the policy is hard-fail and the call returns
`OTP_RC_MAXTRIES`, not `OTP_RC_OK`. -/
theorem C23_left_edge_counterexample :
    (env0 { time := 10 }).otp_check_failcount (store0 4 0) bob opt0 = .OTP_FC_FAIL_SOFT ∧
    (env0 { time := 10 }).otp_get_last_auth_pos (store0 4 0) opt0.syncdir bob = 0 ∧
    2 ≤ opt0.ewindow2_size ∧
    (∀ p, p ≤ 2 → ∀ j, j ≤ 5 →
      (sync_nmatch (some (code0 4 p)) opt0 none 0 (store0 4 0) (bob_info {}) (card0 {}) j =
        some 0 ↔ j = p)) ∧
    (otp_pw_valid (env0 { time := 10 }) bob (some []) (some (code0 4 0)) 0 opt0 none 0
      (store0 4 0)).rc = .OTP_RC_AUTH_ERR ∧
    (otp_pw_valid (env0 { time := 20 }) bob (some []) (some (code0 4 1)) 0 opt0 none 0
      (otp_pw_valid (env0 { time := 10 }) bob (some []) (some (code0 4 0)) 0 opt0 none 0
        (store0 4 0)).store).rc = .OTP_RC_AUTH_ERR ∧
    (env0 { time := 30 }).otp_check_failcount
      (otp_pw_valid (env0 { time := 20 }) bob (some []) (some (code0 4 1)) 0 opt0 none 0
        (otp_pw_valid (env0 { time := 10 }) bob (some []) (some (code0 4 0)) 0 opt0 none 0
          (store0 4 0)).store).store bob opt0 = .OTP_FC_FAIL_HARD ∧
    (otp_pw_valid (env0 { time := 30 }) bob (some []) (some (code0 4 2)) 0 opt0 none 0
      (otp_pw_valid (env0 { time := 20 }) bob (some []) (some (code0 4 1)) 0 opt0 none 0
        (otp_pw_valid (env0 { time := 10 }) bob (some []) (some (code0 4 0)) 0 opt0 none 0
          (store0 4 0)).store).store).rc = .OTP_RC_MAXTRIES ∧
    (otp_pw_valid (env0 { time := 30 }) bob (some []) (some (code0 4 2)) 0 opt0 none 0
      (otp_pw_valid (env0 { time := 20 }) bob (some []) (some (code0 4 1)) 0 opt0 none 0
        (otp_pw_valid (env0 { time := 10 }) bob (some []) (some (code0 4 0)) 0 opt0 none 0
          (store0 4 0)).store).store).rc ≠ .OTP_RC_OK := by
  decide

/-- C24: when a literal passcode is supplied, the result of every test of the
candidate is zero exactly when the passcode equals the string it is tested
against, every comparison made in the call is a `strcmp` of that passcode, and
the comparison function is never called, even if one is also supplied.  The
comparison function is called only when the passcode is absent, and then with
the caller's context `data`, its result being the result of the test.  In both
cases the strings tested against are the expected responses: in a resolved
call, the PIN-adjusted responses the provider computed, in order. -/
theorem C24_literal_passcode_uses_strcmp (env : Env σ) (username : CStr)
    (challenge : Option CStr) (passcode : Option CStr) (resync : Int) (opt : otp_option_t)
    (cmpfunc : Option (Nat → CStr → Int)) (data : Nat) (s : σ) :
    (∀ p, passcode = some p →
      (∀ e, (test_passcode passcode cmpfunc data e).1 = 0 ↔ p = e) ∧
      (∀ c ∈ (otp_pw_valid env username challenge passcode resync opt cmpfunc data s).trace,
        c.isCmpfunc = false) ∧
      (∀ q e, Call.strcmp q e ∈
          (otp_pw_valid env username challenge passcode resync opt cmpfunc data s).trace →
        q = p ∧ e ∈ compared
          (otp_pw_valid_pre env username challenge passcode resync opt cmpfunc data s).trace)) ∧
    (∀ d e, Call.cmpfunc d e ∈
        (otp_pw_valid env username challenge passcode resync opt cmpfunc data s).trace →
      passcode = none ∧ d = data ∧
      e ∈ compared
        (otp_pw_valid_pre env username challenge passcode resync opt cmpfunc data s).trace ∧
      ∃ f, cmpfunc = some f ∧ (test_passcode passcode cmpfunc data e).1 = f data e) ∧
    (∀ (chal : CStr) (ui : otp_user_info_t) (co : cardops_t σ) (t : Int) (fc : FC),
      challenge = some chal → Resolved env username passcode opt cmpfunc s ui co t fc →
      compared (otp_pw_valid_pre env username challenge passcode resync opt cmpfunc data
          s).trace =
        (responded ui co (otp_pw_valid_pre env username challenge passcode resync opt cmpfunc
          data s).trace).map (expected opt ui.pin)) := by
  refine ⟨fun p hp => ⟨fun e => ?_, fun c hc => ?_, fun q e hc => ?_⟩, fun d e hc => ?_,
    fun chal ui co t fc hch hres => ?_⟩
  · subst hp
    simp only [test_passcode, strcmp]
    split
    · simp [*]
    · simp [*]
  · cases c with
    | cmpfunc d e =>
      obtain ⟨_, e1, h1⟩ := otp_pw_valid_tests env username challenge passcode resync opt
        cmpfunc data s _ hc (Or.inr ⟨d, e, rfl⟩)
      rcases test_passcode_calls passcode cmpfunc data e1 _ h1 with ⟨_, _, h2⟩ | ⟨h2, _⟩
      · cases h2
      · rw [hp] at h2
        cases h2
    | _ => rfl
  · obtain ⟨hpre, e1, h1⟩ := otp_pw_valid_tests env username challenge passcode resync opt
      cmpfunc data s _ hc (Or.inl ⟨q, e, rfl⟩)
    refine ⟨?_, mem_compared_strcmp q e _ hpre⟩
    rcases test_passcode_calls passcode cmpfunc data e1 _ h1 with ⟨p1, hp1, h2⟩ | ⟨_, _, h2⟩
    · rw [hp] at hp1
      cases hp1
      cases h2
      rfl
    · cases h2
  · obtain ⟨hpre, e1, h1⟩ := otp_pw_valid_tests env username challenge passcode resync opt
      cmpfunc data s _ hc (Or.inr ⟨d, e, rfl⟩)
    rcases test_passcode_calls passcode cmpfunc data e1 _ h1 with ⟨_, _, h2⟩ | ⟨hn, hf, h2⟩
    · cases h2
    · cases h2
      obtain ⟨f, hf⟩ := Option.isSome_iff_exists.mp hf
      refine ⟨hn, rfl, mem_compared_cmpfunc _ _ _ hpre, f, hf, ?_⟩
      subst hn hf
      rfl
  · subst hch
    rw [pre_of_resolved env username passcode resync opt cmpfunc data s chal ui co t fc hres]
    simp only [Pre.after_trace, compared_append, responded_append,
      async_response_compared env username passcode resync opt cmpfunc data s ui co t fc
        hres.testable chal _ (goodBuf_init opt ui.pin)]
    simp [lookup_calls, compared, responded]

/-- Witness of C24: a wrong literal passcode together with a comparison function
that accepts everything: the comparison function is not called. -/
theorem C24_literal_passcode_uses_strcmp_witness :
    ∀ c ∈ (otp_pw_valid (env0 {}) bob (some ['x']) (some ['z']) 0 opt0 (some fun _ _ => 0) 0
      (store0 0 0)).trace, c.isCmpfunc = false :=
  ((C24_literal_passcode_uses_strcmp (env0 {}) bob (some ['x']) (some ['z']) 0 opt0
    (some fun _ _ => 0) 0 (store0 0 0)).1 ['z'] rfl).2.1

/-- C25: soundness of acceptance.  Whatever the inputs and the collaborators, a
call that returns `OTP_RC_OK` is a resolved call with a challenge in which
(1) the candidate compared equal to the expected async response, in the async
attempt, or to the expected sync response at an offset of the search window, in
the scan, where that offset is the first match; (2) the failcount policy is not
hard-fail (an async acceptance needs policy ok and the last authentication at
least `chal_delay` seconds ago); (3) in soft-fail the acceptance is a sync one,
with an extended window configured, at offset `last_auth_pos + 1`, with
`last_auth_pos != 0` and less than `ewindow2_delay` seconds elapsed; and (4)
the success commit ran and its write succeeded: the resync (sync challenge at
offset 1 computed, `otp_set_sync_data` returning 0) or `otp_reset_failcount`
returning 0, the store being the one that write left. -/
theorem C25_acceptance_is_sound (env : Env σ) (username : CStr) (challenge : Option CStr)
    (passcode : Option CStr) (resync : Int) (opt : otp_option_t)
    (cmpfunc : Option (Nat → CStr → Int)) (data : Nat) (s : σ)
    (hok : (otp_pw_valid env username challenge passcode resync opt cmpfunc data s).rc =
      .OTP_RC_OK) :
    ∃ (chal : CStr) (ui : otp_user_info_t) (co : cardops_t σ) (t : Int) (fc : FC),
      challenge = some chal ∧ Resolved env username passcode opt cmpfunc s ui co t fc ∧
      ((async_entered env chal opt ui ∧
          async_nmatch env username chal passcode opt cmpfunc data ui co = some 0 ∧
          accepted_async
            (otp_pw_valid_pre env username challenge passcode resync opt cmpfunc data s) ∧
          fc = .OTP_FC_FAIL_NONE ∧ opt.chal_delay ≤ env.time - t) ∨
        (sync_entered env opt ui ∧
          accepted_sync
            (otp_pw_valid_pre env username challenge passcode resync opt cmpfunc data s) ∧
          ∃ i : Nat, (i : Int) ≤ window_end opt fc ∧
            first_sync_match passcode opt cmpfunc data s ui co i ∧
            (fc = .OTP_FC_FAIL_SOFT → opt.ewindow2_size ≠ 0 ∧
              env.otp_get_last_auth_pos s opt.syncdir username ≠ 0 ∧
              (i : Int) = env.otp_get_last_auth_pos s opt.syncdir username + 1 ∧
              env.time - t < opt.ewindow2_delay))) ∧
      fc ≠ .OTP_FC_FAIL_HARD ∧
      (fc = .OTP_FC_FAIL_SOFT →
        ¬ accepted_async
          (otp_pw_valid_pre env username challenge passcode resync opt cmpfunc data s)) ∧
      ((∃ ch, co.challenge s opt.syncdir ui 1 0 = some ch ∧
          (env.otp_set_sync_data s opt.syncdir username ch ui.keyblock).1 = 0 ∧
          commit_calls
            (otp_pw_valid_pre env username challenge passcode resync opt cmpfunc data s)
            (otp_pw_valid env username challenge passcode resync opt cmpfunc data s) =
            [.challenge 1 0, .set_sync_data ch ui.keyblock] ∧
          (otp_pw_valid env username challenge passcode resync opt cmpfunc data s).store =
            (env.otp_set_sync_data s opt.syncdir username ch ui.keyblock).2) ∨
        ((env.otp_reset_failcount s opt.syncdir username).1 = 0 ∧
          commit_calls
            (otp_pw_valid_pre env username challenge passcode resync opt cmpfunc data s)
            (otp_pw_valid env username challenge passcode resync opt cmpfunc data s) =
            [.reset_failcount] ∧
          (otp_pw_valid env username challenge passcode resync opt cmpfunc data s).store =
            (env.otp_reset_failcount s opt.syncdir username).2)) := by
  obtain ⟨r, a, hj⟩ := ok_inv env username challenge passcode resync opt cmpfunc data s hok
  rcases pre_shape env username challenge passcode resync opt cmpfunc data s with
    ⟨rc, tr, u, heq, _, _⟩ | ⟨chal, ui, co, t, fc, rfl, hres⟩
  · rw [heq] at hj
    cases hj
  have hu := pre_user_of_resolved env username chal passcode resync opt cmpfunc data s ui co t
    fc hres
  have hpre := pre_of_resolved env username passcode resync opt cmpfunc data s chal ui co t fc
    hres
  -- the commit
  have hcommit : (∃ ch, co.challenge s opt.syncdir ui 1 0 = some ch ∧
        (env.otp_set_sync_data s opt.syncdir username ch ui.keyblock).1 = 0 ∧
        commit_calls
          (otp_pw_valid_pre env username (some chal) passcode resync opt cmpfunc data s)
          (otp_pw_valid env username (some chal) passcode resync opt cmpfunc data s) =
          [.challenge 1 0, .set_sync_data ch ui.keyblock] ∧
        (otp_pw_valid env username (some chal) passcode resync opt cmpfunc data s).store =
          (env.otp_set_sync_data s opt.syncdir username ch ui.keyblock).2) ∨
      ((env.otp_reset_failcount s opt.syncdir username).1 = 0 ∧
        commit_calls
          (otp_pw_valid_pre env username (some chal) passcode resync opt cmpfunc data s)
          (otp_pw_valid env username (some chal) passcode resync opt cmpfunc data s) =
          [.reset_failcount] ∧
        (otp_pw_valid env username (some chal) passcode resync opt cmpfunc data s).store =
          (env.otp_reset_failcount s opt.syncdir username).2) := by
    by_cases hr : r = 0
    · subst hr
      obtain ⟨h1, h2, _, h4⟩ := otp_pw_valid_reset env username (some chal) passcode resync opt
        cmpfunc data s ui co a hj hu
      refine Or.inr ⟨?_, h4, h2⟩
      rw [h1] at hok
      by_contra hne
      rw [if_neg hne] at hok
      cases hok
    · have h := otp_pw_valid_resync env username (some chal) passcode resync opt cmpfunc data s
        ui co r a hr hj hu
      cases hc : co.challenge s opt.syncdir ui 1 0 with
      | none =>
        rw [hc] at h
        rw [h.1] at hok
        cases hok
      | some ch =>
        rw [hc] at h
        obtain ⟨h1, h2, _, h4⟩ := h
        refine Or.inl ⟨ch, rfl, ?_, h4, h2⟩
        rw [h1] at hok
        by_contra hne
        rw [if_neg hne] at hok
        cases hok
  -- the decision
  have hj1 := hj
  rw [hpre] at hj1
  have hdec := async_response_ok_inv env username passcode resync opt cmpfunc data s ui co t fc
    chal _ (goodBuf_init opt ui.pin) r a (by simpa using hj1)
  have hoff : challenge_offsets (otp_pw_valid_pre env username (some chal) passcode resync opt
      cmpfunc data s).trace = challenge_offsets (async_response env username chal passcode
      resync opt cmpfunc data s ui co (pin_adjust_init opt ui.pin) t fc
      (e_response_init opt ui.pin)).trace := by
    rw [hpre]
    simp [challenge_offsets_append, lookup_calls, challenge_offsets]
  refine ⟨chal, ui, co, t, fc, rfl, hres, ?_⟩
  rcases hdec with ⟨hent, hm, hacc, hnil⟩ | ⟨_, hs, hpos, hne, i, hi, hfirst, hacc⟩
  · obtain ⟨_, h2, h3, h4⟩ := async_matched_ok_inv env resync opt t fc r a hacc
    have hnone : fc = .OTP_FC_FAIL_NONE := by
      have := hres.policy_ok
      cases fc <;> simp_all
    have hasync : accepted_async
        (otp_pw_valid_pre env username (some chal) passcode resync opt cmpfunc data s) :=
      ⟨⟨r, a, hj⟩, by rw [hoff]; exact hnil⟩
    refine ⟨Or.inl ⟨hent, hm, hasync, hnone, not_lt.mp h4⟩, h2, fun hsoft => absurd hsoft h3,
      hcommit⟩
  · obtain ⟨h1, h2⟩ := sync_matched_ok_inv env resync opt t fc _ i r a hacc
    have hsync : accepted_sync
        (otp_pw_valid_pre env username (some chal) passcode resync opt cmpfunc data s) :=
      ⟨⟨r, a, hj⟩, by rw [hoff]; exact hne⟩
    refine ⟨Or.inr ⟨hs, hsync, i, hi, hfirst, fun hsoft => ?_⟩, h1, fun _ hasync => ?_, hcommit⟩
    · obtain ⟨hw2, hov⟩ := h2 hsoft
      have hl : last_pos env username opt s fc =
          env.otp_get_last_auth_pos s opt.syncdir username := by
        simp only [last_pos, if_pos (And.intro hw2 hsoft)]
      rw [hl] at hov
      exact ⟨hw2, hov⟩
    · exact hsync.2 hasync.2

/-- Witness of C25: policy ok, the passcode correct at sync offset 1 is
accepted. -/
theorem C25_acceptance_is_sound_witness :
    (otp_pw_valid (env0 {}) bob (some []) (some (code0 4 1)) 0 opt0 none 0 (store0 0 0)).rc =
      .OTP_RC_OK ∧
    ∃ (chal : CStr) (ui : otp_user_info_t) (co : cardops_t SyncState) (t : Int) (fc : FC),
      some [] = some chal ∧
      Resolved (env0 {}) bob (some (code0 4 1)) opt0 none (store0 0 0) ui co t fc ∧
      fc ≠ .OTP_FC_FAIL_HARD :=
  ⟨by decide,
    let ⟨chal, ui, co, t, fc, h1, h2, _, h4, _⟩ := C25_acceptance_is_sound (env0 {}) bob
      (some []) (some (code0 4 1)) 0 opt0 none 0 (store0 0 0) (by decide)
    ⟨chal, ui, co, t, fc, h1, h2, h4⟩⟩

end Claims

end Otp

namespace Detail

/-! ## The writes of `detail_write` -/

section Loop

variable {η φ : Type} (env : Env η φ) (inst : rlm_detail_t η) (compat : Bool)

theorem pair_prints_append (a b : List Call) :
    pair_prints (a ++ b) = pair_prints a ++ pair_prints b := by
  induction a with
  | nil => rfl
  | cons c a ih => cases c <;> simp [pair_prints, ih]

theorem pair_prints_map (l : List VALUE_PAIR) :
    pair_prints (l.map Call.fr_pair_fprint) = l := by
  induction l with
  | nil => rfl
  | cons v l ih => simp [pair_prints, ih]

theorem pair_prints_fprintf (l : Line) : pair_prints [Call.fprintf l] = [] := rfl

/-- The loop leaves every pair as it found it: the operator is put back after
the print. -/
theorem write_vps_restores : ∀ (vps : List VALUE_PAIR) (out : φ),
    (write_vps env inst compat vps out).2.2 = vps := by
  intro vps
  induction vps with
  | nil => intro out; rfl
  | cons vp rest ih =>
    intro out
    unfold write_vps
    split
    · simp only [ih]
    · split
      · simp only [ih]
      · simp only [ih]

/-- The loop prints exactly the pairs that are neither suppressed nor the
password in compatibility mode, in list order, each with the operator `=`. -/
theorem write_vps_prints : ∀ (vps : List VALUE_PAIR) (out : φ),
    (write_vps env inst compat vps out).2.1 =
      (attribute_prints env inst compat vps).map Call.fr_pair_fprint := by
  intro vps
  induction vps with
  | nil => intro out; rfl
  | cons vp rest ih =>
    intro out
    unfold write_vps
    split
    · rename_i h
      have hp : printed env inst compat vp = false := by
        simp only [printed, suppressed, h, Bool.not_true, Bool.false_and]
      simp only [ih, attribute_prints, List.filter_cons, hp, Bool.false_eq_true, if_false]
    · rename_i h
      split
      · rename_i h2
        have hp : printed env inst compat vp = false := by
          simp only [printed, is_password]
          simp [h2.1, h2.2.1, h2.2.2]
        simp only [ih, attribute_prints, List.filter_cons, hp, Bool.false_eq_true, if_false]
      · rename_i h2
        have hp : printed env inst compat vp = true := by
          simp only [printed, suppressed, is_password]
          simp only [Bool.not_eq_true] at h
          rw [h]
          simp only [Bool.not_false, Bool.true_and, Bool.not_eq_true', Bool.and_eq_false_imp,
            decide_eq_false_iff_not]
          intro hc hv
          exact h2 ⟨hc, hv⟩
        simp only [ih, attribute_prints, List.filter_cons, hp, if_true, List.map_cons, with_eq]

theorem printed_of_da (vp1 vp2 : VALUE_PAIR) (h : vp1.da = vp2.da) :
    printed env inst compat vp1 = printed env inst compat vp2 := by
  simp only [printed, suppressed, is_password, h]

/-- An attribute of the list is among the attribute prints exactly when it is to
be printed. -/
theorem mem_attribute_prints (vps : List VALUE_PAIR) (vp : VALUE_PAIR) (hvp : vp ∈ vps) :
    with_eq env vp ∈ attribute_prints env inst compat vps ↔
      printed env inst compat vp = true := by
  unfold attribute_prints
  constructor
  · intro h
    obtain ⟨vp1, h1, h2⟩ := List.mem_map.mp h
    have hda : vp1.da = vp.da := by
      have := congrArg VALUE_PAIR.da h2
      simpa [with_eq] using this
    rw [← printed_of_da env inst compat vp1 vp hda]
    exact (List.mem_filter.mp h1).2
  · intro h
    exact List.mem_map.mpr ⟨vp, List.mem_filter.mpr ⟨hvp, h⟩, rfl⟩

end Loop

section Blocks

variable {η φ : Type} (env : Env η φ)

theorem detail_fr_pair_fprint_prints (k : Nat) (out : φ) (stacked : VALUE_PAIR) :
    (pair_prints (detail_fr_pair_fprint env k out stacked).2).length ≤ 1 ∧
    ∀ vp ∈ pair_prints (detail_fr_pair_fprint env k out stacked).2, vp.op = env.T_OP_EQ := by
  unfold detail_fr_pair_fprint
  split
  · simp [pair_prints]
  · simp [pair_prints]

/-- The pairs printed for the source and destination: at most four, each with
the operator `=`. -/
theorem write_srcdst_prints (out : φ) (packet : RADIUS_PACKET) :
    (pair_prints (write_srcdst env out packet).2).length ≤ 4 ∧
    ∀ vp ∈ pair_prints (write_srcdst env out packet).2, vp.op = env.T_OP_EQ := by
  unfold write_srcdst
  simp only [pair_prints_append, List.length_append, List.mem_append]
  constructor
  · have h1 := fun k o v => (detail_fr_pair_fprint_prints env k o v).1
    have a := h1 0
    have b := h1 1
    have c := h1 2
    have d := h1 3
    refine le_trans (Nat.add_le_add (Nat.add_le_add (Nat.add_le_add (a _ _) (b _ _)) (c _ _))
      (d _ _)) (le_refl _)
  · intro vp h
    rcases h with ((h | h) | h) | h <;>
      exact (detail_fr_pair_fprint_prints env _ _ _).2 vp h

theorem write_packet_type_prints (out : φ) (packet : RADIUS_PACKET) (compat : Bool) :
    pair_prints (write_packet_type env out packet compat).2.2 = [] := by
  unfold write_packet_type
  split
  · split <;> rfl
  · rfl

theorem write_tail_prints (out : φ) (request : REQUEST) (compat : Bool) :
    pair_prints (write_tail env out request compat).2.2 = [] := by
  unfold write_tail
  have hp : ∀ p : Int × φ × List Call, pair_prints p.2.2 = [] →
      pair_prints (if p.1 < 0 then ((-1 : Int), p.2.1, p.2.2)
        else if (env.fprintf p.2.1 (.timestamp request.timestamp_sec)).1 < 0 then
          ((-1 : Int), (env.fprintf p.2.1 (.timestamp request.timestamp_sec)).2,
            p.2.2 ++ [Call.fprintf (.timestamp request.timestamp_sec)])
        else
          (if (env.fprintf (env.fprintf p.2.1 (.timestamp request.timestamp_sec)).2 .blank).1 < 0
            then (-1 : Int) else 0,
            (env.fprintf (env.fprintf p.2.1 (.timestamp request.timestamp_sec)).2 .blank).2,
            p.2.2 ++ [Call.fprintf (.timestamp request.timestamp_sec),
              Call.fprintf .blank])).2.2 = [] := by
    intro p h
    split
    · exact h
    · split
      · simp [pair_prints_append, h, pair_prints]
      · simp [pair_prints_append, h, pair_prints]
  apply hp
  split <;> rfl

end Blocks

section Claims

variable {η φ : Type}

end Claims

end Detail
